import Mathlib

/-!
# CUDA-GDB: coordinate iterator

Shallow embedding of `gdb/cuda-iterator.c`.

* C integers (`uint32_t`, `uint64_t`) are natural numbers.  No arithmetic in the
  iterator wraps as long as fewer than `2^32` records are produced, which is the
  range the embedding describes: `cudadebugger.h` bounds a system by 32 devices of
  64 SMs of 64 warps of 32 lanes, that is `2^22` records.
* The C array `itr->list` together with `itr->num_elements` is a `List`; cells at
  or beyond `num_elements` are never read by the code.
* The device state (`cuda-state.c`) and the breakpoint table of gdb are read-only
  during `cuda_iterator_create`; they are a record of query functions.
* `qsort` of the C library is any function meeting the `qsort` contract; concrete
  runs use a sort that keeps ties in their original order.
* `cuda-coords.c` and `cuda-defs.h` (comparators, equality, sentinels) are not among
  the sources; their definitions follow the spec and say so.
-/

namespace CudaGdb

/-! ## Coordinates -/

/-- Three unsigned components, `CuDim3` of `cudadebugger.h`. -/
structure CuDim3 where
  x : Nat
  y : Nat
  z : Nat
deriving DecidableEq

/-- Modelled from the spec: `cuda_coords_t` of `cuda-defs.h`, which is not among the
sources.  The spec lists the fields device, sm, warp, lane, kernelId, gridId,
blockIdx(x,y,z), threadIdx(x,y,z) and valid; the field names are the ones
`cuda-iterator.c` uses. -/
structure cuda_coords_t where
  valid : Bool
  dev : Nat
  sm : Nat
  wp : Nat
  ln : Nat
  kernelId : Nat
  gridId : Nat
  blockIdx : CuDim3
  threadIdx : CuDim3
deriving DecidableEq

/-- Modelled from the spec: the sentinel `CUDA_INVALID` of `cuda-defs.h` ("not
applicable"), taken to be the all-ones 32-bit word. -/
def CUDA_INVALID : Nat := 4294967295

/-- Modelled from the spec: the sentinel `CUDA_WILDCARD` of `cuda-defs.h` ("matches
anything"), distinct from `CUDA_INVALID`. -/
def CUDA_WILDCARD : Nat := 4294967294

/-- Modelled from the spec: `CUDA_INVALID_COORDS` of `cuda-defs.h`, the coordinate
with `valid = false` and every field at the invalid sentinel. -/
def CUDA_INVALID_COORDS : cuda_coords_t :=
  { valid := false, dev := CUDA_INVALID, sm := CUDA_INVALID, wp := CUDA_INVALID,
    ln := CUDA_INVALID, kernelId := CUDA_INVALID, gridId := CUDA_INVALID,
    blockIdx := ⟨CUDA_INVALID, CUDA_INVALID, CUDA_INVALID⟩,
    threadIdx := ⟨CUDA_INVALID, CUDA_INVALID, CUDA_INVALID⟩ }

/-- Modelled from the spec: `CUDA_WILDCARD_COORDS` of `cuda-defs.h`, the coordinate
with `valid = false` and every field at the wildcard sentinel. -/
def CUDA_WILDCARD_COORDS : cuda_coords_t :=
  { valid := false, dev := CUDA_WILDCARD, sm := CUDA_WILDCARD, wp := CUDA_WILDCARD,
    ln := CUDA_WILDCARD, kernelId := CUDA_WILDCARD, gridId := CUDA_WILDCARD,
    blockIdx := ⟨CUDA_WILDCARD, CUDA_WILDCARD, CUDA_WILDCARD⟩,
    threadIdx := ⟨CUDA_WILDCARD, CUDA_WILDCARD, CUDA_WILDCARD⟩ }

/-- One step of a field-by-field three-way comparison: decide on `a` against `b`,
fall through to `rest` on a tie. -/
def compare_field (a b : Nat) (rest : Int) : Int :=
  if a < b then -1 else if b < a then 1 else rest

/-- Modelled from the spec: `cuda_coords_compare_physical` of `cuda-coords.c`, which
is not among the sources: "physical order (by dev, sm, wp, ln)".  Negative, zero or
positive like a `qsort` comparator. -/
def cuda_coords_compare_physical (c1 c2 : cuda_coords_t) : Int :=
  compare_field c1.dev c2.dev
    (compare_field c1.sm c2.sm
      (compare_field c1.wp c2.wp
        (compare_field c1.ln c2.ln 0)))

/-- Modelled from the spec: `cuda_coords_compare_logical` of `cuda-coords.c`, which is
not among the sources: "logical order (by kernelId, then gridId, then
blockIdx(x,y,z), then threadIdx(x,y,z))". -/
def cuda_coords_compare_logical (c1 c2 : cuda_coords_t) : Int :=
  compare_field c1.kernelId c2.kernelId
    (compare_field c1.gridId c2.gridId
      (compare_field c1.blockIdx.x c2.blockIdx.x
        (compare_field c1.blockIdx.y c2.blockIdx.y
          (compare_field c1.blockIdx.z c2.blockIdx.z
            (compare_field c1.threadIdx.x c2.threadIdx.x
              (compare_field c1.threadIdx.y c2.threadIdx.y
                (compare_field c1.threadIdx.z c2.threadIdx.z 0)))))))

/-- Modelled from the spec: `cuda_coords_equal` of `cuda-coords.c`, which is not among
the sources.  The spec calls the records it identifies "equal records" and
"duplicate records": two coordinates are equal when all their fields are. -/
def cuda_coords_equal (c1 c2 : cuda_coords_t) : Bool :=
  c1.valid == c2.valid && c1.dev == c2.dev && c1.sm == c2.sm && c1.wp == c2.wp &&
  c1.ln == c2.ln && c1.kernelId == c2.kernelId && c1.gridId == c2.gridId &&
  c1.blockIdx.x == c2.blockIdx.x && c1.blockIdx.y == c2.blockIdx.y &&
  c1.blockIdx.z == c2.blockIdx.z && c1.threadIdx.x == c2.threadIdx.x &&
  c1.threadIdx.y == c2.threadIdx.y && c1.threadIdx.z == c2.threadIdx.z

/-! ## Iterator types and select mask -/

/-- Modelled from the spec: the `cuda_iterator_type` bits of `cuda-iterator.h` (not
among the sources): the lower nibble holds the physical depth with
DEVICES < SMS < WARPS < LANES, the upper nibble the logical depth with
KERNELS < BLOCKS < THREADS, one bit each. -/
def CUDA_ITERATOR_TYPE_DEVICES : Nat := 0x01

/-- Modelled from the spec: see `CUDA_ITERATOR_TYPE_DEVICES`. -/
def CUDA_ITERATOR_TYPE_SMS : Nat := 0x02

/-- Modelled from the spec: see `CUDA_ITERATOR_TYPE_DEVICES`. -/
def CUDA_ITERATOR_TYPE_WARPS : Nat := 0x04

/-- Modelled from the spec: see `CUDA_ITERATOR_TYPE_DEVICES`. -/
def CUDA_ITERATOR_TYPE_LANES : Nat := 0x08

/-- Modelled from the spec: see `CUDA_ITERATOR_TYPE_DEVICES`. -/
def CUDA_ITERATOR_TYPE_KERNELS : Nat := 0x10

/-- Modelled from the spec: see `CUDA_ITERATOR_TYPE_DEVICES`. -/
def CUDA_ITERATOR_TYPE_BLOCKS : Nat := 0x20

/-- Modelled from the spec: see `CUDA_ITERATOR_TYPE_DEVICES`. -/
def CUDA_ITERATOR_TYPE_THREADS : Nat := 0x40

/-- Modelled from the spec: the `cuda_select_t` bits of `cuda-iterator.h` (not among
the sources), "a bit set of {VALID, BREAKPOINT, EXCEPTION}". -/
def CUDA_SELECT_VALID : Nat := 0x1

/-- Modelled from the spec: see `CUDA_SELECT_VALID`. -/
def CUDA_SELECT_BKPT : Nat := 0x2

/-- Modelled from the spec: see `CUDA_SELECT_VALID`. -/
def CUDA_SELECT_EXCPT : Nat := 0x4

/-! ## Device state read by the iterator -/

/-- Kernel object `kernel_t`, as far as the iterator looks at it: the results of
`kernel_get_id` and `kernel_get_grid_id`. -/
structure kernel_t where
  id : Nat
  grid_id : Nat
deriving DecidableEq

/-- The accessor `kernel_get_id (kernel)`. -/
def kernel_get_id (kernel : kernel_t) : Nat := kernel.id

/-- The accessor `kernel_get_grid_id (kernel)`. -/
def kernel_get_grid_id (kernel : kernel_t) : Nat := kernel.grid_id

/-- The state queries `cuda_iterator_create` calls, one field per query.  They live in
`cuda-state.c` and in gdb proper, outside the sources, and are parameters of the
embedding.  `lane_get_exception` is a `CUDBGException_t`, with
`CUDBG_EXCEPTION_NONE = 0` (`cudadebugger.h`). -/
structure cuda_state where
  inferior_ptid : Nat
  null_ptid : Nat
  target_thread_address_space : Nat → Nat
  breakpoint_here_p : Option Nat → Nat → Bool
  cuda_system_get_num_devices : Nat
  device_is_valid : Nat → Bool
  device_get_num_sms : Nat → Nat
  device_get_num_warps : Nat → Nat
  device_get_num_lanes : Nat → Nat
  warp_is_valid : Nat → Nat → Nat → Bool
  warp_get_kernel : Nat → Nat → Nat → kernel_t
  warp_get_block_idx : Nat → Nat → Nat → CuDim3
  lane_is_valid : Nat → Nat → Nat → Nat → Bool
  lane_get_thread_idx : Nat → Nat → Nat → Nat → CuDim3
  lane_get_virtual_pc : Nat → Nat → Nat → Nat → Nat
  lane_get_exception : Nat → Nat → Nat → Nat → Nat

/-! ## The iterator -/

/-- The C struct `cuda_iterator_t`; `list` holds the `num_elements` cells in use. -/
structure cuda_iterator_t where
  type : Nat
  num_elements : Nat
  num_unique_elements : Nat
  list_size : Nat
  next_index : Nat
  current : cuda_coords_t
  list : List cuda_coords_t
deriving DecidableEq

/-- A comparator is usable by `qsort` when the relation "not after" it induces is
total and transitive. -/
def comparator_ok (cmp : cuda_coords_t → cuda_coords_t → Int) : Prop :=
  (∀ a b, cmp a b ≤ 0 ∨ cmp b a ≤ 0) ∧
  (∀ a b c, cmp a b ≤ 0 → cmp b c ≤ 0 → cmp a c ≤ 0)

/-- The C library's `qsort`, by its contract: the array is rearranged (a permutation)
into an order in which no element comes after a later one under the comparator.
The order of elements that compare equal is left to the implementation. -/
structure qsort_t where
  sort : (cuda_coords_t → cuda_coords_t → Int) → List cuda_coords_t → List cuda_coords_t
  perm : ∀ cmp l, List.Perm (sort cmp l) l
  sorted : ∀ cmp l, comparator_ok cmp → List.Pairwise (fun a b => cmp a b ≤ 0) (sort cmp l)

/-- Insert `a` before the first element that compares strictly after it. -/
def stable_insert (cmp : cuda_coords_t → cuda_coords_t → Int) (a : cuda_coords_t) :
    List cuda_coords_t → List cuda_coords_t
  | [] => [a]
  | b :: t => if cmp a b ≤ 0 then a :: b :: t else b :: stable_insert cmp a t

/-- Insertion sort that keeps elements comparing equal in their original order. -/
def stable_sort (cmp : cuda_coords_t → cuda_coords_t → Int) :
    List cuda_coords_t → List cuda_coords_t
  | [] => []
  | a :: t => stable_insert cmp a (stable_sort cmp t)

/-- The test `filter && filter->field != CUDA_WILDCARD && filter->field != v`: the filter is
present, constrains the field, and the candidate value differs. -/
def filter_rejects (filter : Option cuda_coords_t) (field : cuda_coords_t → Nat) (v : Nat) :
    Bool :=
  match filter with
  | none => false
  | some f => field f != CUDA_WILDCARD && field f != v

/-- The conversion `(bool) (select_mask & bit)`. -/
def select_has (select_mask bit : Nat) : Bool := (select_mask &&& bit) != 0

/-- Line 70. -/
def store_dev (type : Nat) : Bool :=
  decide ((type &&& 0x0f) ≥ CUDA_ITERATOR_TYPE_DEVICES) ||
  decide ((type &&& 0xf0) ≥ CUDA_ITERATOR_TYPE_KERNELS)

/-- Line 71. -/
def store_sm (type : Nat) : Bool :=
  decide ((type &&& 0x0f) ≥ CUDA_ITERATOR_TYPE_SMS) ||
  decide ((type &&& 0xf0) ≥ CUDA_ITERATOR_TYPE_BLOCKS)

/-- Line 72. -/
def store_warp (type : Nat) : Bool :=
  decide ((type &&& 0x0f) ≥ CUDA_ITERATOR_TYPE_WARPS) ||
  decide ((type &&& 0xf0) ≥ CUDA_ITERATOR_TYPE_THREADS)

/-- Line 73. -/
def store_lane (type : Nat) : Bool :=
  decide ((type &&& 0x0f) ≥ CUDA_ITERATOR_TYPE_LANES) ||
  decide ((type &&& 0xf0) ≥ CUDA_ITERATOR_TYPE_THREADS)

/-- Line 75. -/
def store_kernel (type : Nat) : Bool :=
  decide ((type &&& 0x0f) ≥ CUDA_ITERATOR_TYPE_SMS) ||
  decide ((type &&& 0xf0) ≥ CUDA_ITERATOR_TYPE_KERNELS)

/-- Line 76. -/
def store_grid (type : Nat) : Bool :=
  decide ((type &&& 0x0f) ≥ CUDA_ITERATOR_TYPE_SMS) ||
  decide ((type &&& 0xf0) ≥ CUDA_ITERATOR_TYPE_KERNELS)

/-- Line 77. -/
def store_block (type : Nat) : Bool :=
  decide ((type &&& 0x0f) ≥ CUDA_ITERATOR_TYPE_WARPS) ||
  decide ((type &&& 0xf0) ≥ CUDA_ITERATOR_TYPE_BLOCKS)

/-- Line 78. -/
def store_thread (type : Nat) : Bool :=
  decide ((type &&& 0x0f) ≥ CUDA_ITERATOR_TYPE_LANES) ||
  decide ((type &&& 0xf0) ≥ CUDA_ITERATOR_TYPE_THREADS)

/-- Line 57-58: `aspace` stays NULL when there is no current inferior thread. -/
def iterator_aspace (s : cuda_state) : Option Nat :=
  if s.inferior_ptid ≠ s.null_ptid then some (s.target_thread_address_space s.inferior_ptid)
  else none

/-- Lines 163-174: the record written to `itr->list[itr->num_elements]`. -/
def store_record (type dev sm wp ln kernelId gridId : Nat) (blockIdx threadIdx : CuDim3) :
    cuda_coords_t :=
  let c : cuda_coords_t := { CUDA_WILDCARD_COORDS with valid := true }
  { valid := c.valid
    dev := if store_dev type then dev else c.dev
    sm := if store_sm type then sm else c.sm
    wp := if store_warp type then wp else c.wp
    ln := if store_lane type then ln else c.ln
    kernelId := if store_kernel type then kernelId else c.kernelId
    gridId := if store_grid type then gridId else c.gridId
    blockIdx := if store_block type then blockIdx else c.blockIdx
    threadIdx := if store_thread type then threadIdx else c.threadIdx }

/-- Lines 123-177: body of the lane loop for one `ln`; `none` is a `continue`. -/
def lane_body (s : cuda_state) (type : Nat) (filter : Option cuda_coords_t)
    (select_mask : Nat) (dev sm wp kernelId gridId : Nat) (blockIdx : CuDim3) (ln : Nat) :
    Option cuda_coords_t :=
  let valid := select_has select_mask CUDA_SELECT_VALID
  let at_breakpoint := select_has select_mask CUDA_SELECT_BKPT
  let at_exception := select_has select_mask CUDA_SELECT_EXCPT
  if valid && !s.lane_is_valid dev sm wp ln then none
  else if filter_rejects filter (fun f => f.ln) ln then none
  else
    let threadIdx : CuDim3 :=
      if s.warp_is_valid dev sm wp && s.lane_is_valid dev sm wp ln then
        s.lane_get_thread_idx dev sm wp ln
      else ⟨CUDA_INVALID, CUDA_INVALID, CUDA_INVALID⟩
    if filter_rejects filter (fun f => f.threadIdx.x) threadIdx.x ||
       filter_rejects filter (fun f => f.threadIdx.y) threadIdx.y ||
       filter_rejects filter (fun f => f.threadIdx.z) threadIdx.z then none
    else if at_breakpoint && s.warp_is_valid dev sm wp && s.lane_is_valid dev sm wp ln &&
        !s.breakpoint_here_p (iterator_aspace s) (s.lane_get_virtual_pc dev sm wp ln) then none
    else if at_exception && s.warp_is_valid dev sm wp && s.lane_is_valid dev sm wp ln &&
        s.lane_get_exception dev sm wp ln == 0 then none
    else some (store_record type dev sm wp ln kernelId gridId blockIdx threadIdx)

/-- Lines 94-178: body of the warp loop for one `wp`: the records it appends. -/
def warp_body (s : cuda_state) (type : Nat) (filter : Option cuda_coords_t)
    (select_mask : Nat) (dev sm wp : Nat) : List cuda_coords_t :=
  let valid := select_has select_mask CUDA_SELECT_VALID
  if valid && !s.warp_is_valid dev sm wp then []
  else if filter_rejects filter (fun f => f.wp) wp then []
  else
    let kernelId : Nat :=
      if s.warp_is_valid dev sm wp then kernel_get_id (s.warp_get_kernel dev sm wp)
      else CUDA_INVALID
    let gridId : Nat :=
      if s.warp_is_valid dev sm wp then kernel_get_grid_id (s.warp_get_kernel dev sm wp)
      else CUDA_INVALID
    let blockIdx : CuDim3 :=
      if s.warp_is_valid dev sm wp then s.warp_get_block_idx dev sm wp
      else ⟨CUDA_INVALID, CUDA_INVALID, CUDA_INVALID⟩
    if filter_rejects filter (fun f => f.kernelId) kernelId ||
       filter_rejects filter (fun f => f.gridId) gridId ||
       filter_rejects filter (fun f => f.blockIdx.x) blockIdx.x ||
       filter_rejects filter (fun f => f.blockIdx.y) blockIdx.y ||
       filter_rejects filter (fun f => f.blockIdx.z) blockIdx.z then []
    else
      (List.range (s.device_get_num_lanes dev)).filterMap
        (lane_body s type filter select_mask dev sm wp kernelId gridId blockIdx)

/-- Lines 89-179: body of the SM loop for one `sm`. -/
def sm_body (s : cuda_state) (type : Nat) (filter : Option cuda_coords_t)
    (select_mask : Nat) (dev sm : Nat) : List cuda_coords_t :=
  if filter_rejects filter (fun f => f.sm) sm then []
  else
    (List.range (s.device_get_num_warps dev)).flatMap
      (warp_body s type filter select_mask dev sm)

/-- Lines 82-180: body of the device loop for one `dev`. -/
def dev_body (s : cuda_state) (type : Nat) (filter : Option cuda_coords_t)
    (select_mask : Nat) (dev : Nat) : List cuda_coords_t :=
  let valid := select_has select_mask CUDA_SELECT_VALID
  if valid && !s.device_is_valid dev then []
  else if filter_rejects filter (fun f => f.dev) dev then []
  else
    (List.range (s.device_get_num_sms dev)).flatMap
      (sm_body s type filter select_mask dev)

/-- Lines 80-180: the records stored by the four nested loops, in the order they are
appended to `itr->list`. -/
def populate (s : cuda_state) (type : Nat) (filter : Option cuda_coords_t)
    (select_mask : Nat) : List cuda_coords_t :=
  (List.range s.cuda_system_get_num_devices).flatMap (dev_body s type filter select_mask)

/-- Lines 156-161: `list_size` after `n` records were appended; it starts at 1024 and
doubles whenever the cell about to be written is past the end. -/
def grown_list_size (n : Nat) : Nat :=
  (List.range n).foldl (fun list_size num_elements =>
    if num_elements ≥ list_size then list_size * 2 else list_size) 1024

/-- Lines 195-197: the counting loop `for (i = 1; i < num_elements; ++i)`, started at
index `i` with `fuel` iterations allowed. -/
def count_unique_loop (list : List cuda_coords_t) (num_elements : Nat) :
    Nat → Nat → Nat → Nat
  | 0, _, num_unique_elements => num_unique_elements
  | fuel + 1, i, num_unique_elements =>
    if i < num_elements then
      count_unique_loop list num_elements fuel (i + 1)
        (if !cuda_coords_equal (list.getD i CUDA_INVALID_COORDS)
              (list.getD (i - 1) CUDA_INVALID_COORDS)
         then num_unique_elements + 1 else num_unique_elements)
    else num_unique_elements

/-- Lines 190-198. -/
def count_unique (list : List cuda_coords_t) (num_elements : Nat) : Nat :=
  if num_elements > 0 then count_unique_loop list num_elements num_elements 1 1 else 0

/-- Lines 182-188: the comparator handed to `qsort`. -/
def iterator_compare (type : Nat) : cuda_coords_t → cuda_coords_t → Int :=
  if (type &&& (CUDA_ITERATOR_TYPE_KERNELS ||| CUDA_ITERATOR_TYPE_BLOCKS |||
        CUDA_ITERATOR_TYPE_THREADS)) ≠ 0
  then cuda_coords_compare_logical
  else cuda_coords_compare_physical

/-- The function `cuda_iterator_create (type, filter, select_mask)`: populate, sort, count. -/
def cuda_iterator_create (qsort : qsort_t) (s : cuda_state) (type : Nat)
    (filter : Option cuda_coords_t) (select_mask : Nat) : cuda_iterator_t :=
  let records := populate s type filter select_mask
  let list := qsort.sort (iterator_compare type) records
  { type := type
    num_elements := records.length
    num_unique_elements := count_unique list records.length
    list_size := grown_list_size records.length
    next_index := 0
    current := CUDA_INVALID_COORDS
    list := list }

/-- Lines 241-245: the hop `while (next_index < num_elements && equal (list[next_index],
list[next_index-1])) ++next_index`, with `fuel` iterations allowed. -/
def hop_duplicates (list : List cuda_coords_t) (num_elements : Nat) : Nat → Nat → Nat
  | 0, next_index => next_index
  | fuel + 1, next_index =>
    if next_index < num_elements &&
        cuda_coords_equal (list.getD next_index CUDA_INVALID_COORDS)
          (list.getD (next_index - 1) CUDA_INVALID_COORDS)
    then hop_duplicates list num_elements fuel (next_index + 1)
    else next_index

/-- The function `cuda_iterator_next (itr)`.  The hop loop runs at most `num_elements`
times. -/
def cuda_iterator_next (itr : cuda_iterator_t) : cuda_iterator_t :=
  if itr.next_index ≥ itr.num_elements then
    { itr with current := { itr.current with valid := false } }
  else
    { itr with
      current := itr.list.getD itr.next_index CUDA_INVALID_COORDS
      next_index := hop_duplicates itr.list itr.num_elements itr.num_elements
                      (itr.next_index + 1) }

/-- The function `cuda_iterator_start (itr)`. -/
def cuda_iterator_start (itr : cuda_iterator_t) : cuda_iterator_t :=
  cuda_iterator_next { itr with next_index := 0 }

/-- The function `cuda_iterator_end (itr)`: `true` when the C function returns the (non-NULL)
iterator, that is, when the traversal is over. -/
def cuda_iterator_end (itr : cuda_iterator_t) : Bool := !itr.current.valid

/-- The function `cuda_iterator_get_current (itr)`. -/
def cuda_iterator_get_current (itr : cuda_iterator_t) : cuda_coords_t := itr.current

/-- The function `cuda_iterator_get_size (itr)`. -/
def cuda_iterator_get_size (itr : cuda_iterator_t) : Nat := itr.num_unique_elements

/-- The client loop `while (!cuda_iterator_end (itr)) { visit (cuda_iterator_get_current
(itr)); cuda_iterator_next (itr); }` with `fuel` tests of the loop condition allowed:
the coordinates visited and the iterator as the loop leaves it, or `none` when the
fuel runs out before the loop exits. -/
def visit_loop : Nat → cuda_iterator_t → Option (List cuda_coords_t × cuda_iterator_t)
  | 0, _ => none
  | fuel + 1, itr =>
    if cuda_iterator_end itr then some ([], itr)
    else (visit_loop fuel (cuda_iterator_next itr)).map
      (fun r => (cuda_iterator_get_current itr :: r.1, r.2))

/-- A full traversal: `cuda_iterator_start` followed by the client loop.  One test of
the loop condition per stored record, plus the final one, is always enough. -/
def cuda_iterator_traverse (itr : cuda_iterator_t) :
    Option (List cuda_coords_t × cuda_iterator_t) :=
  visit_loop (itr.num_elements + 1) (cuda_iterator_start itr)

/-- A `qsort` that keeps ties in their original order, as the spec asks ("Sort must
be stable relative to ties"). -/
def stable_qsort : qsort_t where
  sort := stable_sort
  perm := by
    intro cmp l
    have ins : ∀ (a : cuda_coords_t) (t : List cuda_coords_t),
        List.Perm (stable_insert cmp a t) (a :: t) := by
      intro a t
      induction t with
      | nil => exact List.Perm.refl _
      | cons b t ih =>
        unfold stable_insert
        by_cases h : cmp a b ≤ 0
        · rw [if_pos h]
        · rw [if_neg h]
          exact ((List.Perm.cons b ih).trans (List.Perm.swap a b t))
    induction l with
    | nil => exact List.Perm.refl _
    | cons a t ih => exact (ins a (stable_sort cmp t)).trans (List.Perm.cons a ih)
  sorted := by
    intro cmp l hok
    have ins : ∀ (a : cuda_coords_t) (t : List cuda_coords_t),
        List.Pairwise (fun x y => cmp x y ≤ 0) t →
        List.Pairwise (fun x y => cmp x y ≤ 0) (stable_insert cmp a t) := by
      intro a t
      induction t with
      | nil => intro _; exact List.pairwise_singleton _ _
      | cons b t ih =>
        intro ht
        have hb := List.pairwise_cons.mp ht
        unfold stable_insert
        by_cases h : cmp a b ≤ 0
        · rw [if_pos h]
          refine List.pairwise_cons.mpr ⟨?_, ht⟩
          intro y hy
          rcases List.mem_cons.mp hy with rfl | hy
          · exact h
          · exact hok.2 a b y h (hb.1 y hy)
        · rw [if_neg h]
          refine List.pairwise_cons.mpr ⟨?_, ih hb.2⟩
          intro y hy
          have hmem : y ∈ a :: t := by
            have hp : List.Perm (stable_insert cmp a t) (a :: t) := by
              clear ih ht hb hy
              induction t with
              | nil => exact List.Perm.refl _
              | cons c t ih2 =>
                unfold stable_insert
                by_cases h2 : cmp a c ≤ 0
                · rw [if_pos h2]
                · rw [if_neg h2]
                  exact ((List.Perm.cons c ih2).trans (List.Perm.swap a c t))
            exact hp.subset hy
          rcases List.mem_cons.mp hmem with rfl | hy
          · rcases hok.1 b y with h1 | h1
            · exact h1
            · exact absurd h1 h
          · exact hb.1 y hy
    induction l with
    | nil => exact List.Pairwise.nil
    | cons a t ih => exact ins a (stable_sort cmp t) ih

/-! ## Example device states -/

/-- One device with 2 SMs, 2 warps per SM and 2 lanes per warp; only the warps
(sm 0, wp 0) and (sm 1, wp 1) are valid, all their lanes are valid, and every valid
warp runs kernel 7 (grid 3). -/
def two_warps_state : cuda_state where
  inferior_ptid := 1
  null_ptid := 0
  target_thread_address_space := fun _ => 0
  breakpoint_here_p := fun _ _ => false
  cuda_system_get_num_devices := 1
  device_is_valid := fun _ => true
  device_get_num_sms := fun _ => 2
  device_get_num_warps := fun _ => 2
  device_get_num_lanes := fun _ => 2
  warp_is_valid := fun _ sm wp => sm == wp
  warp_get_kernel := fun _ _ _ => ⟨7, 3⟩
  warp_get_block_idx := fun _ sm _ => ⟨sm, 0, 0⟩
  lane_is_valid := fun _ sm wp _ => sm == wp
  lane_get_thread_idx := fun _ _ _ ln => ⟨ln, 0, 0⟩
  lane_get_virtual_pc := fun _ _ _ _ => 0
  lane_get_exception := fun _ _ _ _ => 0

/-- One device with a single SM holding three valid one-lane warps: warps 0 and 2 run
kernel 1 (grid 1), warp 1 between them runs kernel 2 (grid 2). -/
def interleaved_state : cuda_state where
  inferior_ptid := 1
  null_ptid := 0
  target_thread_address_space := fun _ => 0
  breakpoint_here_p := fun _ _ => false
  cuda_system_get_num_devices := 1
  device_is_valid := fun _ => true
  device_get_num_sms := fun _ => 1
  device_get_num_warps := fun _ => 3
  device_get_num_lanes := fun _ => 1
  warp_is_valid := fun _ _ _ => true
  warp_get_kernel := fun _ _ wp => if wp == 1 then ⟨2, 2⟩ else ⟨1, 1⟩
  warp_get_block_idx := fun _ _ wp => ⟨wp, 0, 0⟩
  lane_is_valid := fun _ _ _ _ => true
  lane_get_thread_idx := fun _ _ _ _ => ⟨0, 0, 0⟩
  lane_get_virtual_pc := fun _ _ _ _ => 0
  lane_get_exception := fun _ _ _ _ => 0

/-- One device with a single SM holding two valid one-lane warps, warp 0 running
kernel 1 (grid 1) and warp 1 running kernel 2 (grid 2). -/
def two_kernels_state : cuda_state :=
  { interleaved_state with device_get_num_warps := fun _ => 2 }

/-- The record stored at SMS granularity for a warp of device 0, SM 0 that runs the
kernel with the given id and grid id. -/
def sm0_record (kernelId gridId : Nat) : cuda_coords_t :=
  { valid := true, dev := 0, sm := 0, wp := CUDA_WILDCARD, ln := CUDA_WILDCARD,
    kernelId := kernelId, gridId := gridId,
    blockIdx := ⟨CUDA_WILDCARD, CUDA_WILDCARD, CUDA_WILDCARD⟩,
    threadIdx := ⟨CUDA_WILDCARD, CUDA_WILDCARD, CUDA_WILDCARD⟩ }

/-- A filter that asks for SM 1 and thread index x = 1 and leaves the rest open. -/
def sm1_thread1_filter : cuda_coords_t :=
  { CUDA_WILDCARD_COORDS with sm := 1, threadIdx := ⟨1, CUDA_WILDCARD, CUDA_WILDCARD⟩ }

/-- The last record of the LANES traversal of `two_warps_state`, with its `valid` flag
cleared. -/
def last_lane_cleared : cuda_coords_t :=
  { valid := false, dev := 0, sm := 1, wp := 1, ln := 1, kernelId := 7, gridId := 3,
    blockIdx := ⟨1, 0, 0⟩, threadIdx := ⟨1, 0, 0⟩ }

/-- A system without any device. -/
def no_device_state : cuda_state :=
  { two_warps_state with cuda_system_get_num_devices := 0 }

/-! ## Structural views of the list, used to state and prove the properties -/

/-- Number of leading elements each of which equals its predecessor, the predecessor
of the first one being `prev`. -/
def dup_run_length (prev : cuda_coords_t) : List cuda_coords_t → Nat
  | [] => 0
  | b :: t => if cuda_coords_equal b prev then dup_run_length b t + 1 else 0

/-- The elements that differ from their predecessor, the predecessor of the first one
being `prev`. -/
def keep_changes (prev : cuda_coords_t) : List cuda_coords_t → List cuda_coords_t
  | [] => []
  | b :: t => if cuda_coords_equal b prev then keep_changes b t else b :: keep_changes b t

/-- The first element of every run of consecutive equal records. -/
def run_heads : List cuda_coords_t → List cuda_coords_t
  | [] => []
  | a :: t => a :: keep_changes a t

/-- The runs of consecutive equal records of a list, each run a list of its own. -/
def equal_runs (list : List cuda_coords_t) : List (List cuda_coords_t) :=
  list.splitBy (fun previous record => cuda_coords_equal record previous)

/-! ## The checks a candidate (dev, sm, wp, ln) goes through, loop by loop -/

/-- Lines 101-113: the kernel id the warp loop derives for a warp. -/
def warp_kernel_id (s : cuda_state) (dev sm wp : Nat) : Nat :=
  if s.warp_is_valid dev sm wp then kernel_get_id (s.warp_get_kernel dev sm wp)
  else CUDA_INVALID

/-- Lines 101-113: the grid id the warp loop derives for a warp. -/
def warp_grid_id (s : cuda_state) (dev sm wp : Nat) : Nat :=
  if s.warp_is_valid dev sm wp then kernel_get_grid_id (s.warp_get_kernel dev sm wp)
  else CUDA_INVALID

/-- Lines 101-113: the block index the warp loop derives for a warp. -/
def warp_block_idx (s : cuda_state) (dev sm wp : Nat) : CuDim3 :=
  if s.warp_is_valid dev sm wp then s.warp_get_block_idx dev sm wp
  else ⟨CUDA_INVALID, CUDA_INVALID, CUDA_INVALID⟩

/-- Lines 130-134: the thread index the lane loop derives for a lane. -/
def lane_thread_idx (s : cuda_state) (dev sm wp ln : Nat) : CuDim3 :=
  if s.warp_is_valid dev sm wp && s.lane_is_valid dev sm wp ln then
    s.lane_get_thread_idx dev sm wp ln
  else ⟨CUDA_INVALID, CUDA_INVALID, CUDA_INVALID⟩

/-- The record a candidate (dev, sm, wp, ln) is stored as when no check skips it. -/
def candidate_record (s : cuda_state) (type dev sm wp ln : Nat) : cuda_coords_t :=
  store_record type dev sm wp ln (warp_kernel_id s dev sm wp) (warp_grid_id s dev sm wp)
    (warp_block_idx s dev sm wp) (lane_thread_idx s dev sm wp ln)

/-- Lines 84-87: neither `continue` of the device loop is taken. -/
def dev_checks (s : cuda_state) (filter : Option cuda_coords_t) (select_mask dev : Nat) :
    Bool :=
  !(select_has select_mask CUDA_SELECT_VALID && !s.device_is_valid dev) &&
  !filter_rejects filter (fun f => f.dev) dev

/-- Lines 91-92: the `continue` of the SM loop is not taken. -/
def sm_checks (filter : Option cuda_coords_t) (sm : Nat) : Bool :=
  !filter_rejects filter (fun f => f.sm) sm

/-- Lines 96-121: no `continue` of the warp loop is taken. -/
def warp_checks (s : cuda_state) (filter : Option cuda_coords_t)
    (select_mask dev sm wp : Nat) : Bool :=
  !(select_has select_mask CUDA_SELECT_VALID && !s.warp_is_valid dev sm wp) &&
  !filter_rejects filter (fun f => f.wp) wp &&
  !(filter_rejects filter (fun f => f.kernelId) (warp_kernel_id s dev sm wp) ||
    filter_rejects filter (fun f => f.gridId) (warp_grid_id s dev sm wp) ||
    filter_rejects filter (fun f => f.blockIdx.x) (warp_block_idx s dev sm wp).x ||
    filter_rejects filter (fun f => f.blockIdx.y) (warp_block_idx s dev sm wp).y ||
    filter_rejects filter (fun f => f.blockIdx.z) (warp_block_idx s dev sm wp).z)

/-- Lines 125-154: no `continue` of the lane loop is taken. -/
def lane_checks (s : cuda_state) (filter : Option cuda_coords_t)
    (select_mask dev sm wp ln : Nat) : Bool :=
  !(select_has select_mask CUDA_SELECT_VALID && !s.lane_is_valid dev sm wp ln) &&
  !filter_rejects filter (fun f => f.ln) ln &&
  !(filter_rejects filter (fun f => f.threadIdx.x) (lane_thread_idx s dev sm wp ln).x ||
    filter_rejects filter (fun f => f.threadIdx.y) (lane_thread_idx s dev sm wp ln).y ||
    filter_rejects filter (fun f => f.threadIdx.z) (lane_thread_idx s dev sm wp ln).z) &&
  !(select_has select_mask CUDA_SELECT_BKPT && s.warp_is_valid dev sm wp &&
    s.lane_is_valid dev sm wp ln &&
    !s.breakpoint_here_p (iterator_aspace s) (s.lane_get_virtual_pc dev sm wp ln)) &&
  !(select_has select_mask CUDA_SELECT_EXCPT && s.warp_is_valid dev sm wp &&
    s.lane_is_valid dev sm wp ln && s.lane_get_exception dev sm wp ln == 0)

/-- The candidate (dev, sm, wp, ln) is within the loop bounds and passes every check
of the four nested loops, so that one record is stored for it. -/
def candidate_passes (s : cuda_state) (filter : Option cuda_coords_t)
    (select_mask dev sm wp ln : Nat) : Bool :=
  decide (dev < s.cuda_system_get_num_devices) && decide (sm < s.device_get_num_sms dev) &&
  decide (wp < s.device_get_num_warps dev) && decide (ln < s.device_get_num_lanes dev) &&
  dev_checks s filter select_mask dev && sm_checks filter sm &&
  warp_checks s filter select_mask dev sm wp && lane_checks s filter select_mask dev sm wp ln

/-- Every coordinate field of the filter is the wildcard. -/
def all_wildcard (f : cuda_coords_t) : Bool :=
  f.dev == CUDA_WILDCARD && f.sm == CUDA_WILDCARD && f.wp == CUDA_WILDCARD &&
  f.ln == CUDA_WILDCARD && f.kernelId == CUDA_WILDCARD && f.gridId == CUDA_WILDCARD &&
  f.blockIdx.x == CUDA_WILDCARD && f.blockIdx.y == CUDA_WILDCARD &&
  f.blockIdx.z == CUDA_WILDCARD && f.threadIdx.x == CUDA_WILDCARD &&
  f.threadIdx.y == CUDA_WILDCARD && f.threadIdx.z == CUDA_WILDCARD

/-- The filter is absent or all-wildcard. -/
def unconstrained (filter : Option cuda_coords_t) : Bool :=
  match filter with
  | none => true
  | some f => all_wildcard f

/-- The filter field is the wildcard or equals the value. -/
def field_agrees (wanted value : Nat) : Prop := wanted = CUDA_WILDCARD ∨ wanted = value

/-- The coordinate agrees with the filter on every field of the filter that is not the
wildcard. -/
def agrees_with (f c : cuda_coords_t) : Prop :=
  field_agrees f.dev c.dev ∧ field_agrees f.sm c.sm ∧ field_agrees f.wp c.wp ∧
  field_agrees f.ln c.ln ∧ field_agrees f.kernelId c.kernelId ∧
  field_agrees f.gridId c.gridId ∧ field_agrees f.blockIdx.x c.blockIdx.x ∧
  field_agrees f.blockIdx.y c.blockIdx.y ∧ field_agrees f.blockIdx.z c.blockIdx.z ∧
  field_agrees f.threadIdx.x c.threadIdx.x ∧ field_agrees f.threadIdx.y c.threadIdx.y ∧
  field_agrees f.threadIdx.z c.threadIdx.z

/-- The twelve filter tests of the loops (lines 86, 91, 98, 115-121, 127, 136-140):
none of them skips the candidate. -/
def filter_checks (s : cuda_state) (filter : Option cuda_coords_t) (dev sm wp ln : Nat) :
    Bool :=
  !filter_rejects filter (fun f => f.dev) dev &&
  !filter_rejects filter (fun f => f.sm) sm &&
  !filter_rejects filter (fun f => f.wp) wp &&
  !filter_rejects filter (fun f => f.kernelId) (warp_kernel_id s dev sm wp) &&
  !filter_rejects filter (fun f => f.gridId) (warp_grid_id s dev sm wp) &&
  !filter_rejects filter (fun f => f.blockIdx.x) (warp_block_idx s dev sm wp).x &&
  !filter_rejects filter (fun f => f.blockIdx.y) (warp_block_idx s dev sm wp).y &&
  !filter_rejects filter (fun f => f.blockIdx.z) (warp_block_idx s dev sm wp).z &&
  !filter_rejects filter (fun f => f.ln) ln &&
  !filter_rejects filter (fun f => f.threadIdx.x) (lane_thread_idx s dev sm wp ln).x &&
  !filter_rejects filter (fun f => f.threadIdx.y) (lane_thread_idx s dev sm wp ln).y &&
  !filter_rejects filter (fun f => f.threadIdx.z) (lane_thread_idx s dev sm wp ln).z

/-- The three validity tests of the loops (lines 84, 96, 125): none of them skips the
candidate. -/
def validity_checks (s : cuda_state) (select_mask dev sm wp ln : Nat) : Bool :=
  !(select_has select_mask CUDA_SELECT_VALID && !s.device_is_valid dev) &&
  !(select_has select_mask CUDA_SELECT_VALID && !s.warp_is_valid dev sm wp) &&
  !(select_has select_mask CUDA_SELECT_VALID && !s.lane_is_valid dev sm wp ln)

/-- The breakpoint test of the lane loop (lines 143-147) does not skip the candidate. -/
def breakpoint_check (s : cuda_state) (select_mask dev sm wp ln : Nat) : Bool :=
  !(select_has select_mask CUDA_SELECT_BKPT && s.warp_is_valid dev sm wp &&
    s.lane_is_valid dev sm wp ln &&
    !s.breakpoint_here_p (iterator_aspace s) (s.lane_get_virtual_pc dev sm wp ln))

/-- The exception test of the lane loop (lines 150-154) does not skip the candidate. -/
def exception_check (s : cuda_state) (select_mask dev sm wp ln : Nat) : Bool :=
  !(select_has select_mask CUDA_SELECT_EXCPT && s.warp_is_valid dev sm wp &&
    s.lane_is_valid dev sm wp ln && s.lane_get_exception dev sm wp ln == 0)

/-- The candidate is inside the bounds of the four loops. -/
def in_bounds (s : cuda_state) (dev sm wp ln : Nat) : Bool :=
  decide (dev < s.cuda_system_get_num_devices) && decide (sm < s.device_get_num_sms dev) &&
  decide (wp < s.device_get_num_warps dev) && decide (ln < s.device_get_num_lanes dev)

/-- The physical coordinates (dev, sm, wp, ln) of a record. -/
def physical_tuple (c : cuda_coords_t) : Nat × Nat × Nat × Nat := (c.dev, c.sm, c.wp, c.ln)

/-- Strict lexicographic order on (dev, sm, wp, ln). -/
def tuple_lt (a b : Nat × Nat × Nat × Nat) : Prop :=
  a.1 < b.1 ∨ (a.1 = b.1 ∧ (a.2.1 < b.2.1 ∨ (a.2.1 = b.2.1 ∧
    (a.2.2.1 < b.2.2.1 ∨ (a.2.2.1 = b.2.2.1 ∧ a.2.2.2 < b.2.2.2)))))

/-! ## The order declared for an iterator type -/

/-- The type has a KERNELS, BLOCKS or THREADS bit. -/
def has_logical_bit (type : Nat) : Bool :=
  (type &&& CUDA_ITERATOR_TYPE_KERNELS) != 0 || (type &&& CUDA_ITERATOR_TYPE_BLOCKS) != 0 ||
  (type &&& CUDA_ITERATOR_TYPE_THREADS) != 0

/-- The order declared for a type: logical when the type has a KERNELS, BLOCKS or
THREADS bit, physical otherwise. -/
def declared_compare (type : Nat) : cuda_coords_t → cuda_coords_t → Int :=
  if has_logical_bit type then cuda_coords_compare_logical else cuda_coords_compare_physical

/-! ## Sequences of iterator calls -/

/-- A call a client makes on an iterator between `cuda_iterator_create` and
`cuda_iterator_destroy` that moves the cursor. -/
inductive iterator_call
  | start
  | next
deriving DecidableEq

/-- One call applied to the iterator. -/
def apply_call (itr : cuda_iterator_t) : iterator_call → cuda_iterator_t
  | iterator_call.start => cuda_iterator_start itr
  | iterator_call.next => cuda_iterator_next itr

/-- A sequence of calls applied to the iterator, first call first. -/
def apply_calls (itr : cuda_iterator_t) (calls : List iterator_call) : cuda_iterator_t :=
  calls.foldl apply_call itr

/-! ## The event dispatcher (`gdb/cuda-events.c`)

The handlers of `cuda-events.c` work on process-wide state: the per-device context
and kernel registries, the current context, the breakpoint tables and the focused
host thread of gdb, and the state of the debugger API.  The embedding passes this
state explicitly as a `cuda_session`.  A handler returns an `outcome`: the session as
the handler left it and, when the handler did not return normally (`error`, a failed
`gdb_assert`, a NULL context dereferenced), the failure that stopped it.

* The registries (`cuda-context.c`, `cuda-kernel.c`, `cuda-modules.c`), the breakpoint
  helpers and `cuda_cleanup` are not among the sources; they follow the spec and say
  so.  Calls that reach outside the registries are recorded, in order, in `trace`.
* `cuda_trace` only writes debugging output and is left out.
* The handlers are those of the Linux build (`__linux__` defined).
-/

/-- Event kinds, `CUDBGEventKind` of `cudadebugger.h`. -/
def CUDBG_EVENT_INVALID : Nat := 0x000

/-- See `CUDBG_EVENT_INVALID`. -/
def CUDBG_EVENT_ELF_IMAGE_LOADED : Nat := 0x001

/-- See `CUDBG_EVENT_INVALID`. -/
def CUDBG_EVENT_KERNEL_READY : Nat := 0x002

/-- See `CUDBG_EVENT_INVALID`. -/
def CUDBG_EVENT_KERNEL_FINISHED : Nat := 0x003

/-- See `CUDBG_EVENT_INVALID`. -/
def CUDBG_EVENT_ERROR : Nat := 0x004

/-- See `CUDBG_EVENT_INVALID`. -/
def CUDBG_EVENT_CTX_PUSH : Nat := 0x005

/-- See `CUDBG_EVENT_INVALID`. -/
def CUDBG_EVENT_CTX_POP : Nat := 0x006

/-- See `CUDBG_EVENT_INVALID`. -/
def CUDBG_EVENT_CTX_CREATE : Nat := 0x007

/-- See `CUDBG_EVENT_INVALID`. -/
def CUDBG_EVENT_CTX_DESTROY : Nat := 0x008

/-- See `CUDBG_EVENT_INVALID`. -/
def CUDBG_EVENT_TIMEOUT : Nat := 0x009

/-- Kernel types, `CUDBGKernelType` of `cudadebugger.h`. -/
def CUDBG_KNL_TYPE_UNKNOWN : Nat := 0x000

/-- See `CUDBG_KNL_TYPE_UNKNOWN`. -/
def CUDBG_KNL_TYPE_SYSTEM : Nat := 0x001

/-- See `CUDBG_KNL_TYPE_UNKNOWN`. -/
def CUDBG_KNL_TYPE_APPLICATION : Nat := 0x002

/-- Result codes, `CUDBGResult` of `cudadebugger.h`. -/
def CUDBG_SUCCESS : Nat := 0x0000

/-- See `CUDBG_SUCCESS`. -/
def CUDBG_ERROR_NO_EVENT_AVAILABLE : Nat := 0x0016

/-- See `CUDBG_SUCCESS`. -/
def CUDBG_ERROR_UNINITIALIZED : Nat := 0x0005

/-- See `CUDBG_SUCCESS`. -/
def CUDBG_ERROR_INVALID_DEVICE : Nat := 0x000b

/-- See `CUDBG_SUCCESS`. -/
def CUDBG_ERROR_INCOMPATIBLE_API : Nat := 0x0013

/-- See `CUDBG_SUCCESS`. -/
def CUDBG_ERROR_SOME_DEVICES_WATCHDOGGED : Nat := 0x0017

/-- See `CUDBG_SUCCESS`. -/
def CUDBG_ERROR_ALL_DEVICES_WATCHDOGGED : Nat := 0x0018

/-- See `CUDBG_SUCCESS`. -/
def CUDBG_ERROR_ADDRESS_NOT_IN_DEVICE_MEM : Nat := 0x001e

/-- The thread id `~0U` that the handlers refuse. -/
def INVALID_TID : Nat := 0xFFFFFFFF

/-- The signal number of `SIGKILL`. -/
def SIGKILL : Nat := 9

/-- The struct `CUDBGEvent` of `cudadebugger.h`: the kind and, for each kind, the
members of `cases` that `cuda_process_events` reads.  `other` stands for a kind
outside the enumeration. -/
inductive CUDBGEvent
  | invalid
  | elfImageLoaded (dev context module relocatedElfImage size : Nat)
  | kernelReady (dev context module gridId tid functionEntry : Nat)
      (gridDim blockDim : CuDim3) (type : Nat)
  | kernelFinished (dev gridId : Nat)
  | error
  | contextPush (dev context tid : Nat)
  | contextPop (dev context tid : Nat)
  | contextCreate (dev context tid : Nat)
  | contextDestroy (dev context tid : Nat)
  | timeout
  | other (kind : Nat)
deriving DecidableEq

/-- The member `kind` of an event. -/
def CUDBGEvent.kind : CUDBGEvent → Nat
  | CUDBGEvent.invalid => CUDBG_EVENT_INVALID
  | CUDBGEvent.elfImageLoaded _ _ _ _ _ => CUDBG_EVENT_ELF_IMAGE_LOADED
  | CUDBGEvent.kernelReady _ _ _ _ _ _ _ _ _ => CUDBG_EVENT_KERNEL_READY
  | CUDBGEvent.kernelFinished _ _ => CUDBG_EVENT_KERNEL_FINISHED
  | CUDBGEvent.error => CUDBG_EVENT_ERROR
  | CUDBGEvent.contextPush _ _ _ => CUDBG_EVENT_CTX_PUSH
  | CUDBGEvent.contextPop _ _ _ => CUDBG_EVENT_CTX_POP
  | CUDBGEvent.contextCreate _ _ _ => CUDBG_EVENT_CTX_CREATE
  | CUDBGEvent.contextDestroy _ _ _ => CUDBG_EVENT_CTX_DESTROY
  | CUDBGEvent.timeout => CUDBG_EVENT_TIMEOUT
  | CUDBGEvent.other kind => kind

/-- Modelled from the spec: what a non-NULL `context_t` of `cuda-context.h` points to.
The spec identifies a context by "an opaque 64-bit id plus owning device id". -/
structure context_ref where
  context_id : Nat
  dev_id : Nat
deriving DecidableEq

/-- Modelled from the spec: the pointer type `context_t`; `none` is NULL. -/
abbrev context_t : Type := Option context_ref

/-- Modelled from the spec: a module object of `cuda-modules.c`, "identified by
(context, module id)", owning "an ELF image blob (address + size)". -/
structure module_st where
  module_id : Nat
  elf_image : Nat
  elf_image_size : Nat
deriving DecidableEq

/-- Modelled from the spec: a context object of `cuda-context.c`, which "owns a module
registry".  Its id and device are the key under which the registry holds it. -/
structure context_st where
  modules : List module_st
deriving DecidableEq

/-- Modelled from the spec: the struct behind `contexts_t` of `cuda-context.c`, one per
device: the registry of the device's contexts, keyed by context id, and one context
stack per host thread. -/
structure contexts_st where
  registry : Nat → Option context_st
  thread_stacks : Nat → List context_t

/-- Modelled from the spec: a kernel object of `cuda-kernel.c`, which "holds entry
address, context id, module id, grid/block dimensions, kernel type".  Its device and
grid id are the key under which the registry holds it. -/
structure kernel_st where
  virt_code_base : Nat
  context_id : Nat
  module_id : Nat
  grid_dim : CuDim3
  block_dim : CuDim3
  type : Nat
deriving DecidableEq

/-- Modelled from the spec: what a non-NULL kernel pointer of `cuda-kernel.h` points
to, a kernel "identified by (device, grid id)". -/
structure kernel_ref where
  dev_id : Nat
  grid_id : Nat
deriving DecidableEq

/-- Calls that reach outside the context and kernel registries, as recorded in the
`trace` of a session. -/
inductive effect
  | set_current_context (context : context_t)
  | cuda_cleanup_auto_breakpoints (context_id : Nat)
  | cuda_unresolve_breakpoints (context_id : Nat)
  | cuda_resolve_breakpoints (elf_image : Nat)
  | set_inferior_ptid (ptid : Nat)
  | kernels_start_kernel (dev_id grid_id virt_code_base context_id module_id : Nat)
      (grid_dim block_dim : CuDim3) (type : Nat)
  | kernels_terminate_kernel (dev_id grid_id : Nat)
  | cuda_create_auto_breakpoint (virt_code_base context_id : Nat)
  | remove_breakpoints
  | insert_breakpoints
  | clear_current_source_symtab_and_line
  | clear_displays
  | cuda_cleanup
  | driver_finalize
  | warning_finalize_failed (res : Nat)
  | kill (tid signal : Nat)
  | printf_unfiltered (event_kind context_id dev_id : Nat)
  | driver_init
  | warning_devices_watchdogged
  | driver_get_num_devices
  | driver_read_global_memory (dev sm wp ln addr sz : Nat)
  | driver_write_global_memory (dev sm wp ln addr : Nat) (buf : List Nat) (sz : Nat)
  | driver_get_host_addr_from_device_addr (dev addr : Nat)
  | read_memory (hostaddr sz : Nat)
  | write_memory (hostaddr : Nat) (buf : List Nat) (sz : Nat)
deriving DecidableEq

/-- One answer of the driver's `getNextEvent`: the result code and the event it wrote,
`none` when it left the caller's event untouched. -/
structure driver_answer where
  res : Nat
  event : Option CUDBGEvent
deriving DecidableEq

/-- The process-wide state the handlers read and write.

* `contexts dev_id`, `kernels dev_id`: what `device_get_contexts` and
  `device_get_kernels` give access to (the kernel registry is keyed by grid id).
* `current_context`: `get_current_context ()`.
* `auto_breakpoints`: the automatic breakpoints, as (address, context id).
* `breakpoints_inserted`: whether gdb's breakpoints are inserted at the moment.
* `insert_breakpoints_error`: whether gdb's `insert_breakpoints` raises an error when
  called (a parameter of the environment).
* `inferior_ptid`, `lwps`, `cuda_gdb_get_tid`: the focused thread of gdb, the LWPs that
  `iterate_over_lwps` walks through, and the thread id of a ptid.
* `api_initialized`, `driver_events`, `driver_finalize_result`: the flag of
  `cuda-api.c`, the answers the driver will give to the next `getNextEvent` calls (it
  answers `CUDBG_ERROR_NO_EVENT_AVAILABLE` when the list is exhausted), and the result
  of the driver's `finalize`. -/
structure cuda_session where
  contexts : Nat → contexts_st
  current_context : context_t
  kernels : Nat → Nat → Option kernel_st
  auto_breakpoints : List (Nat × Nat)
  breakpoints_inserted : Bool
  insert_breakpoints_error : Bool
  current_source_symtab_and_line : Option Nat
  displays : List Nat
  inferior_ptid : Nat
  lwps : List Nat
  cuda_gdb_get_tid : Nat → Nat
  cuda_options_show_context_events : Bool
  cuda_options_break_on_launch_application : Bool
  cuda_options_break_on_launch_system : Bool
  api_initialized : Bool
  driver_events : List driver_answer
  driver_finalize_result : Nat
  trace : List effect

/-- Why a handler did not return normally. -/
inductive failure
  | invalid_thread_id
  | assertion_failed
  | null_context
  | insert_breakpoints_failed
  | unexpected_api_error
  | get_next_event_failed (res : Nat)
  | fatal (msg : String) (res : Nat)
  | get_num_devices_failed (res : Nat)
  | read_global_memory_failed (res : Nat)
  | write_global_memory_failed (res : Nat)
  | translate_failed (res : Nat)
  | memory_error (memaddr : Nat)
deriving DecidableEq

/-- What a handler leaves behind: the session, and the failure if it did not return
normally. -/
structure outcome where
  state : cuda_session
  failure : Option failure

/-- The session with the pending answers of the driver replaced. -/
def set_driver_events (s : cuda_session) (d : List driver_answer) : cuda_session :=
  { s with driver_events := d }

/-- Append a call to the trace. -/
def record (s : cuda_session) (e : effect) : cuda_session :=
  { s with trace := s.trace ++ [e] }

/-- The session with the context registry of one device replaced. -/
def put_registry (s : cuda_session) (dev_id : Nat) (registry : Nat → Option context_st) :
    cuda_session :=
  { s with
    contexts := Function.update s.contexts dev_id
      { s.contexts dev_id with registry := registry } }

/-- The session with the context stacks of one device replaced. -/
def put_thread_stacks (s : cuda_session) (dev_id : Nat) (thread_stacks : Nat → List context_t) :
    cuda_session :=
  { s with
    contexts := Function.update s.contexts dev_id
      { s.contexts dev_id with thread_stacks := thread_stacks } }

/-- Modelled from the spec: `context_new (context_id, dev_id)`, a pointer to a new
context; the object it points to has an empty module registry. -/
def context_new (context_id dev_id : Nat) : context_ref :=
  { context_id := context_id, dev_id := dev_id }

/-- Modelled from the spec: `contexts_add_context` on the contexts of device `dev_id`,
"add to device registry". -/
def contexts_add_context (s : cuda_session) (dev_id : Nat) (context : context_ref) :
    cuda_session :=
  put_registry s dev_id
    (Function.update (s.contexts dev_id).registry context.context_id (some { modules := [] }))

/-- Modelled from the spec: `contexts_stack_context` on the contexts of device
`dev_id`, "push existing context onto this thread's stack".  For an absent (NULL)
context the spec asks for a loud failure ("must fail loudly rather than
segfault/silently corrupt"): the call stops there and nothing is pushed. -/
def contexts_stack_context (s : cuda_session) (dev_id : Nat) (context : context_t)
    (tid : Nat) : outcome :=
  match context with
  | none => { state := s, failure := some failure.null_context }
  | some _ =>
    { state := put_thread_stacks s dev_id
        (Function.update (s.contexts dev_id).thread_stacks tid
          (context :: (s.contexts dev_id).thread_stacks tid)),
      failure := none }

/-- Modelled from the spec: `contexts_unstack_context` on the contexts of device
`dev_id`, "pop this thread's stack top": the session after the pop and the context
popped (NULL from an empty stack). -/
def contexts_unstack_context (s : cuda_session) (dev_id tid : Nat) :
    cuda_session × context_t :=
  match (s.contexts dev_id).thread_stacks tid with
  | [] => (s, none)
  | top :: below =>
    (put_thread_stacks s dev_id (Function.update (s.contexts dev_id).thread_stacks tid below),
      top)

/-- Modelled from the spec: `contexts_get_active_context`, "this thread's active
(top-of-stack) context", NULL when the stack is empty. -/
def contexts_get_active_context (s : cuda_session) (dev_id tid : Nat) : context_t :=
  match (s.contexts dev_id).thread_stacks tid with
  | [] => none
  | top :: _ => top

/-- Modelled from the spec: `contexts_find_context_by_id` on the contexts of device
`dev_id`; "lookup returns absent" when the registry has no context of this id. -/
def contexts_find_context_by_id (s : cuda_session) (dev_id context_id : Nat) : context_t :=
  match (s.contexts dev_id).registry context_id with
  | none => none
  | some _ => some { context_id := context_id, dev_id := dev_id }

/-- Modelled from the spec: `contexts_remove_context` on the contexts of device
`dev_id`, "remove from registry"; nothing is removed for a NULL context. -/
def contexts_remove_context (s : cuda_session) (dev_id : Nat) (context : context_t) :
    cuda_session :=
  match context with
  | none => s
  | some c =>
    put_registry s dev_id (Function.update (s.contexts dev_id).registry c.context_id none)

/-- Modelled from the spec: `modules_add (context_get_modules (context), module_new
(context, module_id, elf_image, elf_image_size))` for a context of device `dev_id`:
"create Module under context, attach image bytes". -/
def modules_add (s : cuda_session) (dev_id : Nat) (c : context_ref)
    (module_id elf_image elf_image_size : Nat) : cuda_session :=
  match (s.contexts dev_id).registry c.context_id with
  | none => s
  | some context =>
    put_registry s dev_id
      (Function.update (s.contexts dev_id).registry c.context_id
        (some { modules := { module_id := module_id, elf_image := elf_image,
                             elf_image_size := elf_image_size } :: context.modules }))

/-- Modelled from the spec: `set_current_context`. -/
def set_current_context (s : cuda_session) (context : context_t) : cuda_session :=
  record { s with current_context := context } (effect.set_current_context context)

/-- Modelled from the spec: `cuda_cleanup_auto_breakpoints (&context_id)`, "invalidate
auto-breakpoints ... tied to this context id". -/
def cuda_cleanup_auto_breakpoints (s : cuda_session) (context_id : Nat) : cuda_session :=
  record { s with auto_breakpoints := s.auto_breakpoints.filter (fun b => b.2 != context_id) }
    (effect.cuda_cleanup_auto_breakpoints context_id)

/-- Modelled from the spec: `cuda_unresolve_breakpoints (context_id)`, "unresolve
breakpoints tied to this context id"; recorded as a call. -/
def cuda_unresolve_breakpoints (s : cuda_session) (context_id : Nat) : cuda_session :=
  record s (effect.cuda_unresolve_breakpoints context_id)

/-- Modelled from the spec: `cuda_resolve_breakpoints (elf_image)`, "attempt to resolve
any breakpoints pending against addresses now coverable by the newly loaded image";
recorded as a call. -/
def cuda_resolve_breakpoints (s : cuda_session) (elf_image : Nat) : cuda_session :=
  record s (effect.cuda_resolve_breakpoints elf_image)

/-- Modelled from the spec: `cuda_create_auto_breakpoint (virt_code_base, context_id)`,
"create an automatic breakpoint at the entry address scoped to the context". -/
def cuda_create_auto_breakpoint (s : cuda_session) (virt_code_base context_id : Nat) :
    cuda_session :=
  record { s with auto_breakpoints := (virt_code_base, context_id) :: s.auto_breakpoints }
    (effect.cuda_create_auto_breakpoint virt_code_base context_id)

/-- The call `remove_breakpoints ()` of gdb. -/
def remove_breakpoints (s : cuda_session) : cuda_session :=
  record { s with breakpoints_inserted := false } effect.remove_breakpoints

/-- The call `insert_breakpoints ()` of gdb, which raises an error when the
environment says so. -/
def insert_breakpoints (s : cuda_session) : outcome :=
  if s.insert_breakpoints_error then
    { state := record s effect.insert_breakpoints,
      failure := some failure.insert_breakpoints_failed }
  else
    { state := record { s with breakpoints_inserted := true } effect.insert_breakpoints,
      failure := none }

/-- Modelled from the spec: `kernels_start_kernel` on the kernels of device `dev_id`,
"register a new running Kernel keyed by grid id with entry address/dims/type". -/
def kernels_start_kernel (s : cuda_session) (dev_id grid_id virt_code_base context_id
    module_id : Nat) (grid_dim block_dim : CuDim3) (type : Nat) : cuda_session :=
  record
    { s with
      kernels := Function.update s.kernels dev_id
        (Function.update (s.kernels dev_id) grid_id
          (some { virt_code_base := virt_code_base, context_id := context_id,
                  module_id := module_id, grid_dim := grid_dim, block_dim := block_dim,
                  type := type })) }
    (effect.kernels_start_kernel dev_id grid_id virt_code_base context_id module_id grid_dim
      block_dim type)

/-- Modelled from the spec: `kernels_find_kernel_by_grid_id` on the kernels of device
`dev_id`; "absence after termination is normal". -/
def kernels_find_kernel_by_grid_id (s : cuda_session) (dev_id grid_id : Nat) :
    Option kernel_ref :=
  match s.kernels dev_id grid_id with
  | none => none
  | some _ => some { dev_id := dev_id, grid_id := grid_id }

/-- Modelled from the spec: `kernels_terminate_kernel`; the kernel is no longer found
by its grid id afterwards. -/
def kernels_terminate_kernel (s : cuda_session) (kernel : kernel_ref) : cuda_session :=
  record
    { s with
      kernels := Function.update s.kernels kernel.dev_id
        (Function.update (s.kernels kernel.dev_id) kernel.grid_id none) }
    (effect.kernels_terminate_kernel kernel.dev_id kernel.grid_id)

/-- The call `clear_current_source_symtab_and_line ()` of gdb. -/
def clear_current_source_symtab_and_line (s : cuda_session) : cuda_session :=
  record { s with current_source_symtab_and_line := none }
    effect.clear_current_source_symtab_and_line

/-- The call `clear_displays ()` of gdb. -/
def clear_displays (s : cuda_session) : cuda_session :=
  record { s with displays := [] } effect.clear_displays

/-- Lines 131-150 of `cuda-api.c`, `cuda_api_finalize ()`. -/
def cuda_api_finalize (s : cuda_session) : cuda_session :=
  if !s.api_initialized then s
  else
    let res := s.driver_finalize_result
    let s := record { s with api_initialized := false } effect.driver_finalize
    if res != CUDBG_SUCCESS then record s (effect.warning_finalize_failed res)
    else s

/-- Modelled from the spec: `cuda_cleanup ()` of `cuda-tdep.c`, "tear down the active
debug session (finalize the state-inspection connection ...)". -/
def cuda_cleanup (s : cuda_session) : cuda_session :=
  cuda_api_finalize (record s effect.cuda_cleanup)

/-- The call `iterate_over_lwps (inferior_ptid, find_lwp_callback, &tid)`: the first
LWP whose thread id is `tid`, NULL when there is none.  The assertion of
`find_lwp_callback` (lines 172-174), `cuda_platform_supports_tid ()`, holds on Linux. -/
def iterate_over_lwps (s : cuda_session) (tid : Nat) : Option Nat :=
  s.lwps.find? (fun ptid => s.cuda_gdb_get_tid ptid == tid)

/-- The assignment `inferior_ptid = ptid`. -/
def set_inferior_ptid (s : cuda_session) (ptid : Nat) : cuda_session :=
  record { s with inferior_ptid := ptid } (effect.set_inferior_ptid ptid)

/-- The message printed when `cuda_options_show_context_events ()` holds. -/
def show_context_event (s : cuda_session) (event_kind context_id dev_id : Nat) :
    cuda_session :=
  if s.cuda_options_show_context_events then
    record s (effect.printf_unfiltered event_kind context_id dev_id)
  else s

/-- Lines 38-59, `cuda_event_create_context`. -/
def cuda_event_create_context (s : cuda_session) (dev_id context_id tid : Nat) : outcome :=
  if tid == INVALID_TID then { state := s, failure := some failure.invalid_thread_id }
  else
    let context := context_new context_id dev_id
    let s := contexts_add_context s dev_id context
    let stacked := contexts_stack_context s dev_id (some context) tid
    match stacked.failure with
    | some f => { state := stacked.state, failure := some f }
    | none =>
      { state := show_context_event stacked.state CUDBG_EVENT_CTX_CREATE context_id dev_id,
        failure := none }

/-- Lines 61-91, `cuda_event_destroy_context`.  The last step, `context_delete
(context)`, releases the context object and cannot do so for a NULL context. -/
def cuda_event_destroy_context (s : cuda_session) (dev_id context_id tid : Nat) : outcome :=
  if tid == INVALID_TID then { state := s, failure := some failure.invalid_thread_id }
  else
    let context := contexts_find_context_by_id s dev_id context_id
    let unstacked :=
      if contexts_get_active_context s dev_id tid = context then
        contexts_unstack_context s dev_id tid
      else (s, context)
    let context := unstacked.2
    let s := unstacked.1
    let s := if context = s.current_context then set_current_context s none else s
    let s := cuda_cleanup_auto_breakpoints s context_id
    let s := cuda_unresolve_breakpoints s context_id
    let s := contexts_remove_context s dev_id context
    match context with
    | none => { state := s, failure := some failure.null_context }
    | some _ =>
      { state := show_context_event s CUDBG_EVENT_CTX_DESTROY context_id dev_id,
        failure := none }

/-- Lines 93-113, `cuda_event_push_context`. -/
def cuda_event_push_context (s : cuda_session) (dev_id context_id tid : Nat) : outcome :=
  if tid == INVALID_TID then { state := s, failure := some failure.invalid_thread_id }
  else
    let context := contexts_find_context_by_id s dev_id context_id
    let stacked := contexts_stack_context s dev_id context tid
    match stacked.failure with
    | some f => { state := stacked.state, failure := some f }
    | none =>
      { state := show_context_event stacked.state CUDBG_EVENT_CTX_PUSH context_id dev_id,
        failure := none }

/-- Lines 115-135, `cuda_event_pop_context`.  `context_get_id (context)` reads the
context object: a NULL context stops the handler there. -/
def cuda_event_pop_context (s : cuda_session) (dev_id context_id tid : Nat) : outcome :=
  if tid == INVALID_TID then { state := s, failure := some failure.invalid_thread_id }
  else
    let unstacked := contexts_unstack_context s dev_id tid
    let s := unstacked.1
    match unstacked.2 with
    | none => { state := s, failure := some failure.null_context }
    | some context =>
      if context.context_id == context_id then
        { state := show_context_event s CUDBG_EVENT_CTX_POP context_id dev_id, failure := none }
      else { state := s, failure := some failure.assertion_failed }

/-- Modelled from the spec: `device_find_context_by_id (dev_id, context_id)` of
`cuda-state.c`, the lookup in the context registry of the device. -/
def device_find_context_by_id (s : cuda_session) (dev_id context_id : Nat) : context_t :=
  contexts_find_context_by_id s dev_id context_id

/-- Lines 137-165, `cuda_event_load_elf_image`.  `context_get_modules (context)` reads
the context object: a NULL context stops the handler there.  The macro
`cuda_mark_breakpoints_as_unset` (lines 155-160) is not defined in the Linux build, and
`module_get_elf_image (module)` is the image the module was created with. -/
def cuda_event_load_elf_image (s : cuda_session) (dev_id context_id module_id elf_image
    elf_image_size : Nat) : outcome :=
  match device_find_context_by_id s dev_id context_id with
  | none => { state := s, failure := some failure.null_context }
  | some context =>
    let s := modules_add s dev_id context module_id elf_image elf_image_size
    let s := set_current_context s (some context)
    let s := cuda_resolve_breakpoints s elf_image
    { state := s, failure := none }

/-- Lines 179-226, `cuda_event_kernel_ready`. -/
def cuda_event_kernel_ready (s : cuda_session) (dev_id context_id module_id grid_id tid
    virt_code_base : Nat) (grid_dim block_dim : CuDim3) (type : Nat) : outcome :=
  let previous_ptid := s.inferior_ptid
  if tid == INVALID_TID then { state := s, failure := some failure.invalid_thread_id }
  else
    let lp := iterate_over_lwps s tid
    let s := match lp with
      | some ptid => set_inferior_ptid s ptid
      | none => s
    let s := kernels_start_kernel s dev_id grid_id virt_code_base context_id module_id
      grid_dim block_dim type
    let s :=
      if (type == CUDBG_KNL_TYPE_APPLICATION && s.cuda_options_break_on_launch_application) ||
         (type == CUDBG_KNL_TYPE_SYSTEM && s.cuda_options_break_on_launch_system)
      then cuda_create_auto_breakpoint s virt_code_base context_id
      else s
    let s := remove_breakpoints s
    let inserted := insert_breakpoints s
    match inserted.failure with
    | some f => { state := inserted.state, failure := some f }
    | none =>
      match lp with
      | some _ => { state := set_inferior_ptid inserted.state previous_ptid, failure := none }
      | none => { state := inserted.state, failure := none }

/-- Lines 228-247, `cuda_event_kernel_finished`. -/
def cuda_event_kernel_finished (s : cuda_session) (dev_id grid_id : Nat) : outcome :=
  match kernels_find_kernel_by_grid_id s dev_id grid_id with
  | none => { state := s, failure := none }
  | some kernel =>
    let s := kernels_terminate_kernel s kernel
    let s := clear_current_source_symtab_and_line s
    let s := clear_displays s
    { state := s, failure := none }

/-- Lines 249-259, `cuda_event_error`. -/
def cuda_event_error (s : cuda_session) : outcome :=
  let s := cuda_cleanup s
  let s := record s (effect.kill (s.cuda_gdb_get_tid s.inferior_ptid) SIGKILL)
  { state := s, failure := some failure.unexpected_api_error }

/-- Lines 261-265, `cuda_event_timeout`. -/
def cuda_event_timeout (s : cuda_session) : outcome :=
  { state := s, failure := none }

/-- Lines 286-366 of `cuda_process_events`: the `switch` on the kind of one event.
A kind without a `case` reaches `gdb_assert (0)`. -/
def dispatch_event (s : cuda_session) : CUDBGEvent → outcome
  | CUDBGEvent.elfImageLoaded dev context module relocatedElfImage size =>
    cuda_event_load_elf_image s dev context module relocatedElfImage size
  | CUDBGEvent.kernelReady dev context module gridId tid functionEntry gridDim blockDim type =>
    cuda_event_kernel_ready s dev context module gridId tid functionEntry gridDim blockDim type
  | CUDBGEvent.kernelFinished dev gridId => cuda_event_kernel_finished s dev gridId
  | CUDBGEvent.contextPush dev context tid => cuda_event_push_context s dev context tid
  | CUDBGEvent.contextPop dev context tid => cuda_event_pop_context s dev context tid
  | CUDBGEvent.contextCreate dev context tid => cuda_event_create_context s dev context tid
  | CUDBGEvent.contextDestroy dev context tid => cuda_event_destroy_context s dev context tid
  | CUDBGEvent.error => cuda_event_error s
  | CUDBGEvent.timeout => cuda_event_timeout s
  | CUDBGEvent.invalid => { state := s, failure := some failure.assertion_failed }
  | CUDBGEvent.other _ => { state := s, failure := some failure.assertion_failed }

/-- Lines 907-919 of `cuda-api.c`, `cuda_api_get_next_event (event)`: the session
afterwards, the failure if an error was raised, and the event as it was left. -/
def cuda_api_get_next_event (s : cuda_session) (_event : CUDBGEvent) : outcome × CUDBGEvent :=
  let event := CUDBGEvent.invalid
  if !s.api_initialized then ({ state := s, failure := none }, event)
  else
    match s.driver_events with
    | [] => ({ state := s, failure := none }, event)
    | answer :: later =>
      let s := { s with driver_events := later }
      let event := match answer.event with
        | some written => written
        | none => event
      if answer.res != CUDBG_SUCCESS && answer.res != CUDBG_ERROR_NO_EVENT_AVAILABLE then
        ({ state := s, failure := some (failure.get_next_event_failed answer.res) }, event)
      else ({ state := s, failure := none }, event)

/-- Lines 284-367: the loop `for (; event->kind != CUDBG_EVENT_INVALID;
cuda_api_get_next_event (event))` with `fuel` tests of its condition allowed; `none`
when the fuel runs out before the loop is left. -/
def process_loop : Nat → cuda_session → CUDBGEvent → Option outcome
  | 0, _, _ => none
  | fuel + 1, s, event =>
    if event.kind == CUDBG_EVENT_INVALID then some { state := s, failure := none }
    else
      let handled := dispatch_event s event
      match handled.failure with
      | some f => some { state := handled.state, failure := some f }
      | none =>
        let polled := cuda_api_get_next_event handled.state event
        match polled.1.failure with
        | some f => some { state := polled.1.state, failure := some f }
        | none => process_loop fuel polled.1.state polled.2

/-- Lines 267-368, `cuda_process_events (event)`.  Every turn of the loop but the last
consumes one answer of the driver, so one test of the condition per pending answer,
plus two, is always enough. -/
def cuda_process_events (s : cuda_session) (event : CUDBGEvent) : Option outcome :=
  process_loop (s.driver_events.length + 2) s event

/-- The handlers applied to a list of events in order, stopping at the first one that
does not return normally. -/
def run_handlers (s : cuda_session) : List CUDBGEvent → outcome
  | [] => { state := s, failure := none }
  | event :: later =>
    match (dispatch_event s event).failure with
    | some f => { state := (dispatch_event s event).state, failure := some f }
    | none => run_handlers (dispatch_event s event).state later

/-- The answer by which the driver hands over an event. -/
def delivered (event : CUDBGEvent) : driver_answer :=
  { res := CUDBG_SUCCESS, event := some event }

/-- The answer tells the dispatcher that no event is pending: the result is
`CUDBG_SUCCESS` or `CUDBG_ERROR_NO_EVENT_AVAILABLE` and the event is left untouched or
written with kind `CUDBG_EVENT_INVALID`. -/
def ends_queue (answer : driver_answer) : Bool :=
  (answer.res == CUDBG_SUCCESS || answer.res == CUDBG_ERROR_NO_EVENT_AVAILABLE) &&
  match answer.event with
  | none => true
  | some written => written.kind == CUDBG_EVENT_INVALID

/-! ## Wrappers of the debugger API (`gdb/cuda-api.c`)

The wrappers call entries of the driver through `cudbgAPI`.  The answers of the entries
`finalize` and `getNextEvent` are part of the session; those of the other entries are
given by a `CUDBGAPI_st`.  Every call of an entry but `getNextEvent` is recorded in the
`trace`.
-/

/-- The entries of the struct `CUDBGAPI_st` of `cudadebugger.h` that the wrappers below
call, each as the answer it gives: the result code and what it writes through its
pointer argument (`getNumDevices` and `readGlobalMemory` get the previous content of
what they write to).  `initialize_result` is the answer of the entry `initialize`. -/
structure CUDBGAPI_st where
  initialize_result : Nat
  getNumDevices : Nat → Nat × Nat
  readGlobalMemory : Nat → Nat → Nat → Nat → Nat → List Nat → Nat → Nat × List Nat
  writeGlobalMemory : Nat → Nat → Nat → Nat → Nat → List Nat → Nat → Nat
  getHostAddrFromDeviceAddr : Nat → Nat → Nat × Nat

/-- Lines 69-80 of `cuda-api.c`, `cuda_api_fatal (msg, res)`; `fatal` does not return. -/
def cuda_api_fatal (s : cuda_session) (msg : String) (res : Nat) : outcome :=
  let s := record s effect.driver_finalize
  let s := record s (effect.kill (s.cuda_gdb_get_tid s.inferior_ptid) SIGKILL)
  { state := s, failure := some (failure.fatal msg res) }

/-- Lines 82-128 of `cuda-api.c`, `cuda_api_initialize ()`: the session afterwards, the
failure if the call did not return, and the value returned.  The case
`CUDBG_ERROR_INVALID_DEVICE` has no `break`, but `cuda_api_fatal` does not return. -/
def cuda_api_initialize (cudbgAPI : CUDBGAPI_st) (s : cuda_session) : outcome × Option Nat :=
  if s.api_initialized then ({ state := s, failure := none }, some 0)
  else
    let res := cudbgAPI.initialize_result
    let s := record s effect.driver_init
    if res == CUDBG_SUCCESS then
      ({ state := { s with api_initialized := true }, failure := none }, some 0)
    else if res == CUDBG_ERROR_SOME_DEVICES_WATCHDOGGED then
      let s := record s effect.warning_devices_watchdogged
      ({ state := { s with api_initialized := true }, failure := none }, some 0)
    else if res == CUDBG_ERROR_UNINITIALIZED then
      ({ state := s, failure := none }, some 1)
    else if res == CUDBG_ERROR_ALL_DEVICES_WATCHDOGGED then
      (cuda_api_fatal s
        "All CUDA devices are used for display and cannot be used while debugging." res, none)
    else if res == CUDBG_ERROR_INCOMPATIBLE_API then
      (cuda_api_fatal s "Incompatible CUDA driver version." res, none)
    else if res == CUDBG_ERROR_INVALID_DEVICE then
      (cuda_api_fatal s
        ("One or more CUDA devices cannot be used for debugging. " ++
         "Please consult the list of supported CUDA devices for more details.") res, none)
    else
      (cuda_api_fatal s "The CUDA driver initialization failed." res, none)

/-- Lines 780-794 of `cuda-api.c`, `cuda_api_get_num_devices (numDev)`: the session
afterwards, the failure if an error was raised, and `*numDev` as it was left. -/
def cuda_api_get_num_devices (cudbgAPI : CUDBGAPI_st) (s : cuda_session) : outcome × Nat :=
  let numDev := 0
  if !s.api_initialized then ({ state := s, failure := none }, numDev)
  else
    let answer := cudbgAPI.getNumDevices numDev
    let s := record s effect.driver_get_num_devices
    if answer.1 != CUDBG_SUCCESS then
      ({ state := s, failure := some (failure.get_num_devices_failed answer.1) }, answer.2)
    else ({ state := s, failure := none }, answer.2)

/-- The memory of the host process as gdb's `read_memory` and `write_memory` reach it
(`corefile.c`, not among the sources): the byte at each address, whether a range
(address, length) can be read and can be written, and what a read that fails leaves in
the buffer (address, buffer, length). -/
structure host_memory where
  byte : Nat → Nat
  readable : Nat → Nat → Bool
  writable : Nat → Nat → Bool
  after_failed_read : Nat → List Nat → Nat → List Nat

/-- The call `read_memory (memaddr, myaddr, len)` of gdb: it overwrites the first `len`
bytes of the buffer `myaddr` (which holds at least `len` bytes) with the bytes of the
host at `memaddr`, and raises a memory error when the range cannot be read.  The result
is the session, the failure if any, and the buffer as it was left. -/
def read_memory (host : host_memory) (s : cuda_session) (memaddr : Nat) (myaddr : List Nat)
    (len : Nat) : outcome × List Nat :=
  if host.readable memaddr len then
    ({ state := record s (effect.read_memory memaddr len), failure := none },
      (List.range len).map (fun i => host.byte (memaddr + i)) ++ myaddr.drop len)
  else
    ({ state := record s (effect.read_memory memaddr len),
       failure := some (failure.memory_error memaddr) },
      host.after_failed_read memaddr myaddr len)

/-- The call `write_memory (memaddr, myaddr, len)` of gdb, which raises a memory error
when the range cannot be written; the call is recorded. -/
def write_memory (host : host_memory) (s : cuda_session) (memaddr : Nat) (myaddr : List Nat)
    (len : Nat) : outcome :=
  if host.writable memaddr len then
    { state := record s (effect.write_memory memaddr myaddr len), failure := none }
  else
    { state := record s (effect.write_memory memaddr myaddr len),
      failure := some (failure.memory_error memaddr) }

/-- Lines 360-381 of `cuda-api.c`, `cuda_api_read_global_memory (dev, sm, wp, ln, addr,
buf, sz)`: the session afterwards, the failure if an error was raised, and the content
of `buf` as it was left. -/
def cuda_api_read_global_memory (cudbgAPI : CUDBGAPI_st) (host : host_memory)
    (s : cuda_session) (dev sm wp ln addr : Nat) (buf : List Nat) (sz : Nat) :
    outcome × List Nat :=
  if !s.api_initialized then ({ state := s, failure := none }, buf)
  else
    let answer := cudbgAPI.readGlobalMemory dev sm wp ln addr buf sz
    let res := answer.1
    let buf := answer.2
    let s := record s (effect.driver_read_global_memory dev sm wp ln addr sz)
    if res != CUDBG_SUCCESS && res != CUDBG_ERROR_ADDRESS_NOT_IN_DEVICE_MEM then
      ({ state := s, failure := some (failure.read_global_memory_failed res) }, buf)
    else if res == CUDBG_ERROR_ADDRESS_NOT_IN_DEVICE_MEM then
      let translated := cudbgAPI.getHostAddrFromDeviceAddr dev addr
      let res := translated.1
      let hostaddr := translated.2
      let s := record s (effect.driver_get_host_addr_from_device_addr dev addr)
      if res != CUDBG_SUCCESS then
        ({ state := s, failure := some (failure.translate_failed res) }, buf)
      else read_memory host s hostaddr buf sz
    else ({ state := s, failure := none }, buf)

/-- Lines 578-599 of `cuda-api.c`, `cuda_api_write_global_memory (dev, sm, wp, ln, addr,
buf, sz)`. -/
def cuda_api_write_global_memory (cudbgAPI : CUDBGAPI_st) (host : host_memory)
    (s : cuda_session) (dev sm wp ln addr : Nat) (buf : List Nat) (sz : Nat) : outcome :=
  if !s.api_initialized then { state := s, failure := none }
  else
    let res := cudbgAPI.writeGlobalMemory dev sm wp ln addr buf sz
    let s := record s (effect.driver_write_global_memory dev sm wp ln addr buf sz)
    if res != CUDBG_SUCCESS && res != CUDBG_ERROR_ADDRESS_NOT_IN_DEVICE_MEM then
      { state := s, failure := some (failure.write_global_memory_failed res) }
    else if res == CUDBG_ERROR_ADDRESS_NOT_IN_DEVICE_MEM then
      let translated := cudbgAPI.getHostAddrFromDeviceAddr dev addr
      let res := translated.1
      let hostaddr := translated.2
      let s := record s (effect.driver_get_host_addr_from_device_addr dev addr)
      if res != CUDBG_SUCCESS then
        { state := s, failure := some (failure.translate_failed res) }
      else write_memory host s hostaddr buf sz
    else { state := s, failure := none }

/-! ## Example sessions -/

/-- A session with two devices and nothing registered: no context, no kernel, no
breakpoint, host threads 100 and 101 (thread ids 1 and 2) with 100 focused, the API
initialized and no event pending. -/
def empty_session : cuda_session where
  contexts := fun _ => { registry := fun _ => none, thread_stacks := fun _ => [] }
  current_context := none
  kernels := fun _ _ => none
  auto_breakpoints := []
  breakpoints_inserted := true
  insert_breakpoints_error := false
  current_source_symtab_and_line := some 42
  displays := [1, 2]
  inferior_ptid := 100
  lwps := [100, 101]
  cuda_gdb_get_tid := fun ptid => ptid - 99
  cuda_options_show_context_events := false
  cuda_options_break_on_launch_application := true
  cuda_options_break_on_launch_system := false
  api_initialized := true
  driver_events := []
  driver_finalize_result := CUDBG_SUCCESS
  trace := []

/-- `empty_session` with three answers of the driver pending: a CTX_PUSH event, the
answer that no event is available, and a TIMEOUT event behind it. -/
def queued_session : cuda_session :=
  { empty_session with
    driver_events :=
      [delivered (CUDBGEvent.contextPush 0 5 1),
       { res := CUDBG_ERROR_NO_EVENT_AVAILABLE, event := none },
       delivered CUDBGEvent.timeout] }

/-- The test of lines 209-212 of `cuda-events.c`. -/
def breaks_on_launch (s : cuda_session) (type : Nat) : Bool :=
  (type == CUDBG_KNL_TYPE_APPLICATION && s.cuda_options_break_on_launch_application) ||
  (type == CUDBG_KNL_TYPE_SYSTEM && s.cuda_options_break_on_launch_system)

/-- The session `empty_session` after CTX_CREATE of context 5 on device 0 by thread 1. -/
def one_context_session : cuda_session :=
  (cuda_event_create_context empty_session 0 5 1).state

/-- The session `empty_session` after KERNEL_READY of grid 7 on device 0, reported by
thread 2: an application kernel of context 5 and module 3 with entry address 4096. -/
def one_kernel_session : cuda_session :=
  (cuda_event_kernel_ready empty_session 0 5 3 7 2 4096 ⟨1, 1, 1⟩ ⟨32, 1, 1⟩
    CUDBG_KNL_TYPE_APPLICATION).state

/-- The two-warp example in which lane `ln` is at virtual PC `ln`, a breakpoint is set at
PC 1, and the lanes of SM 1 report exception 1. -/
def broken_lanes_state : cuda_state :=
  { two_warps_state with
    lane_get_virtual_pc := fun _ _ _ ln => ln
    breakpoint_here_p := fun _ pc => pc == 1
    lane_get_exception := fun _ sm _ _ => sm }

/-- The candidate (dev, sm, wp, ln) is inside the coordinate space, its device, warp and
lane are valid, and the record stored for it at LANES granularity agrees with the
filter, if there is one. -/
def valid_lane_matching (s : cuda_state) (filter : Option cuda_coords_t)
    (dev sm wp ln : Nat) : Prop :=
  dev < s.cuda_system_get_num_devices ∧ sm < s.device_get_num_sms dev ∧
  wp < s.device_get_num_warps dev ∧ ln < s.device_get_num_lanes dev ∧
  s.device_is_valid dev = true ∧ s.warp_is_valid dev sm wp = true ∧
  s.lane_is_valid dev sm wp ln = true ∧
  ∀ f, filter = some f → agrees_with f (candidate_record s CUDA_ITERATOR_TYPE_LANES dev sm wp ln)

/-- Two devices: device 0 reports zero SMs, device 1 is the device of the two-warp
example. -/
def idle_device_state : cuda_state :=
  { two_warps_state with
    cuda_system_get_num_devices := 2
    device_get_num_sms := fun dev => if dev == 0 then 0 else 2 }

/-- `empty_session` with three answers of the driver pending: a CTX_CREATE event, an
ERROR event and a TIMEOUT event behind it. -/
def failing_session : cuda_session :=
  { empty_session with
    driver_events :=
      [delivered (CUDBGEvent.contextCreate 0 6 2),
       delivered CUDBGEvent.error,
       delivered CUDBGEvent.timeout] }

/-- The session `one_context_session` in which context 5 of device 0 is also the current
context. -/
def current_context_session : cuda_session :=
  { one_context_session with current_context := some { context_id := 5, dev_id := 0 } }

/-- A driver whose `initialize` succeeds, that reports two devices, for which only the
addresses below 4096 are in device memory, and that translates a device address to the
host address 65536 above it; it reads zeros into the first `sz` bytes of the buffer and
accepts every write. -/
def example_driver : CUDBGAPI_st where
  initialize_result := CUDBG_SUCCESS
  getNumDevices := fun _ => (CUDBG_SUCCESS, 2)
  readGlobalMemory := fun _ _ _ _ addr buf sz =>
    if addr < 4096 then (CUDBG_SUCCESS, List.replicate sz 0 ++ buf.drop sz)
    else (CUDBG_ERROR_ADDRESS_NOT_IN_DEVICE_MEM, buf)
  writeGlobalMemory := fun _ _ _ _ addr _ _ =>
    if addr < 4096 then CUDBG_SUCCESS else CUDBG_ERROR_ADDRESS_NOT_IN_DEVICE_MEM
  getHostAddrFromDeviceAddr := fun _ addr => (CUDBG_SUCCESS, addr + 65536)

/-- A host memory in which the byte at address `a` is `a % 256` and every range can be
read and written. -/
def example_host : host_memory where
  byte := fun a => a % 256
  readable := fun _ _ => true
  writable := fun _ _ => true
  after_failed_read := fun _ buf _ => buf

/-- The host memory of `example_host` in which no range at or above address 69632 can
be read or written. -/
def protected_host : host_memory :=
  { example_host with
    readable := fun a _ => decide (a < 69632)
    writable := fun a _ => decide (a < 69632) }

/-! # Theorems -/

theorem cuda_coords_equal_iff (a b : cuda_coords_t) : cuda_coords_equal a b = true ↔ a = b := by
  rcases a with ⟨v1, d1, s1, w1, l1, k1, g1, ⟨bx1, by1, bz1⟩, ⟨tx1, ty1, tz1⟩⟩
  rcases b with ⟨v2, d2, s2, w2, l2, k2, g2, ⟨bx2, by2, bz2⟩, ⟨tx2, ty2, tz2⟩⟩
  simp [cuda_coords_equal]
  tauto

theorem getD_append_at (pre rest : List cuda_coords_t) (a d : cuda_coords_t) :
    (pre ++ a :: rest).getD pre.length d = a := by
  rw [List.getD_eq_getElem?_getD, List.getElem?_append_right (Nat.le_refl _)]
  simp

theorem getD_append_succ (pre rest : List cuda_coords_t) (a b d : cuda_coords_t) :
    (pre ++ a :: b :: rest).getD (pre.length + 1) d = b := by
  have h : pre ++ a :: b :: rest = (pre ++ [a]) ++ b :: rest := by simp
  rw [h]
  have h2 : pre.length + 1 = (pre ++ [a]).length := by simp
  rw [h2]
  exact getD_append_at _ _ _ _

theorem hop_duplicates_eq (rest : List cuda_coords_t) :
    ∀ (pre : List cuda_coords_t) (a : cuda_coords_t) (fuel n : Nat),
      n = pre.length + 1 + rest.length → rest.length ≤ fuel →
      hop_duplicates (pre ++ a :: rest) n fuel (pre.length + 1)
        = pre.length + 1 + dup_run_length a rest := by
  induction rest with
  | nil =>
    intro pre a fuel n hn _
    cases fuel with
    | zero => simp [hop_duplicates, dup_run_length]
    | succ fuel => simp [hop_duplicates, dup_run_length, hn]
  | cons b t ih =>
    intro pre a fuel n hn hfuel
    cases fuel with
    | zero => simp at hfuel
    | succ fuel =>
      have hlt : pre.length + 1 < n := by simp [hn]
      have hb := getD_append_succ pre t a b CUDA_INVALID_COORDS
      have ha := getD_append_at pre (b :: t) a CUDA_INVALID_COORDS
      unfold hop_duplicates
      simp only [hlt, decide_True, Bool.true_and, Nat.add_sub_cancel, hb, ha]
      by_cases h : cuda_coords_equal b a = true
      · have e : pre ++ a :: b :: t = (pre ++ [a]) ++ b :: t := by simp
        have hi := ih (pre ++ [a]) b fuel n (by simp [hn]; omega) (by simpa using hfuel)
        simp only [List.length_append, List.length_singleton] at hi
        rw [if_pos h, e, hi]
        simp [dup_run_length, h]
        omega
      · rw [if_neg h]
        simp [dup_run_length, h]

theorem dup_run_length_le (t : List cuda_coords_t) :
    ∀ a, dup_run_length a t ≤ t.length := by
  induction t with
  | nil => intro a; simp [dup_run_length]
  | cons b t ih =>
    intro a
    unfold dup_run_length
    split
    · have := ih b
      simp
      omega
    · simp

theorem run_heads_drop_dups (t : List cuda_coords_t) :
    ∀ a, run_heads (t.drop (dup_run_length a t)) = keep_changes a t := by
  induction t with
  | nil => intro a; simp [dup_run_length, run_heads, keep_changes]
  | cons b t ih =>
    intro a
    by_cases h : cuda_coords_equal b a = true
    · simp [dup_run_length, keep_changes, h, ih b]
    · simp [dup_run_length, keep_changes, h, run_heads]

theorem getLast_getD_cons (a d : cuda_coords_t) (l : List cuda_coords_t) :
    (a :: l).getLast?.getD d = l.getLast?.getD a := by
  cases l with
  | nil => simp
  | cons b t =>
    rw [List.getLast?_cons_cons, List.getLast?_eq_getLast (b :: t) (by simp)]
    simp

theorem cuda_iterator_next_at (itr : cuda_iterator_t) (pre t : List cuda_coords_t)
    (a : cuda_coords_t) (hl : itr.list = pre ++ a :: t) (hi : itr.next_index = pre.length)
    (hn : itr.num_elements = itr.list.length) :
    cuda_iterator_next itr =
      { itr with current := a, next_index := pre.length + 1 + dup_run_length a t } := by
  have hlen : itr.num_elements = pre.length + 1 + t.length := by
    rw [hn, hl]; simp; omega
  have hlt : ¬ itr.next_index ≥ itr.num_elements := by omega
  unfold cuda_iterator_next
  rw [if_neg hlt, hi, hl, getD_append_at,
    hop_duplicates_eq t pre a itr.num_elements itr.num_elements hlen (by omega)]

theorem visit_loop_next (k : Nat) :
    ∀ (rest pre : List cuda_coords_t) (itr : cuda_iterator_t) (fuel : Nat),
      rest.length ≤ k → itr.list = pre ++ rest → itr.next_index = pre.length →
      itr.num_elements = itr.list.length → (∀ c ∈ itr.list, c.valid = true) →
      rest.length + 1 ≤ fuel →
      visit_loop fuel (cuda_iterator_next itr) =
        some (run_heads rest,
          { itr with
            next_index := itr.list.length
            current := { (run_heads rest).getLastD itr.current with valid := false } }) := by
  induction k with
  | zero =>
    intro rest pre itr fuel hk hl hi hn _ hfuel
    have hr : rest = [] := List.length_eq_zero.mp (Nat.le_zero.mp hk)
    subst hr
    obtain ⟨fuel, rfl⟩ : ∃ f, fuel = f + 1 := ⟨fuel - 1, by omega⟩
    have hge : itr.next_index ≥ itr.num_elements := by rw [hn, hl, hi]; simp
    have hlen : itr.list.length = itr.next_index := by rw [hl, hi]; simp
    simp [visit_loop, cuda_iterator_next, hge, cuda_iterator_end, run_heads, hlen]
  | succ k ih =>
    intro rest pre itr fuel hk hl hi hn hv hfuel
    cases rest with
    | nil => exact ih [] pre itr fuel (Nat.zero_le _) hl hi hn hv hfuel
    | cons a t =>
      obtain ⟨fuel, rfl⟩ : ∃ f, fuel = f + 1 := ⟨fuel - 1, by omega⟩
      have hd := dup_run_length_le t a
      have ha : a.valid = true := hv a (by rw [hl]; simp)
      rw [cuda_iterator_next_at itr pre t a hl hi hn]
      have hstep := ih (t.drop (dup_run_length a t)) (pre ++ a :: t.take (dup_run_length a t))
        { itr with current := a, next_index := pre.length + 1 + dup_run_length a t } fuel
        (by simp at hk ⊢; omega)
        (by simp [hl])
        (by simp; omega)
        hn hv
        (by simp at hfuel ⊢; omega)
      unfold visit_loop
      simp only [cuda_iterator_end, ha, Bool.not_true, Bool.false_eq_true, if_false, hstep,
        Option.map_some', cuda_iterator_get_current, run_heads_drop_dups]
      simp [run_heads, getLast_getD_cons]

theorem cuda_iterator_traverse_eq (itr : cuda_iterator_t)
    (hn : itr.num_elements = itr.list.length) (hv : ∀ c ∈ itr.list, c.valid = true) :
    cuda_iterator_traverse itr =
      some (run_heads itr.list,
        { itr with
          next_index := itr.list.length
          current := { (run_heads itr.list).getLastD itr.current with valid := false } }) := by
  unfold cuda_iterator_traverse cuda_iterator_start
  exact visit_loop_next itr.list.length itr.list [] { itr with next_index := 0 }
    (itr.num_elements + 1) (Nat.le_refl _) rfl rfl hn hv (by simp [hn])

/-! ### The comparators -/

theorem compare_field_le (a b : Nat) (r : Int) :
    compare_field a b r ≤ 0 ↔ a < b ∨ (a = b ∧ r ≤ 0) := by
  unfold compare_field
  split_ifs <;> omega

theorem compare_field_lt (a b : Nat) (r : Int) :
    compare_field a b r < 0 ↔ a < b ∨ (a = b ∧ r < 0) := by
  unfold compare_field
  split_ifs <;> omega

theorem compare_field_eq (a b : Nat) (r : Int) :
    compare_field a b r = 0 ↔ a = b ∧ r = 0 := by
  unfold compare_field
  split_ifs with h1 h2
  · simp; omega
  · simp; omega
  · have : a = b := by omega
    simp [this]

theorem compare_physical_ok : comparator_ok cuda_coords_compare_physical := by
  constructor
  · intro a b
    simp only [cuda_coords_compare_physical, compare_field_le]
    omega
  · intro a b c
    simp only [cuda_coords_compare_physical, compare_field_le]
    omega

theorem compare_logical_ok : comparator_ok cuda_coords_compare_logical := by
  constructor
  · intro a b
    simp only [cuda_coords_compare_logical, compare_field_le]
    omega
  · intro a b c
    simp only [cuda_coords_compare_logical, compare_field_le]
    omega

theorem iterator_compare_ok (type : Nat) : comparator_ok (iterator_compare type) := by
  unfold iterator_compare
  split
  · exact compare_logical_ok
  · exact compare_physical_ok

/-! ### The populated list -/

theorem lane_body_eq (s : cuda_state) (type : Nat) (filter : Option cuda_coords_t)
    (select_mask dev sm wp ln : Nat) :
    lane_body s type filter select_mask dev sm wp (warp_kernel_id s dev sm wp)
        (warp_grid_id s dev sm wp) (warp_block_idx s dev sm wp) ln =
      if lane_checks s filter select_mask dev sm wp ln
      then some (candidate_record s type dev sm wp ln) else none := by
  simp only [lane_body, lane_checks, candidate_record, lane_thread_idx]
  generalize (select_has select_mask CUDA_SELECT_VALID && !s.lane_is_valid dev sm wp ln) = c1
  generalize filter_rejects filter (fun f => f.ln) ln = c2
  generalize (filter_rejects filter (fun f => f.threadIdx.x) _ ||
    filter_rejects filter (fun f => f.threadIdx.y) _ ||
    filter_rejects filter (fun f => f.threadIdx.z) _) = c3
  generalize (select_has select_mask CUDA_SELECT_BKPT && s.warp_is_valid dev sm wp &&
    s.lane_is_valid dev sm wp ln &&
    !s.breakpoint_here_p (iterator_aspace s) (s.lane_get_virtual_pc dev sm wp ln)) = c4
  generalize (select_has select_mask CUDA_SELECT_EXCPT && s.warp_is_valid dev sm wp &&
    s.lane_is_valid dev sm wp ln && s.lane_get_exception dev sm wp ln == 0) = c5
  cases c1 <;> cases c2 <;> cases c3 <;> cases c4 <;> cases c5 <;> rfl

theorem warp_body_eq (s : cuda_state) (type : Nat) (filter : Option cuda_coords_t)
    (select_mask dev sm wp : Nat) :
    warp_body s type filter select_mask dev sm wp =
      if warp_checks s filter select_mask dev sm wp then
        (List.range (s.device_get_num_lanes dev)).filterMap (fun ln =>
          if lane_checks s filter select_mask dev sm wp ln
          then some (candidate_record s type dev sm wp ln) else none)
      else [] := by
  have h : lane_body s type filter select_mask dev sm wp (warp_kernel_id s dev sm wp)
        (warp_grid_id s dev sm wp) (warp_block_idx s dev sm wp) = fun ln =>
      if lane_checks s filter select_mask dev sm wp ln
      then some (candidate_record s type dev sm wp ln) else none :=
    funext (lane_body_eq s type filter select_mask dev sm wp)
  rw [← h]
  have key : ∀ (c1 c2 c3 : Bool) (l : List cuda_coords_t),
      (if c1 = true then [] else if c2 = true then [] else if c3 = true then [] else l) =
        if (!c1 && !c2 && !c3) = true then l else [] := by
    intro c1 c2 c3 l
    cases c1 <;> cases c2 <;> cases c3 <;> rfl
  exact key _ _ _ _

theorem mem_warp_body (s : cuda_state) (type : Nat) (filter : Option cuda_coords_t)
    (select_mask dev sm wp : Nat) (c : cuda_coords_t) :
    c ∈ warp_body s type filter select_mask dev sm wp ↔
      warp_checks s filter select_mask dev sm wp = true ∧
      ∃ ln, ln < s.device_get_num_lanes dev ∧
        lane_checks s filter select_mask dev sm wp ln = true ∧
        c = candidate_record s type dev sm wp ln := by
  rw [warp_body_eq]
  split_ifs with h
  · simp only [List.mem_filterMap, List.mem_range, h, true_and]
    constructor
    · rintro ⟨ln, hln, hc⟩
      split_ifs at hc with h2
      exact ⟨ln, hln, h2, (Option.some.inj hc).symm⟩
    · rintro ⟨ln, hln, h2, hc⟩
      exact ⟨ln, hln, by rw [if_pos h2, hc]⟩
  · simp [h]

theorem mem_sm_body (s : cuda_state) (type : Nat) (filter : Option cuda_coords_t)
    (select_mask dev sm : Nat) (c : cuda_coords_t) :
    c ∈ sm_body s type filter select_mask dev sm ↔
      sm_checks filter sm = true ∧
      ∃ wp, wp < s.device_get_num_warps dev ∧ c ∈ warp_body s type filter select_mask dev sm wp := by
  unfold sm_body sm_checks
  split_ifs with h
  · simp [h]
  · simp [h, List.mem_flatMap]

theorem dev_body_eq (s : cuda_state) (type : Nat) (filter : Option cuda_coords_t)
    (select_mask dev : Nat) :
    dev_body s type filter select_mask dev =
      if dev_checks s filter select_mask dev then
        (List.range (s.device_get_num_sms dev)).flatMap (sm_body s type filter select_mask dev)
      else [] := by
  have key : ∀ (c1 c2 : Bool) (l : List cuda_coords_t),
      (if c1 = true then [] else if c2 = true then [] else l) =
        if (!c1 && !c2) = true then l else [] := by
    intro c1 c2 l
    cases c1 <;> cases c2 <;> rfl
  exact key _ _ _

theorem mem_dev_body (s : cuda_state) (type : Nat) (filter : Option cuda_coords_t)
    (select_mask dev : Nat) (c : cuda_coords_t) :
    c ∈ dev_body s type filter select_mask dev ↔
      dev_checks s filter select_mask dev = true ∧
      ∃ sm, sm < s.device_get_num_sms dev ∧ c ∈ sm_body s type filter select_mask dev sm := by
  rw [dev_body_eq]
  split_ifs with h
  · simp only [List.mem_flatMap, List.mem_range, h, true_and]
  · simp [h]

theorem mem_populate (s : cuda_state) (type : Nat) (filter : Option cuda_coords_t)
    (select_mask : Nat) (c : cuda_coords_t) :
    c ∈ populate s type filter select_mask ↔
      ∃ dev sm wp ln, candidate_passes s filter select_mask dev sm wp ln = true ∧
        c = candidate_record s type dev sm wp ln := by
  simp only [populate, List.mem_flatMap, List.mem_range, mem_dev_body, mem_sm_body,
    mem_warp_body, candidate_passes, Bool.and_eq_true, decide_eq_true_eq]
  constructor
  · rintro ⟨dev, hdev, hd, sm, hsm, hs, wp, hwp, hw, ln, hln, hl, rfl⟩
    exact ⟨dev, sm, wp, ln, ⟨⟨⟨⟨⟨⟨⟨hdev, hsm⟩, hwp⟩, hln⟩, hd⟩, hs⟩, hw⟩, hl⟩, rfl⟩
  · rintro ⟨dev, sm, wp, ln, ⟨⟨⟨⟨⟨⟨⟨hdev, hsm⟩, hwp⟩, hln⟩, hd⟩, hs⟩, hw⟩, hl⟩, rfl⟩
    exact ⟨dev, hdev, hd, sm, hsm, hs, wp, hwp, hw, ln, hln, hl, rfl⟩

theorem candidate_record_valid (s : cuda_state) (type dev sm wp ln : Nat) :
    (candidate_record s type dev sm wp ln).valid = true := rfl

theorem populate_valid (s : cuda_state) (type : Nat) (filter : Option cuda_coords_t)
    (select_mask : Nat) : ∀ c ∈ populate s type filter select_mask, c.valid = true := by
  intro c hc
  obtain ⟨dev, sm, wp, ln, _, rfl⟩ := (mem_populate s type filter select_mask c).mp hc
  rfl

/-! ### Counting the unique elements -/

theorem count_unique_loop_eq (rest : List cuda_coords_t) :
    ∀ (pre : List cuda_coords_t) (a : cuda_coords_t) (fuel n acc : Nat),
      n = pre.length + 1 + rest.length → rest.length ≤ fuel →
      count_unique_loop (pre ++ a :: rest) n fuel (pre.length + 1) acc
        = acc + (keep_changes a rest).length := by
  induction rest with
  | nil =>
    intro pre a fuel n acc hn _
    cases fuel with
    | zero => simp [count_unique_loop, keep_changes]
    | succ fuel => simp [count_unique_loop, keep_changes, hn]
  | cons b t ih =>
    intro pre a fuel n acc hn hfuel
    cases fuel with
    | zero => simp at hfuel
    | succ fuel =>
      have hlt : pre.length + 1 < n := by simp [hn]
      have hb := getD_append_succ pre t a b CUDA_INVALID_COORDS
      have ha := getD_append_at pre (b :: t) a CUDA_INVALID_COORDS
      have e : pre ++ a :: b :: t = (pre ++ [a]) ++ b :: t := by simp
      unfold count_unique_loop
      simp only [hlt, if_true, Nat.add_sub_cancel, hb, ha]
      rw [e]
      have hi := fun acc => ih (pre ++ [a]) b fuel n acc (by simp [hn]; omega)
        (by simpa using hfuel)
      simp only [List.length_append, List.length_singleton] at hi
      rw [hi]
      by_cases h : cuda_coords_equal b a = true
      · simp [keep_changes, h]
      · simp [keep_changes, h]
        omega

theorem count_unique_eq (l : List cuda_coords_t) :
    count_unique l l.length = (run_heads l).length := by
  cases l with
  | nil => simp [count_unique, run_heads]
  | cons a t =>
    have h := count_unique_loop_eq t [] a (t.length + 1) (t.length + 1) 1 (by simp; omega)
      (by omega)
    simp only [List.nil_append, List.length_nil, Nat.zero_add] at h
    simp [count_unique, run_heads, h]
    omega

theorem splitBy_loop_length (l : List cuda_coords_t) :
    ∀ (ag : cuda_coords_t) (g : List cuda_coords_t) (gs : List (List cuda_coords_t)),
      (List.splitBy.loop (fun previous record => cuda_coords_equal record previous)
          l ag g gs).length = gs.length + 1 + (keep_changes ag l).length := by
  induction l with
  | nil => intro ag g gs; simp [List.splitBy.loop, keep_changes]
  | cons a t ih =>
    intro ag g gs
    unfold List.splitBy.loop
    by_cases h : cuda_coords_equal a ag = true
    · simp [h, ih, keep_changes]
    · simp [h, ih, keep_changes]
      omega

theorem equal_runs_length (l : List cuda_coords_t) :
    (equal_runs l).length = (run_heads l).length := by
  cases l with
  | nil => simp [equal_runs, List.splitBy, run_heads]
  | cons a t =>
    simp [equal_runs, List.splitBy, run_heads, splitBy_loop_length]
    omega

theorem keep_changes_sublist (t : List cuda_coords_t) :
    ∀ a, List.Sublist (keep_changes a t) t := by
  induction t with
  | nil => intro a; simp [keep_changes]
  | cons b t ih =>
    intro a
    unfold keep_changes
    split
    · exact (ih b).cons b
    · exact (ih b).cons₂ b

theorem run_heads_sublist (l : List cuda_coords_t) : List.Sublist (run_heads l) l := by
  cases l with
  | nil => simp [run_heads]
  | cons a t => exact (keep_changes_sublist t a).cons₂ a

/-! ### The iterator built by `cuda_iterator_create` -/

theorem create_list_perm (qsort : qsort_t) (s : cuda_state) (type : Nat)
    (filter : Option cuda_coords_t) (select_mask : Nat) :
    List.Perm (cuda_iterator_create qsort s type filter select_mask).list
      (populate s type filter select_mask) :=
  qsort.perm _ _

theorem create_num_elements (qsort : qsort_t) (s : cuda_state) (type : Nat)
    (filter : Option cuda_coords_t) (select_mask : Nat) :
    (cuda_iterator_create qsort s type filter select_mask).num_elements =
      (cuda_iterator_create qsort s type filter select_mask).list.length :=
  (create_list_perm qsort s type filter select_mask).length_eq.symm

theorem create_list_valid (qsort : qsort_t) (s : cuda_state) (type : Nat)
    (filter : Option cuda_coords_t) (select_mask : Nat) :
    ∀ c ∈ (cuda_iterator_create qsort s type filter select_mask).list, c.valid = true :=
  fun c hc => populate_valid s type filter select_mask c
    ((create_list_perm qsort s type filter select_mask).subset hc)

theorem lor_eq_zero (a b : Nat) : a ||| b = 0 ↔ a = 0 ∧ b = 0 := by
  constructor
  · intro h
    have hb : ∀ i, (a.testBit i || b.testBit i) = false := by
      intro i
      rw [← Nat.testBit_or, h, Nat.zero_testBit]
    constructor <;> apply Nat.eq_of_testBit_eq <;> intro i <;> have := hb i <;>
      simp only [Bool.or_eq_false_iff] at this <;> simp [this]
  · rintro ⟨rfl, rfl⟩
    rfl

theorem iterator_compare_eq (type : Nat) : iterator_compare type = declared_compare type := by
  unfold iterator_compare declared_compare has_logical_bit
  by_cases h : (type &&& (CUDA_ITERATOR_TYPE_KERNELS ||| CUDA_ITERATOR_TYPE_BLOCKS |||
        CUDA_ITERATOR_TYPE_THREADS)) = 0
  · have h2 := h
    rw [Nat.and_or_distrib_left, Nat.and_or_distrib_left, lor_eq_zero, lor_eq_zero] at h2
    simp [h, h2.1.1, h2.1.2, h2.2]
  · have h2 := h
    rw [Nat.and_or_distrib_left, Nat.and_or_distrib_left, lor_eq_zero, lor_eq_zero] at h2
    rw [if_pos h, if_pos]
    simp only [Bool.or_eq_true, bne_iff_ne]
    by_contra hc
    exact h2 ⟨⟨by_contra fun h3 => hc (Or.inl (Or.inl h3)),
      by_contra fun h3 => hc (Or.inl (Or.inr h3))⟩, by_contra fun h3 => hc (Or.inr h3)⟩

theorem create_list_sorted (qsort : qsort_t) (s : cuda_state) (type : Nat)
    (filter : Option cuda_coords_t) (select_mask : Nat) :
    List.Pairwise (fun a b => declared_compare type a b ≤ 0)
      (cuda_iterator_create qsort s type filter select_mask).list := by
  rw [← iterator_compare_eq]
  exact qsort.sorted _ _ (iterator_compare_ok type)

theorem create_traverse (qsort : qsort_t) (s : cuda_state) (type : Nat)
    (filter : Option cuda_coords_t) (select_mask : Nat) :
    cuda_iterator_traverse (cuda_iterator_create qsort s type filter select_mask) =
      some (run_heads (cuda_iterator_create qsort s type filter select_mask).list,
        { cuda_iterator_create qsort s type filter select_mask with
          next_index := (cuda_iterator_create qsort s type filter select_mask).list.length
          current :=
            { (run_heads (cuda_iterator_create qsort s type filter select_mask).list).getLastD
                CUDA_INVALID_COORDS with valid := false } }) :=
  cuda_iterator_traverse_eq _ (create_num_elements qsort s type filter select_mask)
    (create_list_valid qsort s type filter select_mask)

theorem candidate_passes_eq (s : cuda_state) (filter : Option cuda_coords_t)
    (select_mask dev sm wp ln : Nat) :
    candidate_passes s filter select_mask dev sm wp ln =
      (in_bounds s dev sm wp ln && validity_checks s select_mask dev sm wp ln &&
        filter_checks s filter dev sm wp ln && breakpoint_check s select_mask dev sm wp ln &&
        exception_check s select_mask dev sm wp ln) := by
  rw [Bool.eq_iff_iff]
  simp only [candidate_passes, in_bounds, validity_checks, filter_checks, breakpoint_check,
    exception_check, dev_checks, sm_checks, warp_checks, lane_checks, Bool.not_or,
    Bool.and_eq_true]
  tauto

theorem mem_run_heads (l : List cuda_coords_t) (c : cuda_coords_t) :
    c ∈ run_heads l ↔ c ∈ l := by
  constructor
  · exact fun h => (run_heads_sublist l).subset h
  · have key : ∀ (t : List cuda_coords_t) (a : cuda_coords_t),
        c ∈ t → c = a ∨ c ∈ keep_changes a t := by
      intro t
      induction t with
      | nil => intro a h; simp at h
      | cons b t ih =>
        intro a h
        unfold keep_changes
        rcases List.mem_cons.mp h with rfl | h
        · by_cases hb : cuda_coords_equal c a = true
          · exact Or.inl ((cuda_coords_equal_iff c a).mp hb)
          · rw [if_neg hb]; exact Or.inr (List.mem_cons_self _ _)
        · rcases ih b h with rfl | h2
          · by_cases hb : cuda_coords_equal c a = true
            · exact Or.inl ((cuda_coords_equal_iff c a).mp hb)
            · rw [if_neg hb]; exact Or.inr (List.mem_cons_self _ _)
          · by_cases hb : cuda_coords_equal b a = true
            · rw [if_pos hb]; exact Or.inr h2
            · rw [if_neg hb]; exact Or.inr (List.mem_cons_of_mem _ h2)
    intro h
    cases l with
    | nil => simp at h
    | cons a t =>
      rcases List.mem_cons.mp h with rfl | h
      · exact List.mem_cons_self _ _
      · rcases key t a h with rfl | h2
        · exact List.mem_cons_self _ _
        · exact List.mem_cons_of_mem _ h2

theorem mem_visited (qsort : qsort_t) (s : cuda_state) (type : Nat)
    (filter : Option cuda_coords_t) (select_mask : Nat) (c : cuda_coords_t) :
    c ∈ run_heads (cuda_iterator_create qsort s type filter select_mask).list ↔
      ∃ dev sm wp ln, candidate_passes s filter select_mask dev sm wp ln = true ∧
        c = candidate_record s type dev sm wp ln := by
  rw [mem_run_heads, (create_list_perm qsort s type filter select_mask).mem_iff, mem_populate]

theorem keep_changes_chain (t : List cuda_coords_t) :
    ∀ a, List.Chain (fun x y => cuda_coords_equal x y = false) a (keep_changes a t) := by
  induction t with
  | nil => intro a; exact List.Chain.nil
  | cons b t ih =>
    intro a
    unfold keep_changes
    by_cases hb : cuda_coords_equal b a = true
    · rw [if_pos hb]
      have e : b = a := (cuda_coords_equal_iff b a).mp hb
      rw [← e]
      exact ih b
    · rw [if_neg hb]
      refine List.Chain.cons ?_ (ih b)
      cases h : cuda_coords_equal a b with
      | false => rfl
      | true =>
        exact absurd ((cuda_coords_equal_iff b a).mpr ((cuda_coords_equal_iff a b).mp h).symm) hb

theorem run_heads_chain (l : List cuda_coords_t) :
    List.Chain' (fun x y => cuda_coords_equal x y = false) (run_heads l) := by
  cases l with
  | nil => exact List.chain'_nil
  | cons a t => exact keep_changes_chain t a

theorem chain_and {R S : cuda_coords_t → cuda_coords_t → Prop} (l : List cuda_coords_t) :
    ∀ a, List.Chain R a l → List.Chain S a l → List.Chain (fun x y => R x y ∧ S x y) a l := by
  induction l with
  | nil => intro a _ _; exact List.Chain.nil
  | cons b t ih =>
    intro a hR hS
    rw [List.chain_cons] at hR hS ⊢
    exact ⟨⟨hR.1, hS.1⟩, ih b hR.2 hS.2⟩

theorem chain'_and {R S : cuda_coords_t → cuda_coords_t → Prop} (l : List cuda_coords_t)
    (hR : List.Chain' R l) (hS : List.Chain' S l) :
    List.Chain' (fun x y => R x y ∧ S x y) l := by
  cases l with
  | nil => exact List.chain'_nil
  | cons a t => exact chain_and t a hR hS

theorem compare_physical_lt_iff (a b : cuda_coords_t) :
    cuda_coords_compare_physical a b < 0 ↔ tuple_lt (physical_tuple a) (physical_tuple b) := by
  simp only [cuda_coords_compare_physical, compare_field_lt, tuple_lt, physical_tuple]
  constructor <;> intro h <;> omega

theorem compare_physical_eq_iff (a b : cuda_coords_t) :
    cuda_coords_compare_physical a b = 0 ↔
      a.dev = b.dev ∧ a.sm = b.sm ∧ a.wp = b.wp ∧ a.ln = b.ln := by
  simp only [cuda_coords_compare_physical, compare_field_eq, and_true]

theorem compare_physical_lt_trans (a b c : cuda_coords_t)
    (h1 : cuda_coords_compare_physical a b < 0) (h2 : cuda_coords_compare_physical b c < 0) :
    cuda_coords_compare_physical a c < 0 := by
  simp only [cuda_coords_compare_physical, compare_field_lt] at h1 h2 ⊢
  omega

theorem compare_physical_lt_of_le_ne (a b : cuda_coords_t)
    (h1 : cuda_coords_compare_physical a b ≤ 0) (h2 : cuda_coords_compare_physical a b ≠ 0) :
    cuda_coords_compare_physical a b < 0 := by
  omega

theorem record_determined_devices (s : cuda_state) (d1 s1 w1 l1 d2 s2 w2 l2 : Nat)
    (h : cuda_coords_compare_physical (candidate_record s CUDA_ITERATOR_TYPE_DEVICES d1 s1 w1 l1)
      (candidate_record s CUDA_ITERATOR_TYPE_DEVICES d2 s2 w2 l2) = 0) :
    candidate_record s CUDA_ITERATOR_TYPE_DEVICES d1 s1 w1 l1 =
      candidate_record s CUDA_ITERATOR_TYPE_DEVICES d2 s2 w2 l2 := by
  have f1 : store_dev CUDA_ITERATOR_TYPE_DEVICES = true := by decide
  have f2 : store_sm CUDA_ITERATOR_TYPE_DEVICES = false := by decide
  have f3 : store_warp CUDA_ITERATOR_TYPE_DEVICES = false := by decide
  have f4 : store_lane CUDA_ITERATOR_TYPE_DEVICES = false := by decide
  have f5 : store_kernel CUDA_ITERATOR_TYPE_DEVICES = false := by decide
  have f6 : store_grid CUDA_ITERATOR_TYPE_DEVICES = false := by decide
  have f7 : store_block CUDA_ITERATOR_TYPE_DEVICES = false := by decide
  have f8 : store_thread CUDA_ITERATOR_TYPE_DEVICES = false := by decide
  rw [compare_physical_eq_iff] at h
  simp only [candidate_record, store_record, f1, f2, f3, f4, f5, f6, f7, f8, if_true,
    Bool.false_eq_true, if_false] at h ⊢
  rw [h.1]

theorem record_determined_warps (s : cuda_state) (d1 s1 w1 l1 d2 s2 w2 l2 : Nat)
    (h : cuda_coords_compare_physical (candidate_record s CUDA_ITERATOR_TYPE_WARPS d1 s1 w1 l1)
      (candidate_record s CUDA_ITERATOR_TYPE_WARPS d2 s2 w2 l2) = 0) :
    candidate_record s CUDA_ITERATOR_TYPE_WARPS d1 s1 w1 l1 =
      candidate_record s CUDA_ITERATOR_TYPE_WARPS d2 s2 w2 l2 := by
  have f1 : store_dev CUDA_ITERATOR_TYPE_WARPS = true := by decide
  have f2 : store_sm CUDA_ITERATOR_TYPE_WARPS = true := by decide
  have f3 : store_warp CUDA_ITERATOR_TYPE_WARPS = true := by decide
  have f4 : store_lane CUDA_ITERATOR_TYPE_WARPS = false := by decide
  have f5 : store_kernel CUDA_ITERATOR_TYPE_WARPS = true := by decide
  have f6 : store_grid CUDA_ITERATOR_TYPE_WARPS = true := by decide
  have f7 : store_block CUDA_ITERATOR_TYPE_WARPS = true := by decide
  have f8 : store_thread CUDA_ITERATOR_TYPE_WARPS = false := by decide
  rw [compare_physical_eq_iff] at h
  simp only [candidate_record, store_record, f1, f2, f3, f4, f5, f6, f7, f8, if_true,
    Bool.false_eq_true, if_false] at h ⊢
  rw [h.1, h.2.1, h.2.2.1]

theorem record_determined_lanes (s : cuda_state) (d1 s1 w1 l1 d2 s2 w2 l2 : Nat)
    (h : cuda_coords_compare_physical (candidate_record s CUDA_ITERATOR_TYPE_LANES d1 s1 w1 l1)
      (candidate_record s CUDA_ITERATOR_TYPE_LANES d2 s2 w2 l2) = 0) :
    candidate_record s CUDA_ITERATOR_TYPE_LANES d1 s1 w1 l1 =
      candidate_record s CUDA_ITERATOR_TYPE_LANES d2 s2 w2 l2 := by
  have f1 : store_dev CUDA_ITERATOR_TYPE_LANES = true := by decide
  have f2 : store_sm CUDA_ITERATOR_TYPE_LANES = true := by decide
  have f3 : store_warp CUDA_ITERATOR_TYPE_LANES = true := by decide
  have f4 : store_lane CUDA_ITERATOR_TYPE_LANES = true := by decide
  have f5 : store_kernel CUDA_ITERATOR_TYPE_LANES = true := by decide
  have f6 : store_grid CUDA_ITERATOR_TYPE_LANES = true := by decide
  have f7 : store_block CUDA_ITERATOR_TYPE_LANES = true := by decide
  have f8 : store_thread CUDA_ITERATOR_TYPE_LANES = true := by decide
  rw [compare_physical_eq_iff] at h
  simp only [candidate_record, store_record, f1, f2, f3, f4, f5, f6, f7, f8, if_true] at h ⊢
  rw [h.1, h.2.1, h.2.2.1, h.2.2.2]

/-- When records that tie under the physical comparison are equal records, the
coordinates visited are pairwise strictly increasing under the physical order. -/
theorem visited_strict (qsort : qsort_t) (s : cuda_state) (type : Nat)
    (filter : Option cuda_coords_t) (select_mask : Nat)
    (hphys : has_logical_bit type = false)
    (hdet : ∀ d1 s1 w1 l1 d2 s2 w2 l2,
      cuda_coords_compare_physical (candidate_record s type d1 s1 w1 l1)
        (candidate_record s type d2 s2 w2 l2) = 0 →
      candidate_record s type d1 s1 w1 l1 = candidate_record s type d2 s2 w2 l2) :
    List.Pairwise (fun a b => cuda_coords_compare_physical a b < 0)
      (run_heads (cuda_iterator_create qsort s type filter select_mask).list) := by
  have hle := ((create_list_sorted qsort s type filter select_mask).sublist
    (run_heads_sublist _)).chain'
  simp only [declared_compare, hphys, Bool.false_eq_true, if_false] at hle
  have hne := run_heads_chain (cuda_iterator_create qsort s type filter select_mask).list
  have hboth := List.Chain'.iff_mem.mp (chain'_and _ hle hne)
  haveI : IsTrans cuda_coords_t (fun a b => cuda_coords_compare_physical a b < 0) :=
    ⟨compare_physical_lt_trans⟩
  rw [← List.chain'_iff_pairwise]
  refine hboth.imp ?_
  rintro a b ⟨ha, hb, hab, hneq⟩
  apply compare_physical_lt_of_le_ne a b hab
  intro h0
  obtain ⟨d1, s1, w1, l1, _, rfl⟩ := (mem_visited qsort s type filter select_mask a).mp ha
  obtain ⟨d2, s2, w2, l2, _, rfl⟩ := (mem_visited qsort s type filter select_mask b).mp hb
  have := (cuda_coords_equal_iff _ _).mpr (hdet d1 s1 w1 l1 d2 s2 w2 l2 h0)
  rw [this] at hneq
  exact Bool.noConfusion hneq

/-! ### Filters and select masks -/

theorem filter_rejects_false_iff (f : cuda_coords_t) (field : cuda_coords_t → Nat) (v : Nat) :
    filter_rejects (some f) field v = false ↔ field_agrees (field f) v := by
  simp only [filter_rejects, field_agrees, Bool.and_eq_false_iff, bne_eq_false_iff_eq]

theorem filter_checks_unconstrained (s : cuda_state) (filter : Option cuda_coords_t)
    (h : unconstrained filter = true) (dev sm wp ln : Nat) :
    filter_checks s filter dev sm wp ln = true := by
  cases filter with
  | none => simp [filter_checks, filter_rejects]
  | some f =>
    simp only [unconstrained, all_wildcard, Bool.and_eq_true, beq_iff_eq] at h
    obtain ⟨⟨⟨⟨⟨⟨⟨⟨⟨⟨⟨h1, h2⟩, h3⟩, h4⟩, h5⟩, h6⟩, h7⟩, h8⟩, h9⟩, h10⟩, h11⟩, h12⟩ := h
    simp [filter_checks, filter_rejects, h1, h2, h3, h4, h5, h6, h7, h8, h9, h10, h11, h12]

theorem filter_rejects_unconstrained (filter : Option cuda_coords_t)
    (h : unconstrained filter = true) :
    (∀ v, filter_rejects filter (fun f => f.dev) v = false) ∧
    (∀ v, filter_rejects filter (fun f => f.sm) v = false) ∧
    (∀ v, filter_rejects filter (fun f => f.wp) v = false) ∧
    (∀ v, filter_rejects filter (fun f => f.ln) v = false) ∧
    (∀ v, filter_rejects filter (fun f => f.kernelId) v = false) ∧
    (∀ v, filter_rejects filter (fun f => f.gridId) v = false) ∧
    (∀ v, filter_rejects filter (fun f => f.blockIdx.x) v = false) ∧
    (∀ v, filter_rejects filter (fun f => f.blockIdx.y) v = false) ∧
    (∀ v, filter_rejects filter (fun f => f.blockIdx.z) v = false) ∧
    (∀ v, filter_rejects filter (fun f => f.threadIdx.x) v = false) ∧
    (∀ v, filter_rejects filter (fun f => f.threadIdx.y) v = false) ∧
    (∀ v, filter_rejects filter (fun f => f.threadIdx.z) v = false) := by
  cases filter with
  | none => simp [filter_rejects]
  | some f =>
    simp only [unconstrained, all_wildcard, Bool.and_eq_true, beq_iff_eq] at h
    obtain ⟨⟨⟨⟨⟨⟨⟨⟨⟨⟨⟨h1, h2⟩, h3⟩, h4⟩, h5⟩, h6⟩, h7⟩, h8⟩, h9⟩, h10⟩, h11⟩, h12⟩ := h
    simp [filter_rejects, h1, h2, h3, h4, h5, h6, h7, h8, h9, h10, h11, h12]

theorem populate_unconstrained (s : cuda_state) (type : Nat) (filter : Option cuda_coords_t)
    (select_mask : Nat) (h : unconstrained filter = true) :
    populate s type filter select_mask = populate s type none select_mask := by
  obtain ⟨h1, h2, h3, h4, h5, h6, h7, h8, h9, h10, h11, h12⟩ :=
    filter_rejects_unconstrained filter h
  obtain ⟨n1, n2, n3, n4, n5, n6, n7, n8, n9, n10, n11, n12⟩ :=
    filter_rejects_unconstrained none rfl
  have hl : ∀ dev sm wp k g b,
      lane_body s type filter select_mask dev sm wp k g b =
        lane_body s type none select_mask dev sm wp k g b := by
    intro dev sm wp k g b
    funext ln
    simp only [lane_body, h4, h10, h11, h12, n4, n10, n11, n12]
  have hw : ∀ dev sm, warp_body s type filter select_mask dev sm =
      warp_body s type none select_mask dev sm := by
    intro dev sm
    funext wp
    simp only [warp_body, h3, h5, h6, h7, h8, h9, n3, n5, n6, n7, n8, n9, hl]
  have hs : ∀ dev, sm_body s type filter select_mask dev =
      sm_body s type none select_mask dev := by
    intro dev
    funext sm
    simp only [sm_body, h2, n2, hw]
  have hd : dev_body s type filter select_mask = dev_body s type none select_mask := by
    funext dev
    simp only [dev_body, h1, n1, hs]
  simp only [populate, hd]

theorem populate_eq_nil (s : cuda_state) (type : Nat) (filter : Option cuda_coords_t)
    (select_mask : Nat)
    (h : ∀ dev sm wp ln, candidate_passes s filter select_mask dev sm wp ln = false) :
    populate s type filter select_mask = [] := by
  apply List.eq_nil_iff_forall_not_mem.mpr
  intro c hc
  obtain ⟨dev, sm, wp, ln, hp, _⟩ := (mem_populate s type filter select_mask c).mp hc
  rw [h dev sm wp ln] at hp
  exact Bool.noConfusion hp

theorem candidate_passes_bound (s : cuda_state) (filter : Option cuda_coords_t)
    (select_mask dev sm wp ln : Nat)
    (h : candidate_passes s filter select_mask dev sm wp ln = true) :
    dev < s.cuda_system_get_num_devices := by
  simp only [candidate_passes, Bool.and_eq_true, decide_eq_true_eq] at h
  exact h.1.1.1.1.1.1.1

theorem create_size_eq_run_heads (qsort : qsort_t) (s : cuda_state) (type : Nat)
    (filter : Option cuda_coords_t) (select_mask : Nat) :
    cuda_iterator_get_size (cuda_iterator_create qsort s type filter select_mask) =
      (run_heads (cuda_iterator_create qsort s type filter select_mask).list).length := by
  have hn := create_num_elements qsort s type filter select_mask
  have : cuda_iterator_get_size (cuda_iterator_create qsort s type filter select_mask) =
      count_unique (cuda_iterator_create qsort s type filter select_mask).list
        (cuda_iterator_create qsort s type filter select_mask).num_elements := rfl
  rw [this, hn, count_unique_eq]

/-! ## Properties of the iterator -/

/-- C1: for every iterator type, filter, select mask and device state (and every
`qsort` meeting its contract), the traversal `cuda_iterator_start`, then
`cuda_iterator_next` until `cuda_iterator_end`, terminates, and the coordinates it
visits are non-decreasing under the order declared for the type: no visited
coordinate compares after a later one, under the logical comparison when the type has
a KERNELS, BLOCKS or THREADS bit and under the physical comparison otherwise. -/
theorem traversal_nondecreasing (qsort : qsort_t) (s : cuda_state) (type : Nat)
    (filter : Option cuda_coords_t) (select_mask : Nat) :
    ∃ visited final,
      cuda_iterator_traverse (cuda_iterator_create qsort s type filter select_mask) =
        some (visited, final) ∧
      List.Pairwise (fun a b =>
        (if has_logical_bit type then cuda_coords_compare_logical a b
         else cuda_coords_compare_physical a b) ≤ 0) visited := by
  refine ⟨_, _, create_traverse qsort s type filter select_mask, ?_⟩
  have h := (create_list_sorted qsort s type filter select_mask).sublist
    (run_heads_sublist _)
  unfold declared_compare at h
  by_cases hb : has_logical_bit type = true
  · simpa [hb] using h
  · simpa [hb] using h

/-- C3: for every iterator built by `cuda_iterator_create`, `cuda_iterator_get_size`
is the number of runs of consecutive equal records of the sorted list, it is the
number of coordinates visited by the loop "start; while not end: visit current; next"
(which terminates), and it is 0 when the list is empty. -/
theorem get_size_counts_runs (qsort : qsort_t) (s : cuda_state) (type : Nat)
    (filter : Option cuda_coords_t) (select_mask : Nat) :
    cuda_iterator_get_size (cuda_iterator_create qsort s type filter select_mask) =
        (equal_runs (cuda_iterator_create qsort s type filter select_mask).list).length ∧
      (∃ visited final,
        cuda_iterator_traverse (cuda_iterator_create qsort s type filter select_mask) =
          some (visited, final) ∧
        cuda_iterator_get_size (cuda_iterator_create qsort s type filter select_mask) =
          visited.length) ∧
      ((cuda_iterator_create qsort s type filter select_mask).list = [] →
        cuda_iterator_get_size (cuda_iterator_create qsort s type filter select_mask) = 0) := by
  have hsize : cuda_iterator_get_size (cuda_iterator_create qsort s type filter select_mask) =
      (run_heads (cuda_iterator_create qsort s type filter select_mask).list).length := by
    have hn := create_num_elements qsort s type filter select_mask
    have : cuda_iterator_get_size (cuda_iterator_create qsort s type filter select_mask) =
        count_unique (cuda_iterator_create qsort s type filter select_mask).list
          (cuda_iterator_create qsort s type filter select_mask).num_elements := rfl
    rw [this, hn, count_unique_eq]
  refine ⟨?_, ⟨_, _, create_traverse qsort s type filter select_mask, hsize⟩, ?_⟩
  · rw [hsize, equal_runs_length]
  · intro h
    rw [hsize, h]
    rfl

/-- C2, as stated, fails.  At SMS granularity, on an SM whose two warps run two
different kernels, the traversal yields two consecutive coordinates that are not
strictly increasing under the physical order declared for SMS: they tie on (dev, sm)
and differ in kernelId and gridId.  At THREADS granularity with an empty select mask,
the lanes of the invalid warps of the two-warp example are yielded one after the other
and tie under the logical order, all their logical fields being the invalid sentinel. -/
theorem consecutive_not_strict :
    ((cuda_iterator_traverse (cuda_iterator_create stable_qsort two_kernels_state
        CUDA_ITERATOR_TYPE_SMS none CUDA_SELECT_VALID)).map (fun r => r.1) =
        some [sm0_record 1 1, sm0_record 2 2] ∧
      ¬ (if has_logical_bit CUDA_ITERATOR_TYPE_SMS
         then cuda_coords_compare_logical (sm0_record 1 1) (sm0_record 2 2)
         else cuda_coords_compare_physical (sm0_record 1 1) (sm0_record 2 2)) < 0) ∧
    ((cuda_iterator_traverse (cuda_iterator_create stable_qsort two_warps_state
        CUDA_ITERATOR_TYPE_THREADS none 0)).map (fun r => r.1) =
        some [candidate_record two_warps_state CUDA_ITERATOR_TYPE_THREADS 0 0 0 0,
              candidate_record two_warps_state CUDA_ITERATOR_TYPE_THREADS 0 0 0 1,
              candidate_record two_warps_state CUDA_ITERATOR_TYPE_THREADS 0 1 1 0,
              candidate_record two_warps_state CUDA_ITERATOR_TYPE_THREADS 0 1 1 1,
              candidate_record two_warps_state CUDA_ITERATOR_TYPE_THREADS 0 0 1 0,
              candidate_record two_warps_state CUDA_ITERATOR_TYPE_THREADS 0 0 1 1,
              candidate_record two_warps_state CUDA_ITERATOR_TYPE_THREADS 0 1 0 0,
              candidate_record two_warps_state CUDA_ITERATOR_TYPE_THREADS 0 1 0 1] ∧
      ¬ (if has_logical_bit CUDA_ITERATOR_TYPE_THREADS
         then cuda_coords_compare_logical
           (candidate_record two_warps_state CUDA_ITERATOR_TYPE_THREADS 0 0 1 0)
           (candidate_record two_warps_state CUDA_ITERATOR_TYPE_THREADS 0 0 1 1)
         else cuda_coords_compare_physical
           (candidate_record two_warps_state CUDA_ITERATOR_TYPE_THREADS 0 0 1 0)
           (candidate_record two_warps_state CUDA_ITERATOR_TYPE_THREADS 0 0 1 1)) < 0) :=
  ⟨⟨by decide, by decide⟩, ⟨by decide, by decide⟩⟩

/-- C2, amended: for every iterator type, filter, select mask and device state, any two
consecutive coordinates yielded by a start/next traversal are non-decreasing under the
order declared for the type and are not equal under `cuda_coords_equal`; for the types
DEVICES, WARPS and LANES, whose records are determined by the physical coordinates they
store, consecutive coordinates are strictly increasing under the physical order. -/
theorem consecutive_nondecreasing_distinct (qsort : qsort_t) (s : cuda_state) (type : Nat)
    (filter : Option cuda_coords_t) (select_mask : Nat) :
    (∃ visited final,
      cuda_iterator_traverse (cuda_iterator_create qsort s type filter select_mask) =
        some (visited, final) ∧
      List.Chain' (fun a b =>
        (if has_logical_bit type then cuda_coords_compare_logical a b
         else cuda_coords_compare_physical a b) ≤ 0 ∧ cuda_coords_equal a b = false) visited) ∧
    (∃ visited final,
      cuda_iterator_traverse (cuda_iterator_create qsort s CUDA_ITERATOR_TYPE_DEVICES filter
        select_mask) = some (visited, final) ∧
      List.Chain' (fun a b => cuda_coords_compare_physical a b < 0) visited) ∧
    (∃ visited final,
      cuda_iterator_traverse (cuda_iterator_create qsort s CUDA_ITERATOR_TYPE_WARPS filter
        select_mask) = some (visited, final) ∧
      List.Chain' (fun a b => cuda_coords_compare_physical a b < 0) visited) ∧
    (∃ visited final,
      cuda_iterator_traverse (cuda_iterator_create qsort s CUDA_ITERATOR_TYPE_LANES filter
        select_mask) = some (visited, final) ∧
      List.Chain' (fun a b => cuda_coords_compare_physical a b < 0) visited) := by
  refine ⟨⟨_, _, create_traverse qsort s type filter select_mask, ?_⟩,
    ⟨_, _, create_traverse qsort s _ filter select_mask, ?_⟩,
    ⟨_, _, create_traverse qsort s _ filter select_mask, ?_⟩,
    ⟨_, _, create_traverse qsort s _ filter select_mask, ?_⟩⟩
  · have hle := ((create_list_sorted qsort s type filter select_mask).sublist
      (run_heads_sublist _)).chain'
    have hne := run_heads_chain (cuda_iterator_create qsort s type filter select_mask).list
    refine (chain'_and _ hle hne).imp ?_
    intro a b h
    unfold declared_compare at h
    by_cases hb : has_logical_bit type = true
    · simpa [hb] using h
    · simpa [hb] using h
  · exact (visited_strict qsort s _ filter select_mask (by decide)
      (record_determined_devices s)).chain'
  · exact (visited_strict qsort s _ filter select_mask (by decide)
      (record_determined_warps s)).chain'
  · exact (visited_strict qsort s _ filter select_mask (by decide)
      (record_determined_lanes s)).chain'

/-- C4: the code does return a duplicate.  At SMS granularity, with an SM whose warps
0 and 2 run kernel 1 while warp 1 between them runs kernel 2, the three records tie
under the physical comparison, stay in the order kernel 1, kernel 2, kernel 1 through
the sort, and the hop over consecutive equal records skips none: the traversal yields
the coordinate (dev 0, sm 0, kernel 1, grid 1) twice, and the size is reported as 3. -/
theorem sms_traversal_returns_duplicate :
    (cuda_iterator_traverse (cuda_iterator_create stable_qsort interleaved_state
        CUDA_ITERATOR_TYPE_SMS none CUDA_SELECT_VALID)).map (fun r => r.1) =
        some [sm0_record 1 1, sm0_record 2 2, sm0_record 1 1] ∧
      cuda_coords_equal (sm0_record 1 1) (sm0_record 1 1) = true ∧
      cuda_iterator_get_size (cuda_iterator_create stable_qsort interleaved_state
        CUDA_ITERATOR_TYPE_SMS none CUDA_SELECT_VALID) = 3 :=
  ⟨by decide, by decide, by decide⟩

/-- C5: for type LANES, an absent or all-wildcard filter and select mask VALID, the
traversal terminates and the (dev, sm, wp, ln) of the coordinates it yields are exactly
the tuples of the coordinate space whose device, warp and lane are valid, each once,
in strictly ascending lexicographic order. -/
theorem lanes_valid_traversal (qsort : qsort_t) (s : cuda_state)
    (filter : Option cuda_coords_t) (hf : unconstrained filter = true) :
    ∃ visited final,
      cuda_iterator_traverse (cuda_iterator_create qsort s CUDA_ITERATOR_TYPE_LANES filter
        CUDA_SELECT_VALID) = some (visited, final) ∧
      (∀ dev sm wp ln, (dev, sm, wp, ln) ∈ visited.map physical_tuple ↔
        (dev < s.cuda_system_get_num_devices ∧ sm < s.device_get_num_sms dev ∧
         wp < s.device_get_num_warps dev ∧ ln < s.device_get_num_lanes dev ∧
         s.device_is_valid dev = true ∧ s.warp_is_valid dev sm wp = true ∧
         s.lane_is_valid dev sm wp ln = true)) ∧
      (visited.map physical_tuple).Nodup ∧
      List.Pairwise tuple_lt (visited.map physical_tuple) := by
  refine ⟨_, _, create_traverse qsort s _ filter _, ?_, ?_, ?_⟩
  · intro dev sm wp ln
    have hv : select_has CUDA_SELECT_VALID CUDA_SELECT_VALID = true := by decide
    have hb : select_has CUDA_SELECT_VALID CUDA_SELECT_BKPT = false := by decide
    have he : select_has CUDA_SELECT_VALID CUDA_SELECT_EXCPT = false := by decide
    have hpass : ∀ d s' w l, candidate_passes s filter CUDA_SELECT_VALID d s' w l = true ↔
        (d < s.cuda_system_get_num_devices ∧ s' < s.device_get_num_sms d ∧
         w < s.device_get_num_warps d ∧ l < s.device_get_num_lanes d ∧
         s.device_is_valid d = true ∧ s.warp_is_valid d s' w = true ∧
         s.lane_is_valid d s' w l = true) := by
      intro d s' w l
      rw [candidate_passes_eq, filter_checks_unconstrained s filter hf]
      simp only [in_bounds, validity_checks, breakpoint_check, exception_check, hv, hb, he,
        Bool.and_eq_true, decide_eq_true_eq, Bool.true_and, Bool.false_and, Bool.not_false,
        Bool.not_not, and_true]
      tauto
    have htuple : ∀ d s' w l,
        physical_tuple (candidate_record s CUDA_ITERATOR_TYPE_LANES d s' w l) = (d, s', w, l) := by
      intro d s' w l
      rfl
    simp only [List.mem_map]
    constructor
    · rintro ⟨c, hc, hct⟩
      obtain ⟨d, s', w, l, hp, rfl⟩ := (mem_visited qsort s _ filter _ c).mp hc
      rw [htuple] at hct
      cases hct
      exact (hpass _ _ _ _).mp hp
    · intro h
      exact ⟨candidate_record s CUDA_ITERATOR_TYPE_LANES dev sm wp ln,
        (mem_visited qsort s _ filter _ _).mpr ⟨dev, sm, wp, ln, (hpass _ _ _ _).mpr h, rfl⟩,
        htuple _ _ _ _⟩
  · have h := visited_strict qsort s CUDA_ITERATOR_TYPE_LANES filter CUDA_SELECT_VALID
      (by decide) (record_determined_lanes s)
    rw [List.Nodup, List.pairwise_map]
    refine h.imp ?_
    intro a b hab heq
    rw [compare_physical_lt_iff, heq] at hab
    simp only [tuple_lt] at hab
    omega
  · have h := visited_strict qsort s CUDA_ITERATOR_TYPE_LANES filter CUDA_SELECT_VALID
      (by decide) (record_determined_lanes s)
    rw [List.pairwise_map]
    exact h.imp (fun {a b} hab => (compare_physical_lt_iff a b).mp hab)

/-- C5, at the spec's scenario: one device of 2 SMs x 2 warps x 2 lanes where only the
warps (0,0) and (1,1) are valid; the traversal yields the four lanes of those warps. -/
theorem lanes_valid_traversal_witness :
    unconstrained none = true ∧
    (cuda_iterator_traverse (cuda_iterator_create stable_qsort two_warps_state
        CUDA_ITERATOR_TYPE_LANES none CUDA_SELECT_VALID)).map
        (fun r => r.1.map physical_tuple) =
      some [(0, 0, 0, 0), (0, 0, 0, 1), (0, 1, 1, 0), (0, 1, 1, 1)] ∧
    ∃ visited final,
      cuda_iterator_traverse (cuda_iterator_create stable_qsort two_warps_state
        CUDA_ITERATOR_TYPE_LANES none CUDA_SELECT_VALID) = some (visited, final) ∧
      (∀ dev sm wp ln, (dev, sm, wp, ln) ∈ visited.map physical_tuple ↔
        (dev < two_warps_state.cuda_system_get_num_devices ∧
         sm < two_warps_state.device_get_num_sms dev ∧
         wp < two_warps_state.device_get_num_warps dev ∧
         ln < two_warps_state.device_get_num_lanes dev ∧
         two_warps_state.device_is_valid dev = true ∧
         two_warps_state.warp_is_valid dev sm wp = true ∧
         two_warps_state.lane_is_valid dev sm wp ln = true)) ∧
      (visited.map physical_tuple).Nodup ∧
      List.Pairwise tuple_lt (visited.map physical_tuple) :=
  ⟨rfl, by decide, lanes_valid_traversal stable_qsort two_warps_state none rfl⟩

/-- C6: for the types LANES and THREADS, the traversal terminates and every coordinate
it yields agrees with the filter on each filter field that is not the wildcard (dev,
sm, wp, ln, kernelId, gridId, blockIdx.x/y/z, threadIdx.x/y/z); and when the filter is
absent or all-wildcard, none of the filter tests rejects any candidate, so that the
iterator built is the one built without a filter. -/
theorem yielded_agree_with_filter (qsort : qsort_t) (s : cuda_state) (type : Nat)
    (filter : Option cuda_coords_t) (select_mask : Nat)
    (ht : type = CUDA_ITERATOR_TYPE_LANES ∨ type = CUDA_ITERATOR_TYPE_THREADS) :
    ∃ visited final,
      cuda_iterator_traverse (cuda_iterator_create qsort s type filter select_mask) =
        some (visited, final) ∧
      (∀ f, filter = some f → ∀ c ∈ visited, agrees_with f c) ∧
      (unconstrained filter = true →
        (∀ dev sm wp ln, filter_checks s filter dev sm wp ln = true) ∧
        cuda_iterator_create qsort s type filter select_mask =
          cuda_iterator_create qsort s type none select_mask) := by
  refine ⟨_, _, create_traverse qsort s type filter select_mask, ?_,
    fun h => ⟨filter_checks_unconstrained s filter h, ?_⟩⟩
  · rintro f rfl c hc
    obtain ⟨dev, sm, wp, ln, hp, rfl⟩ := (mem_visited qsort s type _ select_mask c).mp hc
    rw [candidate_passes_eq] at hp
    simp only [Bool.and_eq_true] at hp
    have hfc := hp.1.1.2
    simp only [filter_checks, Bool.and_eq_true, Bool.not_eq_true',
      filter_rejects_false_iff] at hfc
    obtain ⟨⟨⟨⟨⟨⟨⟨⟨⟨⟨⟨h1, h2⟩, h3⟩, h4⟩, h5⟩, h6⟩, h7⟩, h8⟩, h9⟩, h10⟩, h11⟩, h12⟩ := hfc
    have hrec : candidate_record s type dev sm wp ln =
        { valid := true, dev := dev, sm := sm, wp := wp, ln := ln,
          kernelId := warp_kernel_id s dev sm wp, gridId := warp_grid_id s dev sm wp,
          blockIdx := warp_block_idx s dev sm wp,
          threadIdx := lane_thread_idx s dev sm wp ln } := by
      rcases ht with rfl | rfl <;> rfl
    rw [hrec]
    exact ⟨h1, h2, h3, h9, h4, h5, h6, h7, h8, h10, h11, h12⟩
  · simp only [cuda_iterator_create, populate_unconstrained s type filter select_mask h]

/-- C6 at a concrete input: THREADS granularity on the two-warp example with a filter
asking for SM 1 and thread index x = 1; the single coordinate yielded is lane 1 of
warp 1 of SM 1. -/
theorem yielded_agree_with_filter_witness :
    (CUDA_ITERATOR_TYPE_THREADS = CUDA_ITERATOR_TYPE_LANES ∨
      CUDA_ITERATOR_TYPE_THREADS = CUDA_ITERATOR_TYPE_THREADS) ∧
    (cuda_iterator_traverse (cuda_iterator_create stable_qsort two_warps_state
        CUDA_ITERATOR_TYPE_THREADS (some sm1_thread1_filter) 0)).map
        (fun r => r.1.map physical_tuple) = some [(0, 1, 1, 1)] ∧
    ∃ visited final,
      cuda_iterator_traverse (cuda_iterator_create stable_qsort two_warps_state
        CUDA_ITERATOR_TYPE_THREADS (some sm1_thread1_filter) 0) = some (visited, final) ∧
      (∀ f, some sm1_thread1_filter = some f → ∀ c ∈ visited, agrees_with f c) ∧
      (unconstrained (some sm1_thread1_filter) = true →
        (∀ dev sm wp ln,
          filter_checks two_warps_state (some sm1_thread1_filter) dev sm wp ln = true) ∧
        cuda_iterator_create stable_qsort two_warps_state CUDA_ITERATOR_TYPE_THREADS
            (some sm1_thread1_filter) 0 =
          cuda_iterator_create stable_qsort two_warps_state CUDA_ITERATOR_TYPE_THREADS
            none 0) :=
  ⟨Or.inr rfl, by decide,
    yielded_agree_with_filter stable_qsort two_warps_state CUDA_ITERATOR_TYPE_THREADS
      (some sm1_thread1_filter) 0 (Or.inr rfl)⟩

/-- C8: for type DEVICES, whatever the filter, select mask and device state, every
coordinate the traversal yields has valid = true, dev set to the index of a device of
the system (the device of a candidate that passed the checks), and sm, wp, ln,
kernelId, gridId, blockIdx and threadIdx all at the wildcard value. -/
theorem devices_records_only_store_dev (qsort : qsort_t) (s : cuda_state)
    (filter : Option cuda_coords_t) (select_mask : Nat) :
    ∃ visited final,
      cuda_iterator_traverse (cuda_iterator_create qsort s CUDA_ITERATOR_TYPE_DEVICES filter
        select_mask) = some (visited, final) ∧
      ∀ c ∈ visited, ∃ dev sm wp ln,
        candidate_passes s filter select_mask dev sm wp ln = true ∧
        dev < s.cuda_system_get_num_devices ∧
        c = { valid := true, dev := dev, sm := CUDA_WILDCARD, wp := CUDA_WILDCARD,
              ln := CUDA_WILDCARD, kernelId := CUDA_WILDCARD, gridId := CUDA_WILDCARD,
              blockIdx := ⟨CUDA_WILDCARD, CUDA_WILDCARD, CUDA_WILDCARD⟩,
              threadIdx := ⟨CUDA_WILDCARD, CUDA_WILDCARD, CUDA_WILDCARD⟩ } := by
  refine ⟨_, _, create_traverse qsort s _ filter select_mask, ?_⟩
  intro c hc
  obtain ⟨dev, sm, wp, ln, hp, rfl⟩ := (mem_visited qsort s _ filter select_mask c).mp hc
  exact ⟨dev, sm, wp, ln, hp, candidate_passes_bound s filter select_mask dev sm wp ln hp, rfl⟩

/-- C8 at a concrete input: the DEVICES traversal of the two-warp example yields the
single record of device 0. -/
theorem devices_records_only_store_dev_witness :
    (cuda_iterator_traverse (cuda_iterator_create stable_qsort two_warps_state
        CUDA_ITERATOR_TYPE_DEVICES none CUDA_SELECT_VALID)).map (fun r => r.1) =
      some [{ valid := true, dev := 0, sm := CUDA_WILDCARD, wp := CUDA_WILDCARD,
              ln := CUDA_WILDCARD, kernelId := CUDA_WILDCARD, gridId := CUDA_WILDCARD,
              blockIdx := ⟨CUDA_WILDCARD, CUDA_WILDCARD, CUDA_WILDCARD⟩,
              threadIdx := ⟨CUDA_WILDCARD, CUDA_WILDCARD, CUDA_WILDCARD⟩ }] ∧
    ∃ visited final,
      cuda_iterator_traverse (cuda_iterator_create stable_qsort two_warps_state
        CUDA_ITERATOR_TYPE_DEVICES none CUDA_SELECT_VALID) = some (visited, final) ∧
      ∀ c ∈ visited, ∃ dev sm wp ln,
        candidate_passes two_warps_state none CUDA_SELECT_VALID dev sm wp ln = true ∧
        dev < two_warps_state.cuda_system_get_num_devices ∧
        c = { valid := true, dev := dev, sm := CUDA_WILDCARD, wp := CUDA_WILDCARD,
              ln := CUDA_WILDCARD, kernelId := CUDA_WILDCARD, gridId := CUDA_WILDCARD,
              blockIdx := ⟨CUDA_WILDCARD, CUDA_WILDCARD, CUDA_WILDCARD⟩,
              threadIdx := ⟨CUDA_WILDCARD, CUDA_WILDCARD, CUDA_WILDCARD⟩ } :=
  ⟨by decide,
    devices_records_only_store_dev stable_qsort two_warps_state none CUDA_SELECT_VALID⟩

/-- C9: when the system has zero devices, or no (dev, sm, wp, ln) passes the checks,
`cuda_iterator_create` returns an iterator that stores no record, whose
`cuda_iterator_get_size` is 0, for which `cuda_iterator_end` reports end right after
`cuda_iterator_start`, and whose traversal visits nothing. -/
theorem nothing_matches_gives_empty_iterator (qsort : qsort_t) (s : cuda_state) (type : Nat)
    (filter : Option cuda_coords_t) (select_mask : Nat)
    (h : s.cuda_system_get_num_devices = 0 ∨
      ∀ dev sm wp ln, candidate_passes s filter select_mask dev sm wp ln = false) :
    (cuda_iterator_create qsort s type filter select_mask).num_elements = 0 ∧
    cuda_iterator_get_size (cuda_iterator_create qsort s type filter select_mask) = 0 ∧
    cuda_iterator_end
      (cuda_iterator_start (cuda_iterator_create qsort s type filter select_mask)) = true ∧
    (cuda_iterator_traverse (cuda_iterator_create qsort s type filter select_mask)).map
      (fun r => r.1) = some [] := by
  have hnone : ∀ dev sm wp ln, candidate_passes s filter select_mask dev sm wp ln = false := by
    rcases h with h | h
    · intro dev sm wp ln
      simp [candidate_passes, h]
    · exact h
  have hpop := populate_eq_nil s type filter select_mask hnone
  have hlist : (cuda_iterator_create qsort s type filter select_mask).list = [] := by
    have hp := create_list_perm qsort s type filter select_mask
    rw [hpop] at hp
    exact List.Perm.eq_nil hp
  have hnum : (cuda_iterator_create qsort s type filter select_mask).num_elements = 0 := by
    rw [create_num_elements, hlist]
    rfl
  have hsize : cuda_iterator_get_size
      (cuda_iterator_create qsort s type filter select_mask) = 0 :=
    (create_size_eq_run_heads qsort s type filter select_mask).trans (by rw [hlist]; rfl)
  refine ⟨hnum, hsize, ?_, ?_⟩
  · simp [cuda_iterator_end, cuda_iterator_start, cuda_iterator_next, hnum]
  · rw [create_traverse, hlist]
    rfl

/-- C9 at a concrete input: a system without devices. -/
theorem nothing_matches_gives_empty_iterator_witness :
    (no_device_state.cuda_system_get_num_devices = 0 ∨
      ∀ dev sm wp ln,
        candidate_passes no_device_state none CUDA_SELECT_VALID dev sm wp ln = false) ∧
    ((cuda_iterator_create stable_qsort no_device_state CUDA_ITERATOR_TYPE_LANES none
        CUDA_SELECT_VALID).num_elements = 0 ∧
    cuda_iterator_get_size (cuda_iterator_create stable_qsort no_device_state
        CUDA_ITERATOR_TYPE_LANES none CUDA_SELECT_VALID) = 0 ∧
    cuda_iterator_end (cuda_iterator_start (cuda_iterator_create stable_qsort no_device_state
        CUDA_ITERATOR_TYPE_LANES none CUDA_SELECT_VALID)) = true ∧
    (cuda_iterator_traverse (cuda_iterator_create stable_qsort no_device_state
        CUDA_ITERATOR_TYPE_LANES none CUDA_SELECT_VALID)).map (fun r => r.1) = some []) :=
  ⟨Or.inl rfl,
    nothing_matches_gives_empty_iterator stable_qsort no_device_state CUDA_ITERATOR_TYPE_LANES
      none CUDA_SELECT_VALID (Or.inl rfl)⟩

/-- C10, as stated, fails: after the LANES traversal of the two-warp example has passed
its last element, `cuda_iterator_end` reports end and `cuda_iterator_get_current`
returns the last lane's coordinates with only `valid` cleared, which is not
`CUDA_INVALID_COORDS`. -/
theorem current_after_last_is_not_invalid_coords :
    (cuda_iterator_traverse (cuda_iterator_create stable_qsort two_warps_state
        CUDA_ITERATOR_TYPE_LANES none CUDA_SELECT_VALID)).map
        (fun r => (cuda_iterator_end r.2, cuda_iterator_get_current r.2)) =
      some (true, last_lane_cleared) ∧
    last_lane_cleared ≠ CUDA_INVALID_COORDS := by
  decide

/-- C10, amended: whenever `cuda_iterator_end` reports end the current coordinate has
valid = false.  Before start on a fresh iterator it is `CUDA_INVALID_COORDS`; when the
traversal leaves its loop, `cuda_iterator_end` reports end and the current coordinate
is `CUDA_INVALID_COORDS` if nothing was yielded (empty iterator), and otherwise the
last coordinate yielded with only its valid field cleared; further calls of
`cuda_iterator_next` leave the iterator as it is. -/
theorem current_at_end (qsort : qsort_t) (s : cuda_state) (type : Nat)
    (filter : Option cuda_coords_t) (select_mask : Nat) :
    (cuda_iterator_end (cuda_iterator_create qsort s type filter select_mask) = true ∧
      cuda_iterator_get_current (cuda_iterator_create qsort s type filter select_mask) =
        CUDA_INVALID_COORDS) ∧
    ∃ visited final,
      cuda_iterator_traverse (cuda_iterator_create qsort s type filter select_mask) =
        some (visited, final) ∧
      cuda_iterator_end final = true ∧
      (cuda_iterator_get_current final).valid = false ∧
      cuda_iterator_get_current final =
        (match visited.getLast? with
         | none => CUDA_INVALID_COORDS
         | some last => { last with valid := false }) ∧
      cuda_iterator_next final = final := by
  refine ⟨⟨rfl, rfl⟩, _, _, create_traverse qsort s type filter select_mask, rfl, rfl, ?_, ?_⟩
  · simp only [cuda_iterator_get_current, List.getLastD_eq_getLast?]
    cases (run_heads (cuda_iterator_create qsort s type filter select_mask).list).getLast? with
    | none => rfl
    | some last => rfl
  · have hn := create_num_elements qsort s type filter select_mask
    simp [cuda_iterator_next, hn]

/-! ### Calls that move the cursor -/

theorem cuda_iterator_next_frame (itr : cuda_iterator_t) :
    (cuda_iterator_next itr).list = itr.list ∧
    (cuda_iterator_next itr).num_elements = itr.num_elements := by
  unfold cuda_iterator_next
  split <;> exact ⟨rfl, rfl⟩

theorem apply_calls_frame (calls : List iterator_call) :
    ∀ itr : cuda_iterator_t, (apply_calls itr calls).list = itr.list ∧
      (apply_calls itr calls).num_elements = itr.num_elements := by
  induction calls with
  | nil => intro itr; exact ⟨rfl, rfl⟩
  | cons c t ih =>
    intro itr
    have h := ih (apply_call itr c)
    have hc : (apply_call itr c).list = itr.list ∧
        (apply_call itr c).num_elements = itr.num_elements := by
      cases c with
      | start => exact cuda_iterator_next_frame _
      | next => exact cuda_iterator_next_frame _
    exact ⟨h.1.trans hc.1, h.2.trans hc.2⟩

theorem traverse_after_end (itr : cuda_iterator_t)
    (hn : itr.num_elements = itr.list.length) (hv : ∀ c ∈ itr.list, c.valid = true)
    (first : cuda_coords_t) (rest : List cuda_coords_t) (hne : itr.list = first :: rest)
    (cur : cuda_coords_t) :
    cuda_iterator_traverse
        { itr with
          next_index := itr.list.length
          current := { (run_heads itr.list).getLastD cur with valid := false } } =
      some (run_heads itr.list,
        { itr with
          next_index := itr.list.length
          current := { (run_heads itr.list).getLastD cur with valid := false } }) := by
  have h := cuda_iterator_traverse_eq
    { itr with
      next_index := itr.list.length
      current := { (run_heads itr.list).getLastD cur with valid := false } } hn hv
  rw [h]
  simp [hne, run_heads, getLast_getD_cons]

/-- C11: `cuda_iterator_start` resets the cursor.  On a non-empty iterator built by
`cuda_iterator_create`, after any sequence of `start` and `next` calls, a call of
`cuda_iterator_start` makes the current coordinate the first record of the sorted list
and `cuda_iterator_end` false; a full traversal begun there, and a second traversal
begun after the first one has run to its end, terminate and yield the same sequence as
the first traversal. -/
theorem start_resets_cursor (qsort : qsort_t) (s : cuda_state) (type : Nat)
    (filter : Option cuda_coords_t) (select_mask : Nat) (calls : List iterator_call)
    (first : cuda_coords_t) (rest : List cuda_coords_t)
    (hne : (cuda_iterator_create qsort s type filter select_mask).list = first :: rest) :
    cuda_iterator_get_current (cuda_iterator_start
      (apply_calls (cuda_iterator_create qsort s type filter select_mask) calls)) = first ∧
    cuda_iterator_end (cuda_iterator_start
      (apply_calls (cuda_iterator_create qsort s type filter select_mask) calls)) = false ∧
    ∃ visited final advanced,
      cuda_iterator_traverse (cuda_iterator_create qsort s type filter select_mask) =
        some (visited, final) ∧
      cuda_iterator_traverse
        (apply_calls (cuda_iterator_create qsort s type filter select_mask) calls) =
        some (visited, advanced) ∧
      cuda_iterator_traverse final = some (visited, final) := by
  have hfr := apply_calls_frame calls (cuda_iterator_create qsort s type filter select_mask)
  have hn := create_num_elements qsort s type filter select_mask
  have hv := create_list_valid qsort s type filter select_mask
  have hn2 : (apply_calls (cuda_iterator_create qsort s type filter select_mask)
      calls).num_elements =
      (apply_calls (cuda_iterator_create qsort s type filter select_mask) calls).list.length := by
    rw [hfr.1, hfr.2, hn]
  have hstart : cuda_iterator_start
      (apply_calls (cuda_iterator_create qsort s type filter select_mask) calls) =
      { apply_calls (cuda_iterator_create qsort s type filter select_mask) calls with
        current := first, next_index := 0 + 1 + dup_run_length first rest } := by
    unfold cuda_iterator_start
    exact cuda_iterator_next_at
      { apply_calls (cuda_iterator_create qsort s type filter select_mask) calls with
        next_index := 0 } [] rest first (by simp [hfr.1, hne]) rfl hn2
  have hfirst : first.valid = true := hv first (by rw [hne]; exact List.mem_cons_self _ _)
  refine ⟨by rw [hstart]; rfl, by rw [hstart]; simp [cuda_iterator_end, hfirst], ?_⟩
  have h1 := create_traverse qsort s type filter select_mask
  have h2 := cuda_iterator_traverse_eq
    (apply_calls (cuda_iterator_create qsort s type filter select_mask) calls) hn2
    (by rw [hfr.1]; exact hv)
  rw [hfr.1] at h2
  exact ⟨_, _, _, h1, h2, traverse_after_end _ hn hv first rest hne CUDA_INVALID_COORDS⟩

/-- C11 at a concrete input: the iterator over the four valid lanes of `two_warps_state`,
after the calls `next`, `next`, `start`, `next`. -/
theorem start_resets_cursor_witness :
    (cuda_iterator_create stable_qsort two_warps_state CUDA_ITERATOR_TYPE_LANES none
        CUDA_SELECT_VALID).list =
      candidate_record two_warps_state CUDA_ITERATOR_TYPE_LANES 0 0 0 0 ::
        [candidate_record two_warps_state CUDA_ITERATOR_TYPE_LANES 0 0 0 1,
         candidate_record two_warps_state CUDA_ITERATOR_TYPE_LANES 0 1 1 0,
         candidate_record two_warps_state CUDA_ITERATOR_TYPE_LANES 0 1 1 1] ∧
    (cuda_iterator_get_current (cuda_iterator_start
      (apply_calls (cuda_iterator_create stable_qsort two_warps_state CUDA_ITERATOR_TYPE_LANES
        none CUDA_SELECT_VALID)
        [iterator_call.next, iterator_call.next, iterator_call.start, iterator_call.next])) =
      candidate_record two_warps_state CUDA_ITERATOR_TYPE_LANES 0 0 0 0 ∧
    cuda_iterator_end (cuda_iterator_start
      (apply_calls (cuda_iterator_create stable_qsort two_warps_state CUDA_ITERATOR_TYPE_LANES
        none CUDA_SELECT_VALID)
        [iterator_call.next, iterator_call.next, iterator_call.start, iterator_call.next])) =
      false ∧
    ∃ visited final advanced,
      cuda_iterator_traverse (cuda_iterator_create stable_qsort two_warps_state
        CUDA_ITERATOR_TYPE_LANES none CUDA_SELECT_VALID) = some (visited, final) ∧
      cuda_iterator_traverse
        (apply_calls (cuda_iterator_create stable_qsort two_warps_state CUDA_ITERATOR_TYPE_LANES
          none CUDA_SELECT_VALID)
          [iterator_call.next, iterator_call.next, iterator_call.start, iterator_call.next]) =
        some (visited, advanced) ∧
      cuda_iterator_traverse final = some (visited, final)) :=
  ⟨by decide,
    start_resets_cursor stable_qsort two_warps_state CUDA_ITERATOR_TYPE_LANES none
      CUDA_SELECT_VALID
      [iterator_call.next, iterator_call.next, iterator_call.start, iterator_call.next]
      (candidate_record two_warps_state CUDA_ITERATOR_TYPE_LANES 0 0 0 0)
      [candidate_record two_warps_state CUDA_ITERATOR_TYPE_LANES 0 0 0 1,
       candidate_record two_warps_state CUDA_ITERATOR_TYPE_LANES 0 1 1 0,
       candidate_record two_warps_state CUDA_ITERATOR_TYPE_LANES 0 1 1 1] (by decide)⟩

/-! ### The dispatcher and the pending answers of the driver -/

theorem sde_contexts (s : cuda_session) (d : List driver_answer) :
    (set_driver_events s d).contexts = s.contexts := rfl

theorem sde_current_context (s : cuda_session) (d : List driver_answer) :
    (set_driver_events s d).current_context = s.current_context := rfl

theorem sde_inferior_ptid (s : cuda_session) (d : List driver_answer) :
    (set_driver_events s d).inferior_ptid = s.inferior_ptid := rfl

theorem sde_cuda_gdb_get_tid (s : cuda_session) (d : List driver_answer) :
    (set_driver_events s d).cuda_gdb_get_tid = s.cuda_gdb_get_tid := rfl

theorem sde_break_application (s : cuda_session) (d : List driver_answer) :
    (set_driver_events s d).cuda_options_break_on_launch_application =
      s.cuda_options_break_on_launch_application := rfl

theorem sde_break_system (s : cuda_session) (d : List driver_answer) :
    (set_driver_events s d).cuda_options_break_on_launch_system =
      s.cuda_options_break_on_launch_system := rfl

theorem sde_record (s : cuda_session) (d : List driver_answer) (e : effect) :
    record (set_driver_events s d) e = set_driver_events (record s e) d := rfl

theorem sde_add_context (s : cuda_session) (d : List driver_answer) (dev : Nat)
    (c : context_ref) :
    contexts_add_context (set_driver_events s d) dev c =
      set_driver_events (contexts_add_context s dev c) d := rfl

theorem sde_stack_context (s : cuda_session) (d : List driver_answer) (dev : Nat)
    (c : context_t) (tid : Nat) :
    contexts_stack_context (set_driver_events s d) dev c tid =
      { state := set_driver_events (contexts_stack_context s dev c tid).state d,
        failure := (contexts_stack_context s dev c tid).failure } := by
  cases c <;> rfl

theorem sde_unstack_context (s : cuda_session) (d : List driver_answer) (dev tid : Nat) :
    contexts_unstack_context (set_driver_events s d) dev tid =
      (set_driver_events (contexts_unstack_context s dev tid).1 d,
        (contexts_unstack_context s dev tid).2) := by
  unfold contexts_unstack_context
  rw [sde_contexts]
  cases (s.contexts dev).thread_stacks tid <;> rfl

theorem sde_get_active_context (s : cuda_session) (d : List driver_answer) (dev tid : Nat) :
    contexts_get_active_context (set_driver_events s d) dev tid =
      contexts_get_active_context s dev tid := rfl

theorem sde_find_context (s : cuda_session) (d : List driver_answer) (dev ctx : Nat) :
    contexts_find_context_by_id (set_driver_events s d) dev ctx =
      contexts_find_context_by_id s dev ctx := rfl

theorem sde_remove_context (s : cuda_session) (d : List driver_answer) (dev : Nat)
    (c : context_t) :
    contexts_remove_context (set_driver_events s d) dev c =
      set_driver_events (contexts_remove_context s dev c) d := by
  cases c <;> rfl

theorem sde_modules_add (s : cuda_session) (d : List driver_answer) (dev : Nat)
    (c : context_ref) (m i z : Nat) :
    modules_add (set_driver_events s d) dev c m i z =
      set_driver_events (modules_add s dev c m i z) d := by
  unfold modules_add
  rw [sde_contexts]
  cases (s.contexts dev).registry c.context_id <;> rfl

theorem sde_show_context_event (s : cuda_session) (d : List driver_answer) (k c dev : Nat) :
    show_context_event (set_driver_events s d) k c dev =
      set_driver_events (show_context_event s k c dev) d := by
  unfold show_context_event
  by_cases h : s.cuda_options_show_context_events = true
  · have h2 : (set_driver_events s d).cuda_options_show_context_events = true := h
    rw [if_pos h, if_pos h2]
    rfl
  · have h2 : ¬ (set_driver_events s d).cuda_options_show_context_events = true := h
    rw [if_neg h, if_neg h2]

theorem sde_set_current_context (s : cuda_session) (d : List driver_answer) (c : context_t) :
    set_current_context (set_driver_events s d) c =
      set_driver_events (set_current_context s c) d := rfl

theorem sde_cleanup_auto (s : cuda_session) (d : List driver_answer) (c : Nat) :
    cuda_cleanup_auto_breakpoints (set_driver_events s d) c =
      set_driver_events (cuda_cleanup_auto_breakpoints s c) d := rfl

theorem sde_unresolve (s : cuda_session) (d : List driver_answer) (c : Nat) :
    cuda_unresolve_breakpoints (set_driver_events s d) c =
      set_driver_events (cuda_unresolve_breakpoints s c) d := rfl

theorem sde_resolve (s : cuda_session) (d : List driver_answer) (c : Nat) :
    cuda_resolve_breakpoints (set_driver_events s d) c =
      set_driver_events (cuda_resolve_breakpoints s c) d := rfl

theorem sde_create_auto (s : cuda_session) (d : List driver_answer) (a c : Nat) :
    cuda_create_auto_breakpoint (set_driver_events s d) a c =
      set_driver_events (cuda_create_auto_breakpoint s a c) d := rfl

theorem sde_remove_breakpoints (s : cuda_session) (d : List driver_answer) :
    remove_breakpoints (set_driver_events s d) = set_driver_events (remove_breakpoints s) d :=
  rfl

theorem sde_insert_breakpoints (s : cuda_session) (d : List driver_answer) :
    insert_breakpoints (set_driver_events s d) =
      { state := set_driver_events (insert_breakpoints s).state d,
        failure := (insert_breakpoints s).failure } := by
  unfold insert_breakpoints
  by_cases h : s.insert_breakpoints_error = true
  · have h2 : (set_driver_events s d).insert_breakpoints_error = true := h
    rw [if_pos h, if_pos h2]
    rfl
  · have h2 : ¬ (set_driver_events s d).insert_breakpoints_error = true := h
    rw [if_neg h, if_neg h2]
    rfl

theorem sde_kernels_start_kernel (s : cuda_session) (d : List driver_answer)
    (dev grid base ctx mod : Nat) (gd bd : CuDim3) (type : Nat) :
    kernels_start_kernel (set_driver_events s d) dev grid base ctx mod gd bd type =
      set_driver_events (kernels_start_kernel s dev grid base ctx mod gd bd type) d := rfl

theorem sde_kernels_terminate_kernel (s : cuda_session) (d : List driver_answer)
    (k : kernel_ref) :
    kernels_terminate_kernel (set_driver_events s d) k =
      set_driver_events (kernels_terminate_kernel s k) d := rfl

theorem sde_clear_source (s : cuda_session) (d : List driver_answer) :
    clear_current_source_symtab_and_line (set_driver_events s d) =
      set_driver_events (clear_current_source_symtab_and_line s) d := rfl

theorem sde_clear_displays (s : cuda_session) (d : List driver_answer) :
    clear_displays (set_driver_events s d) = set_driver_events (clear_displays s) d := rfl

theorem sde_set_inferior_ptid (s : cuda_session) (d : List driver_answer) (p : Nat) :
    set_inferior_ptid (set_driver_events s d) p = set_driver_events (set_inferior_ptid s p) d :=
  rfl

theorem sde_iterate_over_lwps (s : cuda_session) (d : List driver_answer) (tid : Nat) :
    iterate_over_lwps (set_driver_events s d) tid = iterate_over_lwps s tid := rfl

theorem sde_find_kernel (s : cuda_session) (d : List driver_answer) (dev grid : Nat) :
    kernels_find_kernel_by_grid_id (set_driver_events s d) dev grid =
      kernels_find_kernel_by_grid_id s dev grid := rfl

theorem sde_cuda_api_finalize (s : cuda_session) (d : List driver_answer) :
    cuda_api_finalize (set_driver_events s d) = set_driver_events (cuda_api_finalize s) d := by
  have p1 : (set_driver_events s d).api_initialized = s.api_initialized := rfl
  have p2 : (set_driver_events s d).driver_finalize_result = s.driver_finalize_result := rfl
  simp only [cuda_api_finalize, p1, p2]
  by_cases h : s.api_initialized = true
  · by_cases hr : (s.driver_finalize_result != CUDBG_SUCCESS) = true
    · simp only [h, hr, Bool.not_true, Bool.false_eq_true, if_false, if_true]
      rfl
    · simp only [h, hr, Bool.not_true, Bool.false_eq_true, if_false]
      rfl
  · simp only [Bool.not_eq_true] at h
    simp only [h, Bool.not_false, if_true]

theorem sde_cuda_cleanup (s : cuda_session) (d : List driver_answer) :
    cuda_cleanup (set_driver_events s d) = set_driver_events (cuda_cleanup s) d := by
  unfold cuda_cleanup
  rw [sde_record, sde_cuda_api_finalize]

theorem sde_create_context (s : cuda_session) (d : List driver_answer) (dev ctx tid : Nat) :
    cuda_event_create_context (set_driver_events s d) dev ctx tid =
      { state := set_driver_events (cuda_event_create_context s dev ctx tid).state d,
        failure := (cuda_event_create_context s dev ctx tid).failure } := by
  simp only [cuda_event_create_context, sde_add_context, sde_stack_context,
    sde_show_context_event]
  split_ifs
  · rfl
  · cases (contexts_stack_context (contexts_add_context s dev (context_new ctx dev)) dev
      (some (context_new ctx dev)) tid).failure <;> rfl

theorem sde_push_context (s : cuda_session) (d : List driver_answer) (dev ctx tid : Nat) :
    cuda_event_push_context (set_driver_events s d) dev ctx tid =
      { state := set_driver_events (cuda_event_push_context s dev ctx tid).state d,
        failure := (cuda_event_push_context s dev ctx tid).failure } := by
  simp only [cuda_event_push_context, sde_find_context, sde_stack_context,
    sde_show_context_event]
  split_ifs
  · rfl
  · cases (contexts_stack_context s dev (contexts_find_context_by_id s dev ctx) tid).failure <;>
      rfl

theorem sde_pop_context (s : cuda_session) (d : List driver_answer) (dev ctx tid : Nat) :
    cuda_event_pop_context (set_driver_events s d) dev ctx tid =
      { state := set_driver_events (cuda_event_pop_context s dev ctx tid).state d,
        failure := (cuda_event_pop_context s dev ctx tid).failure } := by
  simp only [cuda_event_pop_context, sde_unstack_context, sde_show_context_event]
  by_cases ht : (tid == INVALID_TID) = true
  · simp only [ht, if_true]
  · simp only [ht, Bool.false_eq_true, if_false]
    cases hu : (contexts_unstack_context s dev tid).2 with
    | none => rfl
    | some c =>
      simp only []
      split_ifs <;> rfl

theorem sde_destroy_context (s : cuda_session) (d : List driver_answer) (dev ctx tid : Nat) :
    cuda_event_destroy_context (set_driver_events s d) dev ctx tid =
      { state := set_driver_events (cuda_event_destroy_context s dev ctx tid).state d,
        failure := (cuda_event_destroy_context s dev ctx tid).failure } := by
  have p : ∀ (x : cuda_session) (c : context_t),
      (if c = (set_driver_events x d).current_context
        then set_current_context (set_driver_events x d) none else set_driver_events x d) =
      set_driver_events (if c = x.current_context then set_current_context x none else x) d := by
    intro x c
    rw [sde_current_context, sde_set_current_context]
    split_ifs <;> rfl
  have q : (if contexts_get_active_context s dev tid = contexts_find_context_by_id s dev ctx
        then (set_driver_events (contexts_unstack_context s dev tid).1 d,
          (contexts_unstack_context s dev tid).2)
        else (set_driver_events s d, contexts_find_context_by_id s dev ctx)) =
      (set_driver_events
        (if contexts_get_active_context s dev tid = contexts_find_context_by_id s dev ctx
          then contexts_unstack_context s dev tid
          else (s, contexts_find_context_by_id s dev ctx)).1 d,
        (if contexts_get_active_context s dev tid = contexts_find_context_by_id s dev ctx
          then contexts_unstack_context s dev tid
          else (s, contexts_find_context_by_id s dev ctx)).2) := by
    split_ifs <;> rfl
  simp only [cuda_event_destroy_context, sde_find_context, sde_get_active_context,
    sde_unstack_context, q, p, sde_cleanup_auto, sde_unresolve, sde_remove_context,
    sde_show_context_event]
  by_cases ht : (tid == INVALID_TID) = true
  · simp only [ht, if_true]
  · simp only [ht, Bool.false_eq_true, if_false]
    split <;> rfl

theorem sde_load_elf_image (s : cuda_session) (d : List driver_answer)
    (dev ctx mod image size : Nat) :
    cuda_event_load_elf_image (set_driver_events s d) dev ctx mod image size =
      { state := set_driver_events (cuda_event_load_elf_image s dev ctx mod image size).state d,
        failure := (cuda_event_load_elf_image s dev ctx mod image size).failure } := by
  simp only [cuda_event_load_elf_image, device_find_context_by_id, sde_find_context,
    sde_modules_add,
    sde_set_current_context, sde_resolve]
  split <;> rfl

theorem sde_kernel_finished (s : cuda_session) (d : List driver_answer) (dev grid : Nat) :
    cuda_event_kernel_finished (set_driver_events s d) dev grid =
      { state := set_driver_events (cuda_event_kernel_finished s dev grid).state d,
        failure := (cuda_event_kernel_finished s dev grid).failure } := by
  simp only [cuda_event_kernel_finished, sde_find_kernel, sde_kernels_terminate_kernel,
    sde_clear_source, sde_clear_displays]
  split <;> rfl

theorem sde_event_error (s : cuda_session) (d : List driver_answer) :
    cuda_event_error (set_driver_events s d) =
      { state := set_driver_events (cuda_event_error s).state d,
        failure := (cuda_event_error s).failure } := by
  simp only [cuda_event_error, sde_cuda_cleanup, sde_record, sde_cuda_gdb_get_tid,
    sde_inferior_ptid]

theorem kernels_start_kernel_break_application (x : cuda_session)
    (dev grid base ctx mod : Nat) (gd bd : CuDim3) (type : Nat) :
    (kernels_start_kernel x dev grid base ctx mod gd bd
      type).cuda_options_break_on_launch_application =
      x.cuda_options_break_on_launch_application := rfl

theorem kernels_start_kernel_break_system (x : cuda_session)
    (dev grid base ctx mod : Nat) (gd bd : CuDim3) (type : Nat) :
    (kernels_start_kernel x dev grid base ctx mod gd bd
      type).cuda_options_break_on_launch_system =
      x.cuda_options_break_on_launch_system := rfl

theorem set_inferior_ptid_break_application (x : cuda_session) (p : Nat) :
    (set_inferior_ptid x p).cuda_options_break_on_launch_application =
      x.cuda_options_break_on_launch_application := rfl

theorem set_inferior_ptid_break_system (x : cuda_session) (p : Nat) :
    (set_inferior_ptid x p).cuda_options_break_on_launch_system =
      x.cuda_options_break_on_launch_system := rfl

theorem kernel_ready_tail_frame (r : outcome) (lp : Option Nat) (prev : Nat)
    (d : List driver_answer) :
    (match ({ state := set_driver_events r.state d, failure := r.failure } : outcome).failure with
      | some f =>
        ({ state := ({ state := set_driver_events r.state d,
                       failure := r.failure } : outcome).state,
           failure := some f } : outcome)
      | none =>
        match lp with
        | some _ =>
          { state := set_inferior_ptid
              ({ state := set_driver_events r.state d, failure := r.failure } : outcome).state prev,
            failure := none }
        | none =>
          { state := ({ state := set_driver_events r.state d,
                        failure := r.failure } : outcome).state,
            failure := none }) =
      { state := set_driver_events
          (match r.failure with
            | some f => ({ state := r.state, failure := some f } : outcome)
            | none =>
              match lp with
              | some _ => { state := set_inferior_ptid r.state prev, failure := none }
              | none => { state := r.state, failure := none }).state d,
        failure :=
          (match r.failure with
            | some f => ({ state := r.state, failure := some f } : outcome)
            | none =>
              match lp with
              | some _ => { state := set_inferior_ptid r.state prev, failure := none }
              | none => { state := r.state, failure := none }).failure } := by
  cases r with
  | mk st fl =>
    cases fl with
    | some f => rfl
    | none => cases lp <;> rfl

theorem sde_kernel_ready (s : cuda_session) (d : List driver_answer)
    (dev ctx mod grid tid base : Nat) (gd bd : CuDim3) (type : Nat) :
    cuda_event_kernel_ready (set_driver_events s d) dev ctx mod grid tid base gd bd type =
      { state := set_driver_events
          (cuda_event_kernel_ready s dev ctx mod grid tid base gd bd type).state d,
        failure := (cuda_event_kernel_ready s dev ctx mod grid tid base gd bd type).failure } := by
  unfold cuda_event_kernel_ready
  simp only [sde_iterate_over_lwps, sde_inferior_ptid]
  by_cases ht : (tid == INVALID_TID) = true
  · simp only [ht, if_true]
  · simp only [ht, Bool.false_eq_true, if_false]
    cases hl : iterate_over_lwps s tid with
    | none =>
      simp only [sde_kernels_start_kernel, kernels_start_kernel_break_application,
        kernels_start_kernel_break_system, sde_break_application, sde_break_system]
      by_cases hc : ((type == CUDBG_KNL_TYPE_APPLICATION &&
            s.cuda_options_break_on_launch_application) ||
          (type == CUDBG_KNL_TYPE_SYSTEM && s.cuda_options_break_on_launch_system)) = true
      · simp only [hc, if_true, sde_create_auto, sde_remove_breakpoints, sde_insert_breakpoints]
        exact kernel_ready_tail_frame _ none s.inferior_ptid d
      · simp only [hc, Bool.false_eq_true, if_false, sde_remove_breakpoints,
          sde_insert_breakpoints]
        exact kernel_ready_tail_frame _ none s.inferior_ptid d
    | some p =>
      simp only [sde_set_inferior_ptid, sde_kernels_start_kernel,
        kernels_start_kernel_break_application, kernels_start_kernel_break_system,
        set_inferior_ptid_break_application, set_inferior_ptid_break_system,
        sde_break_application, sde_break_system]
      by_cases hc : ((type == CUDBG_KNL_TYPE_APPLICATION &&
            s.cuda_options_break_on_launch_application) ||
          (type == CUDBG_KNL_TYPE_SYSTEM && s.cuda_options_break_on_launch_system)) = true
      · simp only [hc, if_true, sde_create_auto, sde_remove_breakpoints, sde_insert_breakpoints]
        exact kernel_ready_tail_frame _ (some p) s.inferior_ptid d
      · simp only [hc, Bool.false_eq_true, if_false, sde_remove_breakpoints,
          sde_insert_breakpoints]
        exact kernel_ready_tail_frame _ (some p) s.inferior_ptid d

theorem sde_dispatch_event (s : cuda_session) (d : List driver_answer) (e : CUDBGEvent) :
    dispatch_event (set_driver_events s d) e =
      { state := set_driver_events (dispatch_event s e).state d,
        failure := (dispatch_event s e).failure } := by
  cases e with
  | invalid => rfl
  | other k => rfl
  | timeout => rfl
  | error => exact sde_event_error s d
  | elfImageLoaded dev context module image size =>
    exact sde_load_elf_image s d dev context module image size
  | kernelReady dev context module gridId tid functionEntry gridDim blockDim type =>
    exact sde_kernel_ready s d dev context module gridId tid functionEntry gridDim blockDim type
  | kernelFinished dev gridId => exact sde_kernel_finished s d dev gridId
  | contextPush dev context tid => exact sde_push_context s d dev context tid
  | contextPop dev context tid => exact sde_pop_context s d dev context tid
  | contextCreate dev context tid => exact sde_create_context s d dev context tid
  | contextDestroy dev context tid => exact sde_destroy_context s d dev context tid

theorem set_driver_events_self (s : cuda_session) :
    set_driver_events s s.driver_events = s := rfl

theorem set_driver_events_twice (s : cuda_session) (d1 d2 : List driver_answer) :
    set_driver_events (set_driver_events s d1) d2 = set_driver_events s d2 := rfl

theorem dispatch_event_driver_events (s : cuda_session) (e : CUDBGEvent) :
    (dispatch_event s e).state.driver_events = s.driver_events := by
  have h := sde_dispatch_event s s.driver_events e
  rw [set_driver_events_self] at h
  have h2 := congrArg (fun r => r.state.driver_events) h
  exact h2

theorem show_context_event_api_initialized (x : cuda_session) (k c dev : Nat) :
    (show_context_event x k c dev).api_initialized = x.api_initialized := by
  unfold show_context_event
  split_ifs <;> rfl

theorem add_context_api_initialized (x : cuda_session) (dev : Nat) (c : context_ref) :
    (contexts_add_context x dev c).api_initialized = x.api_initialized := rfl

theorem stack_context_api_initialized (x : cuda_session) (dev : Nat) (c : context_t)
    (tid : Nat) :
    (contexts_stack_context x dev c tid).state.api_initialized = x.api_initialized := by
  cases c <;> rfl

theorem unstack_context_api_initialized (x : cuda_session) (dev tid : Nat) :
    (contexts_unstack_context x dev tid).1.api_initialized = x.api_initialized := by
  unfold contexts_unstack_context
  cases (x.contexts dev).thread_stacks tid <;> rfl

theorem remove_context_api_initialized (x : cuda_session) (dev : Nat) (c : context_t) :
    (contexts_remove_context x dev c).api_initialized = x.api_initialized := by
  cases c <;> rfl

theorem modules_add_api_initialized (x : cuda_session) (dev : Nat) (c : context_ref)
    (m i z : Nat) :
    (modules_add x dev c m i z).api_initialized = x.api_initialized := by
  unfold modules_add
  cases (x.contexts dev).registry c.context_id <;> rfl

theorem unresolve_api_initialized (x : cuda_session) (c : Nat) :
    (cuda_unresolve_breakpoints x c).api_initialized = x.api_initialized := rfl

theorem cleanup_auto_api_initialized (x : cuda_session) (c : Nat) :
    (cuda_cleanup_auto_breakpoints x c).api_initialized = x.api_initialized := rfl

theorem clear_current_api_initialized (x : cuda_session) (c : context_t) :
    (if c = x.current_context then set_current_context x none else x).api_initialized =
      x.api_initialized := by
  split_ifs <;> rfl

theorem destroy_unstack_api_initialized (x : cuda_session) (dev tid : Nat) (c : context_t)
    (p : Prop) [Decidable p] :
    (if p then contexts_unstack_context x dev tid else (x, c)).1.api_initialized =
      x.api_initialized := by
  split_ifs
  · exact unstack_context_api_initialized x dev tid
  · rfl

theorem dispatch_event_api_initialized (s : cuda_session) (e : CUDBGEvent)
    (h : (dispatch_event s e).failure = none) :
    (dispatch_event s e).state.api_initialized = s.api_initialized := by
  cases e with
  | invalid => rfl
  | other k => rfl
  | timeout => rfl
  | error => simp [dispatch_event, cuda_event_error] at h
  | elfImageLoaded dev context module image size =>
    simp only [dispatch_event, cuda_event_load_elf_image]
    split
    · rfl
    · exact modules_add_api_initialized _ _ _ _ _ _
  | kernelReady dev context module gridId tid functionEntry gridDim blockDim type =>
    simp only [dispatch_event, cuda_event_kernel_ready]
    split_ifs
    · rfl
    · cases iterate_over_lwps s tid <;> simp only [insert_breakpoints] <;> split_ifs <;> rfl
    · cases iterate_over_lwps s tid <;> simp only [insert_breakpoints] <;> split_ifs <;> rfl
  | kernelFinished dev gridId =>
    simp only [dispatch_event, cuda_event_kernel_finished]
    split <;> rfl
  | contextPush dev context tid =>
    simp only [dispatch_event, cuda_event_push_context]
    split_ifs
    · rfl
    · split
      · exact stack_context_api_initialized _ _ _ _
      · rw [show_context_event_api_initialized]
        exact stack_context_api_initialized _ _ _ _
  | contextPop dev context tid =>
    simp only [dispatch_event, cuda_event_pop_context]
    split_ifs
    · rfl
    · split
      · exact unstack_context_api_initialized _ _ _
      · split_ifs
        · rw [show_context_event_api_initialized]
          exact unstack_context_api_initialized _ _ _
        · exact unstack_context_api_initialized _ _ _
  | contextCreate dev context tid =>
    simp only [dispatch_event, cuda_event_create_context]
    split_ifs
    · rfl
    · split
      · exact stack_context_api_initialized _ _ _ _
      · rw [show_context_event_api_initialized]
        exact stack_context_api_initialized _ _ _ _
  | contextDestroy dev context tid =>
    simp only [dispatch_event, cuda_event_destroy_context]
    by_cases ht : (tid == INVALID_TID) = true
    · simp only [ht, if_true]
    · simp only [ht, Bool.false_eq_true, if_false]
      split
      · simp only [remove_context_api_initialized, unresolve_api_initialized,
          cleanup_auto_api_initialized, clear_current_api_initialized,
          destroy_unstack_api_initialized]
      · simp only [show_context_event_api_initialized, remove_context_api_initialized,
          unresolve_api_initialized, cleanup_auto_api_initialized,
          clear_current_api_initialized, destroy_unstack_api_initialized]

theorem sde_run_handlers (l : List CUDBGEvent) :
    ∀ (s : cuda_session) (d : List driver_answer),
      run_handlers (set_driver_events s d) l =
        { state := set_driver_events (run_handlers s l).state d,
          failure := (run_handlers s l).failure } := by
  induction l with
  | nil => intro s d; rfl
  | cons e t ih =>
    intro s d
    simp only [run_handlers, sde_dispatch_event]
    cases hf : (dispatch_event s e).failure with
    | some f => rfl
    | none => exact ih _ d

theorem get_next_event_at (s : cuda_session) (event : CUDBGEvent) (answer : driver_answer)
    (later : List driver_answer) (hi : s.api_initialized = true)
    (hq : s.driver_events = answer :: later)
    (hres : answer.res = CUDBG_SUCCESS ∨ answer.res = CUDBG_ERROR_NO_EVENT_AVAILABLE) :
    cuda_api_get_next_event s event =
      ({ state := set_driver_events s later, failure := none },
        match answer.event with
        | some written => written
        | none => CUDBGEvent.invalid) := by
  have hb : (answer.res != CUDBG_SUCCESS && answer.res != CUDBG_ERROR_NO_EVENT_AVAILABLE) =
      false := by
    rcases hres with h | h <;> simp [h]
  simp only [cuda_api_get_next_event, hq, hb, Bool.false_eq_true, if_false]
  split_ifs with h
  · simp [hi] at h
  · rfl

theorem get_next_event_exhausted (s : cuda_session) (event : CUDBGEvent)
    (hq : s.driver_events = []) :
    cuda_api_get_next_event s event = ({ state := s, failure := none }, CUDBGEvent.invalid) := by
  simp only [cuda_api_get_next_event, hq]
  split_ifs <;> rfl

theorem process_loop_invalid (fuel : Nat) (s : cuda_session) (event : CUDBGEvent)
    (hk : event.kind = CUDBG_EVENT_INVALID) :
    process_loop (fuel + 1) s event = some { state := s, failure := none } := by
  simp [process_loop, hk]

theorem process_loop_fold (es : List CUDBGEvent) :
    ∀ (s : cuda_session) (e0 : CUDBGEvent) (fuel : Nat) (tail : List driver_answer),
      es.length + 2 ≤ fuel → s.api_initialized = true →
      s.driver_events = es.map delivered ++ tail →
      (∀ a ∈ tail.head?, ends_queue a = true) →
      (∀ e ∈ e0 :: es, e.kind ≠ CUDBG_EVENT_INVALID) →
      (run_handlers s (e0 :: es)).failure = none →
      process_loop fuel s e0 =
        some { state := set_driver_events (run_handlers s (e0 :: es)).state tail.tail,
               failure := none } := by
  induction es with
  | nil =>
    intro s e0 fuel tail hfuel hi hq htail hvalid hok
    obtain ⟨fuel, rfl⟩ : ∃ f, fuel = f + 2 := ⟨fuel - 2, by simp at hfuel; omega⟩
    have hk : ¬ (e0.kind == CUDBG_EVENT_INVALID) = true := by
      simpa using hvalid e0 (List.mem_cons_self _ _)
    have hd : (dispatch_event s e0).failure = none := by
      cases h : (dispatch_event s e0).failure with
      | none => rfl
      | some f => simp [run_handlers, h] at hok
    have hri := (dispatch_event_api_initialized s e0 hd).trans hi
    have hrq : (dispatch_event s e0).state.driver_events = tail := by
      rw [dispatch_event_driver_events, hq]; rfl
    have hrun : run_handlers s [e0] = { state := (dispatch_event s e0).state, failure := none } := by
      simp [run_handlers, hd]
    rw [hrun]
    unfold process_loop
    simp only [hk, if_false, hd]
    cases tail with
    | nil =>
      rw [get_next_event_exhausted _ _ hrq]
      simp only [List.tail_nil]
      rw [process_loop_invalid fuel _ CUDBGEvent.invalid rfl]
      have hself := set_driver_events_self (dispatch_event s e0).state
      rw [hrq] at hself
      rw [hself]
      simp only [Bool.false_eq_true, if_false]
    | cons stop rest =>
      have hs := htail stop (by simp)
      simp only [ends_queue, Bool.and_eq_true, Bool.or_eq_true, beq_iff_eq] at hs
      rw [get_next_event_at _ _ stop rest hri hrq hs.1]
      simp only [List.tail_cons]
      apply process_loop_invalid
      cases he : stop.event with
      | none => rfl
      | some w =>
        rw [he] at hs
        simpa using hs.2
  | cons e1 es ih =>
    intro s e0 fuel tail hfuel hi hq htail hvalid hok
    obtain ⟨fuel, rfl⟩ : ∃ f, fuel = f + 1 := ⟨fuel - 1, by simp at hfuel; omega⟩
    have hk : ¬ (e0.kind == CUDBG_EVENT_INVALID) = true := by
      simpa using hvalid e0 (List.mem_cons_self _ _)
    have hd : (dispatch_event s e0).failure = none := by
      cases h : (dispatch_event s e0).failure with
      | none => rfl
      | some f =>
        have : (run_handlers s (e0 :: e1 :: es)).failure = some f := by
          simp [run_handlers, h]
        rw [this] at hok
        exact absurd hok (by simp)
    have hri := (dispatch_event_api_initialized s e0 hd).trans hi
    have hrq : (dispatch_event s e0).state.driver_events =
        delivered e1 :: (es.map delivered ++ tail) := by
      rw [dispatch_event_driver_events, hq]; rfl
    have hrun : run_handlers s (e0 :: e1 :: es) =
        run_handlers (dispatch_event s e0).state (e1 :: es) := by
      conv_lhs => unfold run_handlers
      simp only [hd]
    rw [hrun] at hok ⊢
    have hframe := sde_run_handlers (e1 :: es) (dispatch_event s e0).state
      (es.map delivered ++ tail)
    have hstep := ih (set_driver_events (dispatch_event s e0).state (es.map delivered ++ tail))
      e1 fuel tail (by simp at hfuel ⊢; omega) hri rfl htail
      (fun e he => hvalid e (List.mem_cons_of_mem _ he))
      (by rw [hframe]; exact hok)
    rw [hframe] at hstep
    unfold process_loop
    simp only [hk, if_false, hd]
    rw [get_next_event_at _ _ (delivered e1) _ hri hrq (Or.inl rfl)]
    exact hstep

theorem run_handlers_foldl (l : List CUDBGEvent) :
    ∀ s : cuda_session, (run_handlers s l).failure = none →
      (run_handlers s l).state = l.foldl (fun st e => (dispatch_event st e).state) s := by
  induction l with
  | nil => intro s _; rfl
  | cons e t ih =>
    intro s h
    cases hd : (dispatch_event s e).failure with
    | some f => simp [run_handlers, hd] at h
    | none =>
      have hrun : run_handlers s (e :: t) = run_handlers (dispatch_event s e).state t := by
        conv_lhs => unfold run_handlers
        simp only [hd]
      rw [hrun] at h ⊢
      exact ih _ h

/-- C12: `cuda_process_events` applies the handlers in arrival order and stops at the
first event of kind INVALID.  When the API is initialized, the driver delivers the
events `es` and then an answer that leaves the event INVALID (or has no answer left),
and no handler of `e0 :: es` fails, the call returns normally and leaves the left fold
of the handlers over `e0 :: es`, in which the answers of the driver that come after the
INVALID one are still pending: nothing behind it is polled or handled.  When the event
passed in is INVALID the call returns the session as it was. -/
theorem process_events_is_fold (s : cuda_session) (e0 : CUDBGEvent) (es : List CUDBGEvent)
    (tail : List driver_answer)
    (hi : s.api_initialized = true)
    (hq : s.driver_events = es.map delivered ++ tail)
    (htail : ∀ a ∈ tail.head?, ends_queue a = true)
    (hvalid : ∀ e ∈ e0 :: es, e.kind ≠ CUDBG_EVENT_INVALID)
    (hok : (run_handlers s (e0 :: es)).failure = none) :
    cuda_process_events s e0 =
      some { state := set_driver_events
               ((e0 :: es).foldl (fun st e => (dispatch_event st e).state) s) tail.tail,
             failure := none } ∧
    ∀ (s0 : cuda_session) (first : CUDBGEvent), first.kind = CUDBG_EVENT_INVALID →
      cuda_process_events s0 first = some { state := s0, failure := none } := by
  constructor
  · rw [← run_handlers_foldl (e0 :: es) s hok]
    exact process_loop_fold es s e0 _ tail (by rw [hq]; simp) hi hq htail hvalid hok
  · intro s0 first hk
    exact process_loop_invalid _ s0 first hk

/-- C12 at a concrete input: CTX_CREATE is passed in, the driver then delivers a CTX_PUSH
and answers that no event is available; the TIMEOUT behind that answer stays pending. -/
theorem process_events_is_fold_witness :
    (queued_session.api_initialized = true ∧
     queued_session.driver_events =
       [CUDBGEvent.contextPush 0 5 1].map delivered ++
         [{ res := CUDBG_ERROR_NO_EVENT_AVAILABLE, event := none },
          delivered CUDBGEvent.timeout] ∧
     (run_handlers queued_session
       [CUDBGEvent.contextCreate 0 5 1, CUDBGEvent.contextPush 0 5 1]).failure = none) ∧
    (cuda_process_events queued_session (CUDBGEvent.contextCreate 0 5 1) =
      some { state := set_driver_events
               ([CUDBGEvent.contextCreate 0 5 1, CUDBGEvent.contextPush 0 5 1].foldl
                 (fun st e => (dispatch_event st e).state) queued_session)
               [delivered CUDBGEvent.timeout],
             failure := none } ∧
    ∀ (s0 : cuda_session) (first : CUDBGEvent), first.kind = CUDBG_EVENT_INVALID →
      cuda_process_events s0 first = some { state := s0, failure := none }) :=
  ⟨⟨rfl, rfl, rfl⟩,
    process_events_is_fold queued_session (CUDBGEvent.contextCreate 0 5 1)
      [CUDBGEvent.contextPush 0 5 1]
      [{ res := CUDBG_ERROR_NO_EVENT_AVAILABLE, event := none }, delivered CUDBGEvent.timeout]
      rfl rfl (by simp [ends_queue]) (by decide) rfl⟩

/-! ### The handlers -/

theorem kernel_ready_failure (s : cuda_session) (dev ctx mod grid tid entry : Nat)
    (gd bd : CuDim3) (type : Nat) (ht : tid ≠ INVALID_TID) :
    (cuda_event_kernel_ready s dev ctx mod grid tid entry gd bd type).failure =
      if s.insert_breakpoints_error then some failure.insert_breakpoints_failed else none := by
  have ht2 : (tid == INVALID_TID) = false := by simpa using ht
  unfold cuda_event_kernel_ready
  simp only [ht2, Bool.false_eq_true, if_false]
  cases hl : iterate_over_lwps s tid <;>
    by_cases hc : ((type == CUDBG_KNL_TYPE_APPLICATION &&
        s.cuda_options_break_on_launch_application) ||
      (type == CUDBG_KNL_TYPE_SYSTEM && s.cuda_options_break_on_launch_system)) = true <;>
    by_cases he : s.insert_breakpoints_error = true <;>
    simp [kernels_start_kernel, set_inferior_ptid, record, cuda_create_auto_breakpoint,
      remove_breakpoints, insert_breakpoints, hc, he]

theorem kernel_ready_trace (s : cuda_session) (dev ctx mod grid tid entry : Nat)
    (gd bd : CuDim3) (type : Nat) (ht : tid ≠ INVALID_TID) :
    (cuda_event_kernel_ready s dev ctx mod grid tid entry gd bd type).state.trace =
      s.trace ++
      ((iterate_over_lwps s tid).toList.map effect.set_inferior_ptid ++
       [effect.kernels_start_kernel dev grid entry ctx mod gd bd type] ++
       (if breaks_on_launch s type then [effect.cuda_create_auto_breakpoint entry ctx] else []) ++
       [effect.remove_breakpoints, effect.insert_breakpoints] ++
       (if s.insert_breakpoints_error then []
        else (iterate_over_lwps s tid).toList.map
          (fun _ => effect.set_inferior_ptid s.inferior_ptid))) := by
  have ht2 : (tid == INVALID_TID) = false := by simpa using ht
  unfold cuda_event_kernel_ready breaks_on_launch
  simp only [ht2, Bool.false_eq_true, if_false]
  cases hl : iterate_over_lwps s tid <;>
    by_cases hc : ((type == CUDBG_KNL_TYPE_APPLICATION &&
        s.cuda_options_break_on_launch_application) ||
      (type == CUDBG_KNL_TYPE_SYSTEM && s.cuda_options_break_on_launch_system)) = true <;>
    by_cases he : s.insert_breakpoints_error = true <;>
    simp [kernels_start_kernel, set_inferior_ptid, record, cuda_create_auto_breakpoint,
      remove_breakpoints, insert_breakpoints, hc, he]

theorem kernel_ready_breakpoint_list (s : cuda_session) (dev ctx mod grid tid entry : Nat)
    (gd bd : CuDim3) (type : Nat) (ht : tid ≠ INVALID_TID) :
    (cuda_event_kernel_ready s dev ctx mod grid tid entry gd bd type).state.auto_breakpoints =
      if breaks_on_launch s type then (entry, ctx) :: s.auto_breakpoints
      else s.auto_breakpoints := by
  have ht2 : (tid == INVALID_TID) = false := by simpa using ht
  unfold cuda_event_kernel_ready breaks_on_launch
  simp only [ht2, Bool.false_eq_true, if_false]
  cases hl : iterate_over_lwps s tid <;>
    by_cases hc : ((type == CUDBG_KNL_TYPE_APPLICATION &&
        s.cuda_options_break_on_launch_application) ||
      (type == CUDBG_KNL_TYPE_SYSTEM && s.cuda_options_break_on_launch_system)) = true <;>
    by_cases he : s.insert_breakpoints_error = true <;>
    simp [kernels_start_kernel, set_inferior_ptid, record, cuda_create_auto_breakpoint,
      remove_breakpoints, insert_breakpoints, hc, he]

theorem kernel_ready_kernels (s : cuda_session) (dev ctx mod grid tid entry : Nat)
    (gd bd : CuDim3) (type : Nat) (ht : tid ≠ INVALID_TID) :
    (cuda_event_kernel_ready s dev ctx mod grid tid entry gd bd type).state.kernels =
      Function.update s.kernels dev
        (Function.update (s.kernels dev) grid
          (some { virt_code_base := entry, context_id := ctx, module_id := mod,
                  grid_dim := gd, block_dim := bd, type := type })) := by
  have ht2 : (tid == INVALID_TID) = false := by simpa using ht
  unfold cuda_event_kernel_ready
  simp only [ht2, Bool.false_eq_true, if_false]
  cases hl : iterate_over_lwps s tid <;>
    by_cases hc : ((type == CUDBG_KNL_TYPE_APPLICATION &&
        s.cuda_options_break_on_launch_application) ||
      (type == CUDBG_KNL_TYPE_SYSTEM && s.cuda_options_break_on_launch_system)) = true <;>
    by_cases he : s.insert_breakpoints_error = true <;>
    simp [kernels_start_kernel, set_inferior_ptid, record, cuda_create_auto_breakpoint,
      remove_breakpoints, insert_breakpoints, hc, he]

theorem kernel_ready_inferior_ptid (s : cuda_session) (dev ctx mod grid tid entry : Nat)
    (gd bd : CuDim3) (type : Nat)
    (hok : (cuda_event_kernel_ready s dev ctx mod grid tid entry gd bd type).failure = none) :
    (cuda_event_kernel_ready s dev ctx mod grid tid entry gd bd type).state.inferior_ptid =
      s.inferior_ptid := by
  revert hok
  unfold cuda_event_kernel_ready
  by_cases ht2 : (tid == INVALID_TID) = true
  · simp [ht2]
  · simp only [ht2, Bool.false_eq_true, if_false]
    cases hl : iterate_over_lwps s tid <;>
      by_cases hc : ((type == CUDBG_KNL_TYPE_APPLICATION &&
          s.cuda_options_break_on_launch_application) ||
        (type == CUDBG_KNL_TYPE_SYSTEM && s.cuda_options_break_on_launch_system)) = true <;>
      by_cases he : s.insert_breakpoints_error = true <;>
      simp [kernels_start_kernel, set_inferior_ptid, record, cuda_create_auto_breakpoint,
        remove_breakpoints, insert_breakpoints, hc, he]

theorem kernel_ready_succeeds (s : cuda_session) (dev ctx mod grid tid entry : Nat)
    (gd bd : CuDim3) (type : Nat)
    (hok : (cuda_event_kernel_ready s dev ctx mod grid tid entry gd bd type).failure = none) :
    tid ≠ INVALID_TID ∧ s.insert_breakpoints_error = false := by
  have ht : tid ≠ INVALID_TID := by
    intro h
    subst h
    simp [cuda_event_kernel_ready] at hok
  refine ⟨ht, ?_⟩
  rw [kernel_ready_failure s dev ctx mod grid tid entry gd bd type ht] at hok
  cases he : s.insert_breakpoints_error with
  | false => rfl
  | true => simp [he] at hok

/-- C13: each of the handlers of CTX_CREATE, CTX_DESTROY, CTX_PUSH, CTX_POP and
KERNEL_READY, given the thread id `0xFFFFFFFF`, stops with the error "A CUDA event
reported an invalid thread id." and leaves the whole session (contexts, context stacks,
current context, kernels, breakpoints, focused thread) as it was; given any other thread
id, none of them stops with this error. -/
theorem invalid_tid_is_refused (s : cuda_session) (dev context module gridId tid
    functionEntry : Nat) (gridDim blockDim : CuDim3) (type : Nat) :
    (dispatch_event s (CUDBGEvent.contextCreate dev context INVALID_TID) =
        { state := s, failure := some failure.invalid_thread_id } ∧
     dispatch_event s (CUDBGEvent.contextDestroy dev context INVALID_TID) =
        { state := s, failure := some failure.invalid_thread_id } ∧
     dispatch_event s (CUDBGEvent.contextPush dev context INVALID_TID) =
        { state := s, failure := some failure.invalid_thread_id } ∧
     dispatch_event s (CUDBGEvent.contextPop dev context INVALID_TID) =
        { state := s, failure := some failure.invalid_thread_id } ∧
     dispatch_event s (CUDBGEvent.kernelReady dev context module gridId INVALID_TID
        functionEntry gridDim blockDim type) =
        { state := s, failure := some failure.invalid_thread_id }) ∧
    (tid ≠ INVALID_TID →
      (dispatch_event s (CUDBGEvent.contextCreate dev context tid)).failure ≠
        some failure.invalid_thread_id ∧
      (dispatch_event s (CUDBGEvent.contextDestroy dev context tid)).failure ≠
        some failure.invalid_thread_id ∧
      (dispatch_event s (CUDBGEvent.contextPush dev context tid)).failure ≠
        some failure.invalid_thread_id ∧
      (dispatch_event s (CUDBGEvent.contextPop dev context tid)).failure ≠
        some failure.invalid_thread_id ∧
      (dispatch_event s (CUDBGEvent.kernelReady dev context module gridId tid
        functionEntry gridDim blockDim type)).failure ≠ some failure.invalid_thread_id) := by
  refine ⟨⟨rfl, rfl, rfl, rfl, rfl⟩, ?_⟩
  intro ht
  have ht2 : (tid == INVALID_TID) = false := by simpa using ht
  refine ⟨?_, ?_, ?_, ?_, ?_⟩
  · simp [dispatch_event, cuda_event_create_context, ht2, contexts_stack_context]
  · simp only [dispatch_event, cuda_event_destroy_context, ht2, Bool.false_eq_true, if_false]
    split <;> simp
  · cases hf : contexts_find_context_by_id s dev context <;>
      simp [dispatch_event, cuda_event_push_context, ht2, contexts_stack_context, hf]
  · simp only [dispatch_event, cuda_event_pop_context, ht2, Bool.false_eq_true, if_false]
    split
    · simp
    · split_ifs <;> simp
  · simp only [dispatch_event]
    rw [kernel_ready_failure s dev context module gridId tid functionEntry gridDim blockDim
      type ht]
    split_ifs <;> simp

/-- C13 at a concrete input: thread id 1 on `empty_session`. -/
theorem invalid_tid_is_refused_witness :
    (1 : Nat) ≠ INVALID_TID ∧
    ((dispatch_event empty_session (CUDBGEvent.contextCreate 0 5 1)).failure ≠
        some failure.invalid_thread_id ∧
      (dispatch_event empty_session (CUDBGEvent.contextDestroy 0 5 1)).failure ≠
        some failure.invalid_thread_id ∧
      (dispatch_event empty_session (CUDBGEvent.contextPush 0 5 1)).failure ≠
        some failure.invalid_thread_id ∧
      (dispatch_event empty_session (CUDBGEvent.contextPop 0 5 1)).failure ≠
        some failure.invalid_thread_id ∧
      (dispatch_event empty_session (CUDBGEvent.kernelReady 0 5 3 7 1 4096 ⟨1, 1, 1⟩ ⟨1, 1, 1⟩
        CUDBG_KNL_TYPE_APPLICATION)).failure ≠ some failure.invalid_thread_id) :=
  ⟨by decide,
    (invalid_tid_is_refused empty_session 0 5 3 7 1 4096 ⟨1, 1, 1⟩ ⟨1, 1, 1⟩
      CUDBG_KNL_TYPE_APPLICATION).2 (by decide)⟩

theorem show_context_event_contexts (x : cuda_session) (k c dev : Nat) :
    (show_context_event x k c dev).contexts = x.contexts := by
  unfold show_context_event
  split_ifs <;> rfl

theorem show_context_event_current_context (x : cuda_session) (k c dev : Nat) :
    (show_context_event x k c dev).current_context = x.current_context := by
  unfold show_context_event
  split_ifs <;> rfl

/-- C14: the handler of CTX_POP, given a valid thread id, returns normally exactly when
the top of that thread's context stack on the device is a context whose id is the one
the event names.  When it returns normally, the thread's stack is its previous stack
without the top, and the context registry of every device is as it was. -/
theorem pop_succeeds_iff_top_matches (s : cuda_session) (dev context tid : Nat)
    (ht : tid ≠ INVALID_TID) :
    ((dispatch_event s (CUDBGEvent.contextPop dev context tid)).failure = none ↔
      ∃ top below, (s.contexts dev).thread_stacks tid = some top :: below ∧
        top.context_id = context) ∧
    ((dispatch_event s (CUDBGEvent.contextPop dev context tid)).failure = none →
      ((dispatch_event s (CUDBGEvent.contextPop dev context tid)).state.contexts
          dev).thread_stacks tid = ((s.contexts dev).thread_stacks tid).tail ∧
      ∀ d, ((dispatch_event s (CUDBGEvent.contextPop dev context tid)).state.contexts
          d).registry = (s.contexts d).registry) := by
  have ht2 : (tid == INVALID_TID) = false := by simpa using ht
  simp only [dispatch_event, cuda_event_pop_context, ht2, Bool.false_eq_true, if_false,
    contexts_unstack_context]
  cases hs : (s.contexts dev).thread_stacks tid with
  | nil => simp
  | cons top below =>
    cases top with
    | none => simp
    | some c =>
      by_cases hc : c.context_id = context
      · simp only [hc, beq_self_eq_true, if_true, show_context_event_contexts]
        refine ⟨by simp [hc], ?_⟩
        intro _
        refine ⟨by simp [put_thread_stacks], ?_⟩
        intro d
        by_cases hd : d = dev
        · subst hd; simp [put_thread_stacks]
        · simp [put_thread_stacks, Function.update_noteq hd]
      · have hb : (c.context_id == context) = false := by simpa using hc
        simp [hb, hc]

/-- C14 at a concrete input: thread 1 pops context 5, which it has on top of its stack. -/
theorem pop_succeeds_iff_top_matches_witness :
    (1 : Nat) ≠ INVALID_TID ∧
    (dispatch_event one_context_session (CUDBGEvent.contextPop 0 5 1)).failure = none ∧
    (((dispatch_event one_context_session (CUDBGEvent.contextPop 0 5 1)).failure = none ↔
      ∃ top below, (one_context_session.contexts 0).thread_stacks 1 = some top :: below ∧
        top.context_id = 5) ∧
    ((dispatch_event one_context_session (CUDBGEvent.contextPop 0 5 1)).failure = none →
      ((dispatch_event one_context_session (CUDBGEvent.contextPop 0 5 1)).state.contexts
          0).thread_stacks 1 = ((one_context_session.contexts 0).thread_stacks 1).tail ∧
      ∀ d, ((dispatch_event one_context_session (CUDBGEvent.contextPop 0 5 1)).state.contexts
          d).registry = (one_context_session.contexts d).registry)) :=
  ⟨by decide, rfl, pop_succeeds_iff_top_matches one_context_session 0 5 1 (by decide)⟩

theorem clear_current_contexts (x : cuda_session) (c : context_t) :
    (if c = x.current_context then set_current_context x none else x).contexts =
      x.contexts := by
  split_ifs <;> rfl

theorem clear_current_current_context (x : cuda_session) (c : context_ref) :
    (if some c = x.current_context then set_current_context x none else x).current_context ≠
      some c := by
  split_ifs with h
  · simp [set_current_context, record]
  · exact fun h2 => h h2.symm

theorem destroy_active_context (x : cuda_session) (dev context tid : Nat)
    (below : List context_t) (ht : tid ≠ INVALID_TID)
    (hreg : (x.contexts dev).registry context ≠ none)
    (hst : (x.contexts dev).thread_stacks tid =
      some { context_id := context, dev_id := dev } :: below) :
    (cuda_event_destroy_context x dev context tid).failure = none ∧
    (cuda_event_destroy_context x dev context tid).state.contexts =
      Function.update x.contexts dev
        { registry := Function.update (x.contexts dev).registry context none,
          thread_stacks := Function.update (x.contexts dev).thread_stacks tid below } ∧
    (cuda_event_destroy_context x dev context tid).state.current_context ≠
      some { context_id := context, dev_id := dev } := by
  have ht2 : (tid == INVALID_TID) = false := by simpa using ht
  have hfind : contexts_find_context_by_id x dev context =
      some { context_id := context, dev_id := dev } := by
    unfold contexts_find_context_by_id
    cases h : (x.contexts dev).registry context with
    | none => exact absurd h hreg
    | some m => rfl
  have hact : contexts_get_active_context x dev tid =
      some { context_id := context, dev_id := dev } := by
    unfold contexts_get_active_context
    rw [hst]
  have hun : contexts_unstack_context x dev tid =
      (put_thread_stacks x dev (Function.update (x.contexts dev).thread_stacks tid below),
        some { context_id := context, dev_id := dev }) := by
    unfold contexts_unstack_context
    rw [hst]
  simp only [cuda_event_destroy_context, ht2, Bool.false_eq_true, if_false, hfind, hact, hun,
    if_true]
  refine ⟨trivial, ?_, ?_⟩
  · rw [show_context_event_contexts]
    simp only [contexts_remove_context, put_registry, cuda_unresolve_breakpoints,
      cuda_cleanup_auto_breakpoints, record, clear_current_contexts]
    simp [put_thread_stacks]
  · rw [show_context_event_current_context]
    simp only [contexts_remove_context, put_registry, cuda_unresolve_breakpoints,
      cuda_cleanup_auto_breakpoints, record]
    exact clear_current_current_context _ _

theorem outcome_of_success (r : outcome) (h : r.failure = none) :
    { state := r.state, failure := none } = r := by
  cases r
  cases h
  rfl

theorem create_context_contexts (s : cuda_session) (dev context tid : Nat)
    (ht : tid ≠ INVALID_TID) :
    (cuda_event_create_context s dev context tid).failure = none ∧
    (cuda_event_create_context s dev context tid).state.contexts =
      Function.update s.contexts dev
        { registry := Function.update (s.contexts dev).registry context (some { modules := [] }),
          thread_stacks := Function.update (s.contexts dev).thread_stacks tid
            (some { context_id := context, dev_id := dev } ::
              (s.contexts dev).thread_stacks tid) } := by
  have ht2 : (tid == INVALID_TID) = false := by simpa using ht
  simp only [cuda_event_create_context, ht2, Bool.false_eq_true, if_false,
    contexts_stack_context, show_context_event_contexts]
  refine ⟨trivial, ?_⟩
  simp [contexts_add_context, put_registry, put_thread_stacks, context_new]

theorem create_then_destroy (s : cuda_session) (dev context tid : Nat)
    (ht : tid ≠ INVALID_TID) (hnew : (s.contexts dev).registry context = none) :
    (run_handlers s [CUDBGEvent.contextCreate dev context tid,
        CUDBGEvent.contextDestroy dev context tid]).failure = none ∧
    (run_handlers s [CUDBGEvent.contextCreate dev context tid,
        CUDBGEvent.contextDestroy dev context tid]).state.contexts = s.contexts ∧
    (run_handlers s [CUDBGEvent.contextCreate dev context tid,
        CUDBGEvent.contextDestroy dev context tid]).state.current_context ≠
      some { context_id := context, dev_id := dev } := by
  have hc := create_context_contexts s dev context tid ht
  have hd := destroy_active_context (cuda_event_create_context s dev context tid).state dev
    context tid ((s.contexts dev).thread_stacks tid) ht
    (by rw [hc.2]; simp) (by rw [hc.2]; simp)
  have hrun : run_handlers s [CUDBGEvent.contextCreate dev context tid,
      CUDBGEvent.contextDestroy dev context tid] =
      cuda_event_destroy_context (cuda_event_create_context s dev context tid).state dev
        context tid := by
    simp only [run_handlers, dispatch_event, hc.1, hd.1]
    exact outcome_of_success _ hd.1
  rw [hrun]
  refine ⟨hd.1, ?_, hd.2.2⟩
  rw [hd.2.1, hc.2]
  have hreg : Function.update (s.contexts dev).registry context none =
      (s.contexts dev).registry := by
    have h := Function.update_eq_self context (s.contexts dev).registry
    rw [hnew] at h
    exact h
  simp [hreg]

/-- C15: for every session, device, context id that the device's registry does not hold
and valid thread id, CTX_CREATE immediately followed by CTX_DESTROY of the same context
by the same thread returns normally, leaves the context registry of the device and the
context stack of the thread exactly as they were before the create, and leaves a current
context that is not the destroyed context. -/
theorem create_destroy_round_trip (s : cuda_session) (dev context tid : Nat)
    (ht : tid ≠ INVALID_TID) (hnew : (s.contexts dev).registry context = none) :
    (run_handlers s [CUDBGEvent.contextCreate dev context tid,
        CUDBGEvent.contextDestroy dev context tid]).failure = none ∧
    ((run_handlers s [CUDBGEvent.contextCreate dev context tid,
        CUDBGEvent.contextDestroy dev context tid]).state.contexts dev).registry =
      (s.contexts dev).registry ∧
    ((run_handlers s [CUDBGEvent.contextCreate dev context tid,
        CUDBGEvent.contextDestroy dev context tid]).state.contexts dev).thread_stacks tid =
      (s.contexts dev).thread_stacks tid ∧
    (run_handlers s [CUDBGEvent.contextCreate dev context tid,
        CUDBGEvent.contextDestroy dev context tid]).state.current_context ≠
      some { context_id := context, dev_id := dev } := by
  have h := create_then_destroy s dev context tid ht hnew
  exact ⟨h.1, by rw [h.2.1], by rw [h.2.1], h.2.2⟩

/-- C15 at a concrete input: thread 2 creates and destroys context 6 on device 0 while
context 5 of thread 1 is registered. -/
theorem create_destroy_round_trip_witness :
    ((2 : Nat) ≠ INVALID_TID ∧ (one_context_session.contexts 0).registry 6 = none) ∧
    ((run_handlers one_context_session [CUDBGEvent.contextCreate 0 6 2,
        CUDBGEvent.contextDestroy 0 6 2]).failure = none ∧
    ((run_handlers one_context_session [CUDBGEvent.contextCreate 0 6 2,
        CUDBGEvent.contextDestroy 0 6 2]).state.contexts 0).registry =
      (one_context_session.contexts 0).registry ∧
    ((run_handlers one_context_session [CUDBGEvent.contextCreate 0 6 2,
        CUDBGEvent.contextDestroy 0 6 2]).state.contexts 0).thread_stacks 2 =
      (one_context_session.contexts 0).thread_stacks 2 ∧
    (run_handlers one_context_session [CUDBGEvent.contextCreate 0 6 2,
        CUDBGEvent.contextDestroy 0 6 2]).state.current_context ≠
      some { context_id := 6, dev_id := 0 }) :=
  ⟨⟨by decide, by decide⟩,
    create_destroy_round_trip one_context_session 0 6 2 (by decide) (by decide)⟩

theorem kernel_finished_absent (s : cuda_session) (dev grid : Nat)
    (h : s.kernels dev grid = none) :
    cuda_event_kernel_finished s dev grid = { state := s, failure := none } := by
  simp [cuda_event_kernel_finished, kernels_find_kernel_by_grid_id, h]

theorem kernel_finished_kernels (s : cuda_session) (dev grid : Nat) :
    (cuda_event_kernel_finished s dev grid).state.kernels dev grid = none := by
  cases h : s.kernels dev grid with
  | none => rw [kernel_finished_absent s dev grid h]; exact h
  | some k =>
    simp [cuda_event_kernel_finished, kernels_find_kernel_by_grid_id, h,
      kernels_terminate_kernel, clear_current_source_symtab_and_line, clear_displays, record]

/-- C17: KERNEL_FINISHED is idempotent.  For every session, device and grid id the
handler returns normally, handling the same event a second time returns normally and
leaves the session that the first handling left, and when the kernel registry of the
device holds no kernel of this grid id the handler leaves the whole session as it was:
no call is made, the current source position and the displays are not cleared. -/
theorem kernel_finished_idempotent (s : cuda_session) (dev gridId : Nat) :
    (dispatch_event s (CUDBGEvent.kernelFinished dev gridId)).failure = none ∧
    dispatch_event (dispatch_event s (CUDBGEvent.kernelFinished dev gridId)).state
        (CUDBGEvent.kernelFinished dev gridId) =
      { state := (dispatch_event s (CUDBGEvent.kernelFinished dev gridId)).state,
        failure := none } ∧
    (kernels_find_kernel_by_grid_id s dev gridId = none →
      dispatch_event s (CUDBGEvent.kernelFinished dev gridId) =
        { state := s, failure := none }) := by
  refine ⟨?_, ?_, ?_⟩
  · simp only [dispatch_event, cuda_event_kernel_finished]
    split <;> rfl
  · exact kernel_finished_absent _ dev gridId (kernel_finished_kernels s dev gridId)
  · intro h
    simp only [dispatch_event, cuda_event_kernel_finished, h]

/-- C17 at concrete inputs: grid 7 is running in `one_kernel_session`, where the first
KERNEL_FINISHED clears the displays and the second changes nothing; grid 8 is not. -/
theorem kernel_finished_idempotent_witness :
    kernels_find_kernel_by_grid_id one_kernel_session 0 8 = none ∧
    dispatch_event one_kernel_session (CUDBGEvent.kernelFinished 0 8) =
      { state := one_kernel_session, failure := none } ∧
    kernels_find_kernel_by_grid_id one_kernel_session 0 7 = some { dev_id := 0, grid_id := 7 } ∧
    (dispatch_event one_kernel_session (CUDBGEvent.kernelFinished 0 7)).state.displays = [] ∧
    dispatch_event (dispatch_event one_kernel_session (CUDBGEvent.kernelFinished 0 7)).state
        (CUDBGEvent.kernelFinished 0 7) =
      { state := (dispatch_event one_kernel_session (CUDBGEvent.kernelFinished 0 7)).state,
        failure := none } :=
  ⟨by decide, (kernel_finished_idempotent one_kernel_session 0 8).2.2 (by decide),
    by decide, by decide, (kernel_finished_idempotent one_kernel_session 0 7).2.1⟩

theorem breaks_on_launch_iff (s : cuda_session) (type : Nat) :
    breaks_on_launch s type = true ↔
      (type = CUDBG_KNL_TYPE_APPLICATION ∧ s.cuda_options_break_on_launch_application = true) ∨
      (type = CUDBG_KNL_TYPE_SYSTEM ∧ s.cuda_options_break_on_launch_system = true) := by
  simp [breaks_on_launch]

theorem ite_and_eq_flip (a b c d : Nat) :
    (if a = b ∧ c = d then 1 else 0 : Nat) = if b = a ∧ d = c then 1 else 0 := by
  by_cases h1 : a = b
  · subst h1
    by_cases h2 : c = d
    · subst h2
      simp
    · have h3 : ¬ d = c := fun h => h2 h.symm
      simp [h2, h3]
  · have h3 : ¬ b = a := fun h => h1 h.symm
    simp [h1, h3]

/-- C18: the handler of KERNEL_READY, given a valid thread id, calls
`cuda_create_auto_breakpoint` exactly once, with the event's entry address and context
id, when the type is APPLICATION and break-on-launch-application is set or the type is
SYSTEM and break-on-launch-system is set, and does not call it otherwise (so never for
the type UNKNOWN); the automatic breakpoints afterwards are the previous ones plus this
one, or the previous ones.  Among the calls the handler makes, `remove_breakpoints` and
`insert_breakpoints` occur once each, in this order. -/
theorem kernel_ready_auto_breakpoint (s : cuda_session) (dev context module gridId tid
    functionEntry : Nat) (gridDim blockDim : CuDim3) (type : Nat) (ht : tid ≠ INVALID_TID) :
    ∃ calls : List effect,
      (dispatch_event s (CUDBGEvent.kernelReady dev context module gridId tid functionEntry
        gridDim blockDim type)).state.trace = s.trace ++ calls ∧
      (∀ address scope, calls.count (effect.cuda_create_auto_breakpoint address scope) =
        if ((type = CUDBG_KNL_TYPE_APPLICATION ∧
              s.cuda_options_break_on_launch_application = true) ∨
            (type = CUDBG_KNL_TYPE_SYSTEM ∧ s.cuda_options_break_on_launch_system = true)) ∧
            address = functionEntry ∧ scope = context
        then 1 else 0) ∧
      (dispatch_event s (CUDBGEvent.kernelReady dev context module gridId tid functionEntry
        gridDim blockDim type)).state.auto_breakpoints =
        (if (type = CUDBG_KNL_TYPE_APPLICATION ∧
              s.cuda_options_break_on_launch_application = true) ∨
            (type = CUDBG_KNL_TYPE_SYSTEM ∧ s.cuda_options_break_on_launch_system = true)
         then (functionEntry, context) :: s.auto_breakpoints else s.auto_breakpoints) ∧
      (type = CUDBG_KNL_TYPE_UNKNOWN →
        ∀ address scope, effect.cuda_create_auto_breakpoint address scope ∉ calls) ∧
      calls.filter (fun e => e = effect.remove_breakpoints ∨ e = effect.insert_breakpoints) =
        [effect.remove_breakpoints, effect.insert_breakpoints] := by
  refine ⟨_, kernel_ready_trace s dev context module gridId tid functionEntry gridDim blockDim
    type ht, ?_, ?_, ?_, ?_⟩
  · intro address scope
    simp only [← breaks_on_launch_iff]
    cases hl : iterate_over_lwps s tid <;> cases hc : breaks_on_launch s type <;>
      cases he : s.insert_breakpoints_error <;>
      simp [List.count_cons, ite_and_eq_flip functionEntry address context scope]
  · simp only [dispatch_event]
    rw [kernel_ready_breakpoint_list s dev context module gridId tid functionEntry gridDim
      blockDim type ht]
    simp only [← breaks_on_launch_iff]
  · intro hu address scope
    have hc : breaks_on_launch s type = false := by
      subst hu
      simp [breaks_on_launch, CUDBG_KNL_TYPE_UNKNOWN, CUDBG_KNL_TYPE_APPLICATION,
        CUDBG_KNL_TYPE_SYSTEM]
    cases hl : iterate_over_lwps s tid <;> cases he : s.insert_breakpoints_error <;>
      simp [hc]
  · cases hl : iterate_over_lwps s tid <;> cases hc : breaks_on_launch s type <;>
      cases he : s.insert_breakpoints_error <;>
      simp [List.filter_cons]

/-- C18 at concrete inputs: on `empty_session`, where only break-on-launch-application
is set, an application kernel reported by thread 2 gets one automatic breakpoint at its
entry address 4096 for context 5, a system kernel gets none. -/
theorem kernel_ready_auto_breakpoint_witness :
    (2 : Nat) ≠ INVALID_TID ∧
    (dispatch_event empty_session (CUDBGEvent.kernelReady 0 5 3 7 2 4096 ⟨1, 1, 1⟩ ⟨32, 1, 1⟩
      CUDBG_KNL_TYPE_APPLICATION)).state.auto_breakpoints = [(4096, 5)] ∧
    (dispatch_event empty_session (CUDBGEvent.kernelReady 0 5 3 7 2 4096 ⟨1, 1, 1⟩ ⟨32, 1, 1⟩
      CUDBG_KNL_TYPE_SYSTEM)).state.auto_breakpoints = [] ∧
    (dispatch_event empty_session (CUDBGEvent.kernelReady 0 5 3 7 2 4096 ⟨1, 1, 1⟩ ⟨32, 1, 1⟩
      CUDBG_KNL_TYPE_APPLICATION)).state.trace =
      [effect.set_inferior_ptid 101,
       effect.kernels_start_kernel 0 7 4096 5 3 ⟨1, 1, 1⟩ ⟨32, 1, 1⟩ CUDBG_KNL_TYPE_APPLICATION,
       effect.cuda_create_auto_breakpoint 4096 5,
       effect.remove_breakpoints, effect.insert_breakpoints,
       effect.set_inferior_ptid 100] ∧
    ∃ calls : List effect,
      (dispatch_event empty_session (CUDBGEvent.kernelReady 0 5 3 7 2 4096 ⟨1, 1, 1⟩
        ⟨32, 1, 1⟩ CUDBG_KNL_TYPE_APPLICATION)).state.trace = empty_session.trace ++ calls ∧
      (∀ address scope, calls.count (effect.cuda_create_auto_breakpoint address scope) =
        if ((CUDBG_KNL_TYPE_APPLICATION = CUDBG_KNL_TYPE_APPLICATION ∧
              empty_session.cuda_options_break_on_launch_application = true) ∨
            (CUDBG_KNL_TYPE_APPLICATION = CUDBG_KNL_TYPE_SYSTEM ∧
              empty_session.cuda_options_break_on_launch_system = true)) ∧
            address = 4096 ∧ scope = 5
        then 1 else 0) ∧
      (dispatch_event empty_session (CUDBGEvent.kernelReady 0 5 3 7 2 4096 ⟨1, 1, 1⟩
        ⟨32, 1, 1⟩ CUDBG_KNL_TYPE_APPLICATION)).state.auto_breakpoints =
        (if (CUDBG_KNL_TYPE_APPLICATION = CUDBG_KNL_TYPE_APPLICATION ∧
              empty_session.cuda_options_break_on_launch_application = true) ∨
            (CUDBG_KNL_TYPE_APPLICATION = CUDBG_KNL_TYPE_SYSTEM ∧
              empty_session.cuda_options_break_on_launch_system = true)
         then (4096, 5) :: empty_session.auto_breakpoints
         else empty_session.auto_breakpoints) ∧
      (CUDBG_KNL_TYPE_APPLICATION = CUDBG_KNL_TYPE_UNKNOWN →
        ∀ address scope, effect.cuda_create_auto_breakpoint address scope ∉ calls) ∧
      calls.filter (fun e => e = effect.remove_breakpoints ∨ e = effect.insert_breakpoints) =
        [effect.remove_breakpoints, effect.insert_breakpoints] :=
  ⟨by decide, by decide, by decide, by decide,
    kernel_ready_auto_breakpoint empty_session 0 5 3 7 2 4096 ⟨1, 1, 1⟩ ⟨32, 1, 1⟩
      CUDBG_KNL_TYPE_APPLICATION (by decide)⟩

/-- C19: among the calls that a KERNEL_READY handler which returns normally makes, the
registration of the kernel (`kernels_start_kernel` with the event's grid id, entry
address, context id, module id, dimensions and type) comes first, then
`cuda_create_auto_breakpoint` when the launch is one to break on, then
`remove_breakpoints`, then `insert_breakpoints`; the only other calls are the changes of
the focused thread before and after them.  The kernel is registered under the event's
grid id afterwards. -/
theorem kernel_ready_call_order (s : cuda_session) (dev context module gridId tid
    functionEntry : Nat) (gridDim blockDim : CuDim3) (type : Nat)
    (hok : (dispatch_event s (CUDBGEvent.kernelReady dev context module gridId tid
      functionEntry gridDim blockDim type)).failure = none) :
    (∃ before after : List effect,
      (∀ e ∈ before ++ after, ∃ ptid, e = effect.set_inferior_ptid ptid) ∧
      (dispatch_event s (CUDBGEvent.kernelReady dev context module gridId tid functionEntry
        gridDim blockDim type)).state.trace =
        s.trace ++ (before ++
          [effect.kernels_start_kernel dev gridId functionEntry context module gridDim
            blockDim type] ++
          (if (type = CUDBG_KNL_TYPE_APPLICATION ∧
                s.cuda_options_break_on_launch_application = true) ∨
              (type = CUDBG_KNL_TYPE_SYSTEM ∧ s.cuda_options_break_on_launch_system = true)
           then [effect.cuda_create_auto_breakpoint functionEntry context] else []) ++
          [effect.remove_breakpoints, effect.insert_breakpoints] ++ after)) ∧
    (dispatch_event s (CUDBGEvent.kernelReady dev context module gridId tid functionEntry
      gridDim blockDim type)).state.kernels dev gridId =
      some { virt_code_base := functionEntry, context_id := context, module_id := module,
             grid_dim := gridDim, block_dim := blockDim, type := type } := by
  have hs := kernel_ready_succeeds s dev context module gridId tid functionEntry gridDim
    blockDim type hok
  constructor
  · refine ⟨(iterate_over_lwps s tid).toList.map effect.set_inferior_ptid,
      (iterate_over_lwps s tid).toList.map (fun _ => effect.set_inferior_ptid s.inferior_ptid),
      ?_, ?_⟩
    · intro e he
      simp only [List.mem_append, List.mem_map] at he
      rcases he with ⟨p, _, rfl⟩ | ⟨p, _, rfl⟩
      · exact ⟨p, rfl⟩
      · exact ⟨s.inferior_ptid, rfl⟩
    · simp only [dispatch_event]
      rw [kernel_ready_trace s dev context module gridId tid functionEntry gridDim blockDim
        type hs.1]
      simp only [← breaks_on_launch_iff, hs.2, Bool.false_eq_true, if_false]
  · simp only [dispatch_event]
    rw [kernel_ready_kernels s dev context module gridId tid functionEntry gridDim blockDim
      type hs.1]
    simp

/-- C19 at a concrete input: an application kernel reported by thread 2 on
`empty_session`. -/
theorem kernel_ready_call_order_witness :
    (dispatch_event empty_session (CUDBGEvent.kernelReady 0 5 3 7 2 4096 ⟨1, 1, 1⟩ ⟨32, 1, 1⟩
      CUDBG_KNL_TYPE_APPLICATION)).failure = none ∧
    ((∃ before after : List effect,
      (∀ e ∈ before ++ after, ∃ ptid, e = effect.set_inferior_ptid ptid) ∧
      (dispatch_event empty_session (CUDBGEvent.kernelReady 0 5 3 7 2 4096 ⟨1, 1, 1⟩
        ⟨32, 1, 1⟩ CUDBG_KNL_TYPE_APPLICATION)).state.trace =
        empty_session.trace ++ (before ++
          [effect.kernels_start_kernel 0 7 4096 5 3 ⟨1, 1, 1⟩ ⟨32, 1, 1⟩
            CUDBG_KNL_TYPE_APPLICATION] ++
          (if (CUDBG_KNL_TYPE_APPLICATION = CUDBG_KNL_TYPE_APPLICATION ∧
                empty_session.cuda_options_break_on_launch_application = true) ∨
              (CUDBG_KNL_TYPE_APPLICATION = CUDBG_KNL_TYPE_SYSTEM ∧
                empty_session.cuda_options_break_on_launch_system = true)
           then [effect.cuda_create_auto_breakpoint 4096 5] else []) ++
          [effect.remove_breakpoints, effect.insert_breakpoints] ++ after)) ∧
    (dispatch_event empty_session (CUDBGEvent.kernelReady 0 5 3 7 2 4096 ⟨1, 1, 1⟩ ⟨32, 1, 1⟩
      CUDBG_KNL_TYPE_APPLICATION)).state.kernels 0 7 =
      some { virt_code_base := 4096, context_id := 5, module_id := 3,
             grid_dim := ⟨1, 1, 1⟩, block_dim := ⟨32, 1, 1⟩,
             type := CUDBG_KNL_TYPE_APPLICATION }) :=
  ⟨rfl, kernel_ready_call_order empty_session 0 5 3 7 2 4096 ⟨1, 1, 1⟩ ⟨32, 1, 1⟩
    CUDBG_KNL_TYPE_APPLICATION rfl⟩

/-- C20: when the handler of KERNEL_READY returns normally, the focused thread
(`inferior_ptid`) is the one that was focused before the event, whether or not
`iterate_over_lwps` found a host thread with the event's thread id.  When it found none,
the handler makes no assignment to `inferior_ptid` at all, and the kernel is registered
under the event's grid id. -/
theorem kernel_ready_keeps_focus (s : cuda_session) (dev context module gridId tid
    functionEntry : Nat) (gridDim blockDim : CuDim3) (type : Nat)
    (hok : (dispatch_event s (CUDBGEvent.kernelReady dev context module gridId tid
      functionEntry gridDim blockDim type)).failure = none) :
    (dispatch_event s (CUDBGEvent.kernelReady dev context module gridId tid functionEntry
      gridDim blockDim type)).state.inferior_ptid = s.inferior_ptid ∧
    (iterate_over_lwps s tid = none →
      (∃ calls : List effect,
        (dispatch_event s (CUDBGEvent.kernelReady dev context module gridId tid
          functionEntry gridDim blockDim type)).state.trace = s.trace ++ calls ∧
        ∀ ptid, effect.set_inferior_ptid ptid ∉ calls) ∧
      (dispatch_event s (CUDBGEvent.kernelReady dev context module gridId tid functionEntry
        gridDim blockDim type)).state.kernels dev gridId =
        some { virt_code_base := functionEntry, context_id := context, module_id := module,
               grid_dim := gridDim, block_dim := blockDim, type := type }) := by
  have hs := kernel_ready_succeeds s dev context module gridId tid functionEntry gridDim
    blockDim type hok
  refine ⟨kernel_ready_inferior_ptid s dev context module gridId tid functionEntry gridDim
    blockDim type hok, ?_⟩
  intro hl
  constructor
  · refine ⟨_, kernel_ready_trace s dev context module gridId tid functionEntry gridDim
      blockDim type hs.1, ?_⟩
    intro ptid
    cases hc : breaks_on_launch s type <;> simp [hl, hs.2]
  · simp only [dispatch_event]
    rw [kernel_ready_kernels s dev context module gridId tid functionEntry gridDim blockDim
      type hs.1]
    simp

/-- C20 at a concrete input: no host thread of `empty_session` has thread id 7. -/
theorem kernel_ready_keeps_focus_witness :
    ((dispatch_event empty_session (CUDBGEvent.kernelReady 0 5 3 7 7 4096 ⟨1, 1, 1⟩ ⟨32, 1, 1⟩
      CUDBG_KNL_TYPE_APPLICATION)).failure = none ∧
     iterate_over_lwps empty_session 7 = none) ∧
    (dispatch_event empty_session (CUDBGEvent.kernelReady 0 5 3 7 7 4096 ⟨1, 1, 1⟩ ⟨32, 1, 1⟩
      CUDBG_KNL_TYPE_APPLICATION)).state.inferior_ptid = empty_session.inferior_ptid ∧
    (∃ calls : List effect,
      (dispatch_event empty_session (CUDBGEvent.kernelReady 0 5 3 7 7 4096 ⟨1, 1, 1⟩
        ⟨32, 1, 1⟩ CUDBG_KNL_TYPE_APPLICATION)).state.trace = empty_session.trace ++ calls ∧
      ∀ ptid, effect.set_inferior_ptid ptid ∉ calls) ∧
    (dispatch_event empty_session (CUDBGEvent.kernelReady 0 5 3 7 7 4096 ⟨1, 1, 1⟩ ⟨32, 1, 1⟩
      CUDBG_KNL_TYPE_APPLICATION)).state.kernels 0 7 =
      some { virt_code_base := 4096, context_id := 5, module_id := 3,
             grid_dim := ⟨1, 1, 1⟩, block_dim := ⟨32, 1, 1⟩,
             type := CUDBG_KNL_TYPE_APPLICATION } :=
  ⟨⟨rfl, rfl⟩,
    (kernel_ready_keeps_focus empty_session 0 5 3 7 7 4096 ⟨1, 1, 1⟩ ⟨32, 1, 1⟩
      CUDBG_KNL_TYPE_APPLICATION rfl).1,
    (kernel_ready_keeps_focus empty_session 0 5 3 7 7 4096 ⟨1, 1, 1⟩ ⟨32, 1, 1⟩
      CUDBG_KNL_TYPE_APPLICATION rfl).2 rfl⟩

/-! ### Select masks with BREAKPOINT and EXCEPTION -/

theorem filter_checks_iff_agrees (s : cuda_state) (filter : Option cuda_coords_t)
    (dev sm wp ln : Nat) :
    filter_checks s filter dev sm wp ln = true ↔
      ∀ f, filter = some f →
        agrees_with f (candidate_record s CUDA_ITERATOR_TYPE_LANES dev sm wp ln) := by
  have hrec : candidate_record s CUDA_ITERATOR_TYPE_LANES dev sm wp ln =
      { valid := true, dev := dev, sm := sm, wp := wp, ln := ln,
        kernelId := warp_kernel_id s dev sm wp, gridId := warp_grid_id s dev sm wp,
        blockIdx := warp_block_idx s dev sm wp,
        threadIdx := lane_thread_idx s dev sm wp ln } := rfl
  cases filter with
  | none => simp [filter_checks, filter_rejects]
  | some f =>
    rw [hrec]
    simp only [filter_checks, Bool.and_eq_true, Bool.not_eq_true', filter_rejects_false_iff,
      agrees_with, Option.some.injEq, forall_eq']
    tauto

theorem lanes_selected (qsort : qsort_t) (s : cuda_state) (filter : Option cuda_coords_t)
    (select_mask : Nat) (hv : select_has select_mask CUDA_SELECT_VALID = true) :
    ∃ visited final,
      cuda_iterator_traverse (cuda_iterator_create qsort s CUDA_ITERATOR_TYPE_LANES filter
        select_mask) = some (visited, final) ∧
      (visited.map physical_tuple).Nodup ∧
      ∀ dev sm wp ln, (dev, sm, wp, ln) ∈ visited.map physical_tuple ↔
        valid_lane_matching s filter dev sm wp ln ∧
        (select_has select_mask CUDA_SELECT_BKPT = true →
          s.breakpoint_here_p (iterator_aspace s) (s.lane_get_virtual_pc dev sm wp ln) = true) ∧
        (select_has select_mask CUDA_SELECT_EXCPT = true →
          s.lane_get_exception dev sm wp ln ≠ 0) := by
  refine ⟨_, _, create_traverse qsort s _ filter _, ?_, ?_⟩
  · have h := visited_strict qsort s CUDA_ITERATOR_TYPE_LANES filter select_mask
      (by decide) (record_determined_lanes s)
    rw [List.Nodup, List.pairwise_map]
    refine h.imp ?_
    intro a b hab heq
    rw [compare_physical_lt_iff, heq] at hab
    simp only [tuple_lt] at hab
    omega
  · intro dev sm wp ln
    have hpass : ∀ d s' w l, candidate_passes s filter select_mask d s' w l = true ↔
        (valid_lane_matching s filter d s' w l ∧
        (select_has select_mask CUDA_SELECT_BKPT = true →
          s.breakpoint_here_p (iterator_aspace s) (s.lane_get_virtual_pc d s' w l) = true) ∧
        (select_has select_mask CUDA_SELECT_EXCPT = true →
          s.lane_get_exception d s' w l ≠ 0)) := by
      intro d s' w l
      rw [candidate_passes_eq]
      simp only [Bool.and_eq_true, filter_checks_iff_agrees, valid_lane_matching]
      simp only [in_bounds, validity_checks, breakpoint_check, exception_check, hv,
        Bool.and_eq_true, decide_eq_true_eq, Bool.true_and, Bool.not_not, Bool.not_eq_true',
        Bool.and_eq_false_iff, Bool.not_eq_false', beq_eq_false_iff_ne, ne_eq,
        Bool.not_eq_false]
      constructor
      · rintro ⟨⟨⟨⟨hb, hval⟩, hf⟩, hbp⟩, hex⟩
        refine ⟨⟨hb.1.1.1, hb.1.1.2, hb.1.2, hb.2, hval.1.1, hval.1.2, hval.2, hf⟩, ?_, ?_⟩
        · intro hm
          simp [hm, hval.1.2, hval.2] at hbp
          exact hbp
        · intro hm
          simp [hm, hval.1.2, hval.2] at hex
          exact hex
      · rintro ⟨⟨h1, h2, h3, h4, h5, h6, h7, hf⟩, hbp, hex⟩
        refine ⟨⟨⟨⟨⟨⟨⟨h1, h2⟩, h3⟩, h4⟩, ⟨h5, h6⟩, h7⟩, hf⟩, ?_⟩, ?_⟩
        · cases hm : select_has select_mask CUDA_SELECT_BKPT
          · simp
          · simp [hbp hm]
        · cases hm : select_has select_mask CUDA_SELECT_EXCPT
          · simp
          · simp [hex hm]
    have htuple : ∀ d s' w l,
        physical_tuple (candidate_record s CUDA_ITERATOR_TYPE_LANES d s' w l) = (d, s', w, l) := by
      intro d s' w l
      rfl
    simp only [List.mem_map]
    constructor
    · rintro ⟨c, hc, hct⟩
      obtain ⟨d, s', w, l, hp, rfl⟩ := (mem_visited qsort s _ filter _ c).mp hc
      rw [htuple] at hct
      cases hct
      exact (hpass _ _ _ _).mp hp
    · intro h
      exact ⟨candidate_record s CUDA_ITERATOR_TYPE_LANES dev sm wp ln,
        (mem_visited qsort s _ filter _ _).mpr ⟨dev, sm, wp, ln, (hpass _ _ _ _).mpr h, rfl⟩,
        htuple _ _ _ _⟩

/-- C26: for type LANES, whatever the filter and the device state, the traversal
terminates and the (dev, sm, wp, ln) of the coordinates it yields, each once, are: with
select mask VALID|BREAKPOINT, exactly the candidates of the coordinate space whose
device, warp and lane are valid, that agree with the filter, and for whose virtual PC
`breakpoint_here_p` holds; with VALID|EXCEPTION, exactly those whose lane exception is
not `CUDBG_EXCEPTION_NONE` (0); with VALID|BREAKPOINT|EXCEPTION, exactly those that
satisfy both. -/
theorem lanes_at_breakpoint_or_exception (qsort : qsort_t) (s : cuda_state)
    (filter : Option cuda_coords_t) :
    (∃ visited final,
      cuda_iterator_traverse (cuda_iterator_create qsort s CUDA_ITERATOR_TYPE_LANES filter
        (CUDA_SELECT_VALID ||| CUDA_SELECT_BKPT)) = some (visited, final) ∧
      (visited.map physical_tuple).Nodup ∧
      ∀ dev sm wp ln, (dev, sm, wp, ln) ∈ visited.map physical_tuple ↔
        valid_lane_matching s filter dev sm wp ln ∧
        s.breakpoint_here_p (iterator_aspace s) (s.lane_get_virtual_pc dev sm wp ln) = true) ∧
    (∃ visited final,
      cuda_iterator_traverse (cuda_iterator_create qsort s CUDA_ITERATOR_TYPE_LANES filter
        (CUDA_SELECT_VALID ||| CUDA_SELECT_EXCPT)) = some (visited, final) ∧
      (visited.map physical_tuple).Nodup ∧
      ∀ dev sm wp ln, (dev, sm, wp, ln) ∈ visited.map physical_tuple ↔
        valid_lane_matching s filter dev sm wp ln ∧
        s.lane_get_exception dev sm wp ln ≠ 0) ∧
    (∃ visited final,
      cuda_iterator_traverse (cuda_iterator_create qsort s CUDA_ITERATOR_TYPE_LANES filter
        (CUDA_SELECT_VALID ||| CUDA_SELECT_BKPT ||| CUDA_SELECT_EXCPT)) =
        some (visited, final) ∧
      (visited.map physical_tuple).Nodup ∧
      ∀ dev sm wp ln, (dev, sm, wp, ln) ∈ visited.map physical_tuple ↔
        valid_lane_matching s filter dev sm wp ln ∧
        s.breakpoint_here_p (iterator_aspace s) (s.lane_get_virtual_pc dev sm wp ln) = true ∧
        s.lane_get_exception dev sm wp ln ≠ 0) := by
  refine ⟨?_, ?_, ?_⟩
  · obtain ⟨visited, final, ht, hn, hm⟩ := lanes_selected qsort s filter
      (CUDA_SELECT_VALID ||| CUDA_SELECT_BKPT) (by decide)
    refine ⟨visited, final, ht, hn, ?_⟩
    intro dev sm wp ln
    rw [hm]
    have h1 : select_has (CUDA_SELECT_VALID ||| CUDA_SELECT_BKPT) CUDA_SELECT_BKPT = true := by
      decide
    have h2 : select_has (CUDA_SELECT_VALID ||| CUDA_SELECT_BKPT) CUDA_SELECT_EXCPT = false := by
      decide
    simp [h1, h2]
  · obtain ⟨visited, final, ht, hn, hm⟩ := lanes_selected qsort s filter
      (CUDA_SELECT_VALID ||| CUDA_SELECT_EXCPT) (by decide)
    refine ⟨visited, final, ht, hn, ?_⟩
    intro dev sm wp ln
    rw [hm]
    have h1 : select_has (CUDA_SELECT_VALID ||| CUDA_SELECT_EXCPT) CUDA_SELECT_BKPT = false := by
      decide
    have h2 : select_has (CUDA_SELECT_VALID ||| CUDA_SELECT_EXCPT) CUDA_SELECT_EXCPT = true := by
      decide
    simp [h1, h2]
  · obtain ⟨visited, final, ht, hn, hm⟩ := lanes_selected qsort s filter
      (CUDA_SELECT_VALID ||| CUDA_SELECT_BKPT ||| CUDA_SELECT_EXCPT) (by decide)
    refine ⟨visited, final, ht, hn, ?_⟩
    intro dev sm wp ln
    rw [hm]
    have h1 : select_has (CUDA_SELECT_VALID ||| CUDA_SELECT_BKPT ||| CUDA_SELECT_EXCPT)
        CUDA_SELECT_BKPT = true := by decide
    have h2 : select_has (CUDA_SELECT_VALID ||| CUDA_SELECT_BKPT ||| CUDA_SELECT_EXCPT)
        CUDA_SELECT_EXCPT = true := by decide
    simp [h1, h2]

/-- C26 at a concrete input: in `broken_lanes_state` the valid lanes are those of the
warps (0, 0, 0) and (0, 1, 1); lane 1 of each is at the breakpoint and the lanes of SM 1
report an exception. -/
theorem lanes_at_breakpoint_or_exception_witness :
    ((cuda_iterator_traverse (cuda_iterator_create stable_qsort broken_lanes_state
        CUDA_ITERATOR_TYPE_LANES none (CUDA_SELECT_VALID ||| CUDA_SELECT_BKPT))).map
        (fun r => r.1.map physical_tuple) = some [(0, 0, 0, 1), (0, 1, 1, 1)] ∧
     (cuda_iterator_traverse (cuda_iterator_create stable_qsort broken_lanes_state
        CUDA_ITERATOR_TYPE_LANES none (CUDA_SELECT_VALID ||| CUDA_SELECT_EXCPT))).map
        (fun r => r.1.map physical_tuple) = some [(0, 1, 1, 0), (0, 1, 1, 1)] ∧
     (cuda_iterator_traverse (cuda_iterator_create stable_qsort broken_lanes_state
        CUDA_ITERATOR_TYPE_LANES none
        (CUDA_SELECT_VALID ||| CUDA_SELECT_BKPT ||| CUDA_SELECT_EXCPT))).map
        (fun r => r.1.map physical_tuple) = some [(0, 1, 1, 1)]) ∧
    ∃ visited final,
      cuda_iterator_traverse (cuda_iterator_create stable_qsort broken_lanes_state
        CUDA_ITERATOR_TYPE_LANES none (CUDA_SELECT_VALID ||| CUDA_SELECT_BKPT)) =
        some (visited, final) ∧
      (visited.map physical_tuple).Nodup ∧
      ∀ dev sm wp ln, (dev, sm, wp, ln) ∈ visited.map physical_tuple ↔
        valid_lane_matching broken_lanes_state none dev sm wp ln ∧
        broken_lanes_state.breakpoint_here_p (iterator_aspace broken_lanes_state)
          (broken_lanes_state.lane_get_virtual_pc dev sm wp ln) = true :=
  ⟨⟨by decide, by decide, by decide⟩,
    (lanes_at_breakpoint_or_exception stable_qsort broken_lanes_state none).1⟩

/-! ### Devices -/

theorem candidate_record_devices_dev (s : cuda_state) (dev sm wp ln : Nat) :
    candidate_record s CUDA_ITERATOR_TYPE_DEVICES dev sm wp ln =
      { valid := true, dev := dev, sm := CUDA_WILDCARD, wp := CUDA_WILDCARD,
        ln := CUDA_WILDCARD, kernelId := CUDA_WILDCARD, gridId := CUDA_WILDCARD,
        blockIdx := ⟨CUDA_WILDCARD, CUDA_WILDCARD, CUDA_WILDCARD⟩,
        threadIdx := ⟨CUDA_WILDCARD, CUDA_WILDCARD, CUDA_WILDCARD⟩ } := rfl

theorem mem_visited_devices (qsort : qsort_t) (s : cuda_state)
    (filter : Option cuda_coords_t) (select_mask d : Nat) :
    d ∈ (run_heads (cuda_iterator_create qsort s CUDA_ITERATOR_TYPE_DEVICES filter
        select_mask).list).map (fun c => c.dev) ↔
      ∃ sm wp ln, candidate_passes s filter select_mask d sm wp ln = true := by
  simp only [List.mem_map]
  constructor
  · rintro ⟨c, hc, hd⟩
    obtain ⟨dev, sm, wp, ln, hp, rfl⟩ := (mem_visited qsort s _ filter select_mask c).mp hc
    rw [candidate_record_devices_dev] at hd
    simp only at hd
    subst hd
    exact ⟨sm, wp, ln, hp⟩
  · rintro ⟨sm, wp, ln, hp⟩
    exact ⟨candidate_record s CUDA_ITERATOR_TYPE_DEVICES d sm wp ln,
      (mem_visited qsort s _ filter select_mask _).mpr ⟨d, sm, wp, ln, hp, rfl⟩, rfl⟩

/-- C28: for type DEVICES, whatever the filter, select mask and device state, the
traversal terminates; device `d` is among the devices it yields exactly when some
(sm, wp, ln) of `d` is inside the loop bounds and passes the validity, filter,
breakpoint and exception checks; the devices are yielded in strictly increasing order,
so each at most once.  Hence a device that reports zero SMs, zero warps or zero lanes is
never yielded, and when the select mask contains VALID a device without a valid lane in
a valid warp is not yielded. -/
theorem devices_yielded_iff (qsort : qsort_t) (s : cuda_state)
    (filter : Option cuda_coords_t) (select_mask : Nat) :
    ∃ visited final,
      cuda_iterator_traverse (cuda_iterator_create qsort s CUDA_ITERATOR_TYPE_DEVICES filter
        select_mask) = some (visited, final) ∧
      (∀ d, d ∈ visited.map (fun c => c.dev) ↔
        ∃ sm wp ln, in_bounds s d sm wp ln = true ∧
          validity_checks s select_mask d sm wp ln = true ∧
          filter_checks s filter d sm wp ln = true ∧
          breakpoint_check s select_mask d sm wp ln = true ∧
          exception_check s select_mask d sm wp ln = true) ∧
      List.Pairwise (fun a b => a < b) (visited.map (fun c => c.dev)) ∧
      (∀ d, (s.device_get_num_sms d = 0 ∨ s.device_get_num_warps d = 0 ∨
          s.device_get_num_lanes d = 0) → d ∉ visited.map (fun c => c.dev)) ∧
      (select_has select_mask CUDA_SELECT_VALID = true →
        ∀ d, (∀ sm wp ln, sm < s.device_get_num_sms d → wp < s.device_get_num_warps d →
            ln < s.device_get_num_lanes d →
            ¬ (s.warp_is_valid d sm wp = true ∧ s.lane_is_valid d sm wp ln = true)) →
          d ∉ visited.map (fun c => c.dev)) := by
  have hmem : ∀ d, d ∈ (run_heads (cuda_iterator_create qsort s CUDA_ITERATOR_TYPE_DEVICES
      filter select_mask).list).map (fun c => c.dev) ↔
      ∃ sm wp ln, in_bounds s d sm wp ln = true ∧
        validity_checks s select_mask d sm wp ln = true ∧
        filter_checks s filter d sm wp ln = true ∧
        breakpoint_check s select_mask d sm wp ln = true ∧
        exception_check s select_mask d sm wp ln = true := by
    intro d
    rw [mem_visited_devices]
    simp only [candidate_passes_eq, Bool.and_eq_true, and_assoc]
  refine ⟨_, _, create_traverse qsort s _ filter select_mask, hmem, ?_, ?_, ?_⟩
  · have h := visited_strict qsort s CUDA_ITERATOR_TYPE_DEVICES filter select_mask
      (by decide) (record_determined_devices s)
    rw [List.pairwise_map]
    refine List.Pairwise.imp_of_mem ?_ h
    intro a b ha hb hab
    obtain ⟨d1, s1, w1, l1, _, rfl⟩ := (mem_visited qsort s _ filter select_mask a).mp ha
    obtain ⟨d2, s2, w2, l2, _, rfl⟩ := (mem_visited qsort s _ filter select_mask b).mp hb
    rw [compare_physical_lt_iff] at hab
    simp only [candidate_record_devices_dev, physical_tuple, tuple_lt] at hab ⊢
    omega
  · intro d hz hd
    obtain ⟨sm, wp, ln, hb, _⟩ := (hmem d).mp hd
    simp only [in_bounds, Bool.and_eq_true, decide_eq_true_eq] at hb
    omega
  · intro hv d hnone hd
    obtain ⟨sm, wp, ln, hb, hval, _⟩ := (hmem d).mp hd
    simp only [in_bounds, Bool.and_eq_true, decide_eq_true_eq] at hb
    simp only [validity_checks, hv, Bool.true_and, Bool.not_not, Bool.and_eq_true] at hval
    exact hnone sm wp ln hb.1.1.2 hb.1.2 hb.2 ⟨hval.1.2, hval.2⟩

/-- C28 at a concrete input: with an empty select mask and no filter, the DEVICES
traversal of `idle_device_state` yields device 1 only; device 0 has no SM. -/
theorem devices_yielded_iff_witness :
    (idle_device_state.device_get_num_sms 0 = 0 ∧
     (cuda_iterator_traverse (cuda_iterator_create stable_qsort idle_device_state
        CUDA_ITERATOR_TYPE_DEVICES none 0)).map (fun r => r.1.map (fun c => c.dev)) =
      some [1]) ∧
    ∃ visited final,
      cuda_iterator_traverse (cuda_iterator_create stable_qsort idle_device_state
        CUDA_ITERATOR_TYPE_DEVICES none 0) = some (visited, final) ∧
      (∀ d, d ∈ visited.map (fun c => c.dev) ↔
        ∃ sm wp ln, in_bounds idle_device_state d sm wp ln = true ∧
          validity_checks idle_device_state 0 d sm wp ln = true ∧
          filter_checks idle_device_state none d sm wp ln = true ∧
          breakpoint_check idle_device_state 0 d sm wp ln = true ∧
          exception_check idle_device_state 0 d sm wp ln = true) ∧
      List.Pairwise (fun a b => a < b) (visited.map (fun c => c.dev)) ∧
      (∀ d, (idle_device_state.device_get_num_sms d = 0 ∨
          idle_device_state.device_get_num_warps d = 0 ∨
          idle_device_state.device_get_num_lanes d = 0) → d ∉ visited.map (fun c => c.dev)) ∧
      (select_has 0 CUDA_SELECT_VALID = true →
        ∀ d, (∀ sm wp ln, sm < idle_device_state.device_get_num_sms d →
            wp < idle_device_state.device_get_num_warps d →
            ln < idle_device_state.device_get_num_lanes d →
            ¬ (idle_device_state.warp_is_valid d sm wp = true ∧
               idle_device_state.lane_is_valid d sm wp ln = true)) →
          d ∉ visited.map (fun c => c.dev)) :=
  ⟨⟨rfl, by decide⟩, devices_yielded_iff stable_qsort idle_device_state none 0⟩

/-! ### Handlers that fail -/

theorem process_loop_stops (pre : List CUDBGEvent) :
    ∀ (s : cuda_session) (e0 : CUDBGEvent) (rest : List CUDBGEvent) (bad : CUDBGEvent)
      (fuel : Nat) (tail : List driver_answer) (f : failure),
      pre ++ [bad] = e0 :: rest → rest.length + 1 ≤ fuel →
      (pre ≠ [] → s.api_initialized = true) →
      s.driver_events = rest.map delivered ++ tail →
      (∀ e ∈ pre ++ [bad], e.kind ≠ CUDBG_EVENT_INVALID) →
      (run_handlers s pre).failure = none →
      (dispatch_event (run_handlers s pre).state bad).failure = some f →
      process_loop fuel s e0 =
        some { state := set_driver_events
                 (dispatch_event (run_handlers s pre).state bad).state tail,
               failure := some f } := by
  induction pre with
  | nil =>
    intro s e0 rest bad fuel tail f hseq hfuel _ hq hvalid _ hbad
    simp only [List.nil_append, List.cons.injEq] at hseq
    obtain ⟨rfl, rfl⟩ := hseq
    obtain ⟨fuel, rfl⟩ : ∃ k, fuel = k + 1 := ⟨fuel - 1, by simp at hfuel; omega⟩
    have hk : ¬ (bad.kind == CUDBG_EVENT_INVALID) = true := by
      simpa using hvalid bad (by simp)
    simp only [run_handlers] at hbad ⊢
    unfold process_loop
    simp only [hk, if_false, hbad]
    have hself := set_driver_events_self (dispatch_event s bad).state
    rw [dispatch_event_driver_events, hq] at hself
    simp only [List.map_nil, List.nil_append] at hself
    rw [hself]
    simp only [Bool.false_eq_true, if_false]
  | cons p pre ih =>
    intro s e0 rest bad fuel tail f hseq hfuel hi hq hvalid hok hbad
    simp only [List.cons_append, List.cons.injEq] at hseq
    obtain ⟨rfl, hrest⟩ := hseq
    have hi2 := hi (by simp)
    have hd : (dispatch_event s p).failure = none := by
      cases h : (dispatch_event s p).failure with
      | none => rfl
      | some g =>
        have : (run_handlers s (p :: pre)).failure = some g := by
          simp [run_handlers, h]
        rw [this] at hok
        exact absurd hok (by simp)
    have hrun : run_handlers s (p :: pre) = run_handlers (dispatch_event s p).state pre := by
      conv_lhs => unfold run_handlers
      simp only [hd]
    rw [hrun] at hok hbad ⊢
    have hne : pre ++ [bad] ≠ [] := by simp
    obtain ⟨e1, rest2, hsplit⟩ : ∃ e1 rest2, pre ++ [bad] = e1 :: rest2 := by
      cases hpb : pre ++ [bad] with
      | nil => exact absurd hpb hne
      | cons a t => exact ⟨a, t, rfl⟩
    rw [hsplit] at hrest
    subst hrest
    obtain ⟨fuel, rfl⟩ : ∃ k, fuel = k + 1 := ⟨fuel - 1, by simp at hfuel; omega⟩
    have hk : ¬ (p.kind == CUDBG_EVENT_INVALID) = true := by
      simpa using hvalid p (by simp)
    have hri := (dispatch_event_api_initialized s p hd).trans hi2
    have hrq : (dispatch_event s p).state.driver_events =
        delivered e1 :: (rest2.map delivered ++ tail) := by
      rw [dispatch_event_driver_events, hq]; rfl
    have hframe := sde_run_handlers pre (dispatch_event s p).state
      (rest2.map delivered ++ tail)
    have hstep := ih (set_driver_events (dispatch_event s p).state (rest2.map delivered ++ tail))
      e1 rest2 bad fuel tail f hsplit (by simp at hfuel ⊢; omega) (fun _ => hri) rfl
      (fun e he => hvalid e (by simp at he ⊢; exact Or.inr he))
      (by rw [hframe]; exact hok)
      (by rw [hframe, sde_dispatch_event]; exact hbad)
    rw [hframe, sde_dispatch_event] at hstep
    simp only [set_driver_events_twice] at hstep
    unfold process_loop
    simp only [hk, if_false, hd]
    rw [get_next_event_at _ _ (delivered e1) _ hri hrq (Or.inl rfl)]
    exact hstep

theorem event_error_calls (x : cuda_session) :
    (cuda_event_error x).failure = some failure.unexpected_api_error ∧
    (cuda_event_error x).state.api_initialized = false ∧
    (cuda_event_error x).state.trace =
      x.trace ++ ([effect.cuda_cleanup] ++
        (if x.api_initialized = true then
          effect.driver_finalize ::
            (if x.driver_finalize_result = CUDBG_SUCCESS then []
             else [effect.warning_finalize_failed x.driver_finalize_result])
         else []) ++
        [effect.kill (x.cuda_gdb_get_tid x.inferior_ptid) SIGKILL]) := by
  cases hi : x.api_initialized <;>
    by_cases hr : x.driver_finalize_result = CUDBG_SUCCESS <;>
    simp [cuda_event_error, cuda_cleanup, cuda_api_finalize, record, hi, hr]

/-- C21: an ERROR event is always fatal.  From every session its handler calls
`cuda_cleanup` (which finalizes the API when it is initialized), then `kill` with
SIGKILL on the debugged process, and stops with the error "Unexpected error reported by
the CUDA debugger API"; it never returns normally.  When `cuda_process_events` meets an
ERROR event, as the event passed in or delivered by the driver after events whose
handlers returned normally, it stops with this error in the session the ERROR handler
left, and the answers of the driver that follow the ERROR event are still pending:
none of them is polled or handled. -/
theorem error_event_is_fatal (s : cuda_session) (pre : List CUDBGEvent) (e0 : CUDBGEvent)
    (rest : List CUDBGEvent) (tail : List driver_answer)
    (hseq : pre ++ [CUDBGEvent.error] = e0 :: rest)
    (hi : pre ≠ [] → s.api_initialized = true)
    (hq : s.driver_events = rest.map delivered ++ tail)
    (hvalid : ∀ e ∈ pre, e.kind ≠ CUDBG_EVENT_INVALID)
    (hok : (run_handlers s pre).failure = none) :
    (∀ x : cuda_session,
      (dispatch_event x CUDBGEvent.error).failure = some failure.unexpected_api_error ∧
      (dispatch_event x CUDBGEvent.error).state.trace =
        x.trace ++ ([effect.cuda_cleanup] ++
          (if x.api_initialized = true then
            effect.driver_finalize ::
              (if x.driver_finalize_result = CUDBG_SUCCESS then []
               else [effect.warning_finalize_failed x.driver_finalize_result])
           else []) ++
          [effect.kill (x.cuda_gdb_get_tid x.inferior_ptid) SIGKILL])) ∧
    cuda_process_events s e0 =
      some { state := set_driver_events
               (dispatch_event (run_handlers s pre).state CUDBGEvent.error).state tail,
             failure := some failure.unexpected_api_error } := by
  constructor
  · intro x
    exact ⟨(event_error_calls x).1, (event_error_calls x).2.2⟩
  · refine process_loop_stops pre s e0 rest CUDBGEvent.error _ tail _ hseq
      (by rw [hq]; simp; omega) hi hq ?_ hok (event_error_calls _).1
    intro e he
    simp only [List.mem_append, List.mem_singleton] at he
    rcases he with he | rfl
    · exact hvalid e he
    · decide

/-- C21 at a concrete input: CTX_CREATE is passed in, the driver then delivers another
CTX_CREATE, an ERROR and a TIMEOUT; the TIMEOUT stays pending. -/
theorem error_event_is_fatal_witness :
    ([CUDBGEvent.contextCreate 0 5 1, CUDBGEvent.contextCreate 0 6 2] ++ [CUDBGEvent.error] =
        CUDBGEvent.contextCreate 0 5 1 :: [CUDBGEvent.contextCreate 0 6 2, CUDBGEvent.error] ∧
     failing_session.api_initialized = true ∧
     failing_session.driver_events =
       [CUDBGEvent.contextCreate 0 6 2, CUDBGEvent.error].map delivered ++
         [delivered CUDBGEvent.timeout] ∧
     (run_handlers failing_session
       [CUDBGEvent.contextCreate 0 5 1, CUDBGEvent.contextCreate 0 6 2]).failure = none) ∧
    cuda_process_events failing_session (CUDBGEvent.contextCreate 0 5 1) =
      some { state := set_driver_events
               (dispatch_event (run_handlers failing_session
                 [CUDBGEvent.contextCreate 0 5 1, CUDBGEvent.contextCreate 0 6 2]).state
                 CUDBGEvent.error).state [delivered CUDBGEvent.timeout],
             failure := some failure.unexpected_api_error } :=
  ⟨⟨rfl, rfl, rfl, rfl⟩,
    (error_event_is_fatal failing_session
      [CUDBGEvent.contextCreate 0 5 1, CUDBGEvent.contextCreate 0 6 2]
      (CUDBGEvent.contextCreate 0 5 1) [CUDBGEvent.contextCreate 0 6 2, CUDBGEvent.error]
      [delivered CUDBGEvent.timeout] rfl (fun _ => rfl) rfl (by decide) rfl).2⟩

/-! ### CTX_DESTROY, ELF_IMAGE_LOADED, CTX_POP -/

theorem clear_current_eq (x : cuda_session) (c : context_t) :
    (if c = x.current_context then set_current_context x none else x).current_context =
      if x.current_context = c then none else x.current_context := by
  by_cases h : c = x.current_context
  · simp [h, set_current_context, record]
  · have h2 : ¬ x.current_context = c := fun e => h e.symm
    simp [h, h2]

theorem destroy_present_context (x : cuda_session) (dev context tid : Nat)
    (ht : tid ≠ INVALID_TID) (hreg : (x.contexts dev).registry context ≠ none) :
    (cuda_event_destroy_context x dev context tid).failure = none ∧
    (cuda_event_destroy_context x dev context tid).state.contexts =
      Function.update x.contexts dev
        { registry := Function.update (x.contexts dev).registry context none,
          thread_stacks :=
            if contexts_get_active_context x dev tid =
                some { context_id := context, dev_id := dev } then
              Function.update (x.contexts dev).thread_stacks tid
                ((x.contexts dev).thread_stacks tid).tail
            else (x.contexts dev).thread_stacks } ∧
    (cuda_event_destroy_context x dev context tid).state.current_context =
      if x.current_context = some { context_id := context, dev_id := dev } then none
      else x.current_context := by
  have ht2 : (tid == INVALID_TID) = false := by simpa using ht
  have hfind : contexts_find_context_by_id x dev context =
      some { context_id := context, dev_id := dev } := by
    unfold contexts_find_context_by_id
    cases h : (x.contexts dev).registry context with
    | none => exact absurd h hreg
    | some m => rfl
  by_cases hact : contexts_get_active_context x dev tid =
      some { context_id := context, dev_id := dev }
  · obtain ⟨below, hst⟩ : ∃ below, (x.contexts dev).thread_stacks tid =
        some { context_id := context, dev_id := dev } :: below := by
      unfold contexts_get_active_context at hact
      cases hs : (x.contexts dev).thread_stacks tid with
      | nil => rw [hs] at hact; simp at hact
      | cons top below => rw [hs] at hact; simp at hact; exact ⟨below, by rw [hact]⟩
    have hun : contexts_unstack_context x dev tid =
        (put_thread_stacks x dev (Function.update (x.contexts dev).thread_stacks tid below),
          some { context_id := context, dev_id := dev }) := by
      unfold contexts_unstack_context
      rw [hst]
    simp only [cuda_event_destroy_context, ht2, Bool.false_eq_true, if_false, hfind, hact, hun,
      if_true]
    refine ⟨trivial, ?_, ?_⟩
    · rw [show_context_event_contexts]
      simp only [contexts_remove_context, put_registry, cuda_unresolve_breakpoints,
        cuda_cleanup_auto_breakpoints, record, clear_current_contexts]
      simp [put_thread_stacks, hst]
    · rw [show_context_event_current_context]
      simp only [contexts_remove_context, put_registry, cuda_unresolve_breakpoints,
        cuda_cleanup_auto_breakpoints, record]
      exact clear_current_eq _ _
  · simp only [cuda_event_destroy_context, ht2, Bool.false_eq_true, if_false, hfind, hact]
    refine ⟨trivial, ?_, ?_⟩
    · rw [show_context_event_contexts]
      simp only [contexts_remove_context, put_registry, cuda_unresolve_breakpoints,
        cuda_cleanup_auto_breakpoints, record, clear_current_contexts]
    · rw [show_context_event_current_context]
      simp only [contexts_remove_context, put_registry, cuda_unresolve_breakpoints,
        cuda_cleanup_auto_breakpoints, record]
      exact clear_current_eq _ _

/-- C22: the handler of CTX_DESTROY, given a valid thread id and a context `c` that the
registry of the device holds, returns normally.  When `c` is the top of the thread's
context stack on the device, that stack loses its top and every other stack is as it
was; otherwise every stack is as it was.  The current context becomes none when it was
`c` and is unchanged otherwise.  Afterwards the lookup of the context id in the
registry of the device finds nothing, and the other contexts of the registry are as
they were. -/
theorem destroy_context_effects (s : cuda_session) (dev context tid : Nat)
    (ht : tid ≠ INVALID_TID) (hreg : (s.contexts dev).registry context ≠ none) :
    (dispatch_event s (CUDBGEvent.contextDestroy dev context tid)).failure = none ∧
    (contexts_get_active_context s dev tid = some { context_id := context, dev_id := dev } →
      ((dispatch_event s (CUDBGEvent.contextDestroy dev context tid)).state.contexts
          dev).thread_stacks tid = ((s.contexts dev).thread_stacks tid).tail ∧
      ∀ d t, ¬ (d = dev ∧ t = tid) →
        ((dispatch_event s (CUDBGEvent.contextDestroy dev context tid)).state.contexts
          d).thread_stacks t = (s.contexts d).thread_stacks t) ∧
    (contexts_get_active_context s dev tid ≠ some { context_id := context, dev_id := dev } →
      ∀ d t, ((dispatch_event s (CUDBGEvent.contextDestroy dev context tid)).state.contexts
          d).thread_stacks t = (s.contexts d).thread_stacks t) ∧
    (dispatch_event s (CUDBGEvent.contextDestroy dev context tid)).state.current_context =
      (if s.current_context = some { context_id := context, dev_id := dev } then none
       else s.current_context) ∧
    contexts_find_context_by_id
      (dispatch_event s (CUDBGEvent.contextDestroy dev context tid)).state dev context = none ∧
    ∀ d other, ¬ (d = dev ∧ other = context) →
      ((dispatch_event s (CUDBGEvent.contextDestroy dev context tid)).state.contexts
        d).registry other = (s.contexts d).registry other := by
  have h := destroy_present_context s dev context tid ht hreg
  simp only [dispatch_event]
  refine ⟨h.1, ?_, ?_, h.2.2, ?_, ?_⟩
  · intro hact
    rw [h.2.1]
    refine ⟨by simp [hact], ?_⟩
    intro d t hdt
    by_cases hd : d = dev
    · subst hd
      have htt : t ≠ tid := fun e => hdt ⟨rfl, e⟩
      simp [hact, Function.update_noteq htt]
    · simp [Function.update_noteq hd]
  · intro hact d t
    rw [h.2.1]
    by_cases hd : d = dev
    · subst hd
      simp [hact]
    · simp [Function.update_noteq hd]
  · simp [contexts_find_context_by_id, h.2.1]
  · intro d other hdo
    rw [h.2.1]
    by_cases hd : d = dev
    · subst hd
      have hoc : other ≠ context := fun e => hdo ⟨rfl, e⟩
      simp [Function.update_noteq hoc]
    · simp [Function.update_noteq hd]

/-- C22 at a concrete input: in `current_context_session` thread 1 has context 5 of
device 0 on top of its stack and context 5 is the current context; CTX_DESTROY by
thread 1 pops it and clears the current context, CTX_DESTROY by thread 2 leaves the
stack of thread 1 alone. -/
theorem destroy_context_effects_witness :
    ((1 : Nat) ≠ INVALID_TID ∧ (current_context_session.contexts 0).registry 5 ≠ none) ∧
    (contexts_get_active_context current_context_session 0 1 =
        some { context_id := 5, dev_id := 0 } ∧
     ((dispatch_event current_context_session
        (CUDBGEvent.contextDestroy 0 5 1)).state.contexts 0).thread_stacks 1 = [] ∧
     ((dispatch_event current_context_session
        (CUDBGEvent.contextDestroy 0 5 2)).state.contexts 0).thread_stacks 1 =
        [some { context_id := 5, dev_id := 0 }] ∧
     (dispatch_event current_context_session
        (CUDBGEvent.contextDestroy 0 5 1)).state.current_context = none) ∧
    (dispatch_event current_context_session (CUDBGEvent.contextDestroy 0 5 1)).failure = none ∧
    contexts_find_context_by_id
      (dispatch_event current_context_session (CUDBGEvent.contextDestroy 0 5 1)).state 0 5 =
      none :=
  ⟨⟨by decide, by decide⟩, ⟨by decide, by decide, by decide, by decide⟩,
    (destroy_context_effects current_context_session 0 5 1 (by decide) (by decide)).1,
    (destroy_context_effects current_context_session 0 5 1 (by decide) (by decide)).2.2.2.2.1⟩

/-- C23: the handler of ELF_IMAGE_LOADED, for a context that the registry of the device
holds, returns normally; it requests the resolution of breakpoints against the image
(`cuda_resolve_breakpoints`) in a session in which the module is already added and the
current context already set.  Afterwards the modules of the context are the new module
(the event's module id, image address and size) followed by the previous ones, the
current context is this context, the calls made are `set_current_context` and then
`cuda_resolve_breakpoints`, and the other contexts, every context stack and the kernels
are as they were. -/
theorem load_elf_image_effects (s : cuda_session) (dev context module image size : Nat)
    (old : context_st) (hreg : (s.contexts dev).registry context = some old) :
    dispatch_event s (CUDBGEvent.elfImageLoaded dev context module image size) =
      { state := cuda_resolve_breakpoints
          (set_current_context
            (modules_add s dev { context_id := context, dev_id := dev } module image size)
            (some { context_id := context, dev_id := dev })) image,
        failure := none } ∧
    ((dispatch_event s (CUDBGEvent.elfImageLoaded dev context module image size)).state.contexts
        dev).registry context =
      some { modules := { module_id := module, elf_image := image, elf_image_size := size } ::
        old.modules } ∧
    (dispatch_event s (CUDBGEvent.elfImageLoaded dev context module image
        size)).state.current_context = some { context_id := context, dev_id := dev } ∧
    (dispatch_event s (CUDBGEvent.elfImageLoaded dev context module image size)).state.trace =
      s.trace ++ [effect.set_current_context (some { context_id := context, dev_id := dev }),
        effect.cuda_resolve_breakpoints image] ∧
    (∀ d other, ¬ (d = dev ∧ other = context) →
      ((dispatch_event s (CUDBGEvent.elfImageLoaded dev context module image
        size)).state.contexts d).registry other = (s.contexts d).registry other) ∧
    (∀ d, ((dispatch_event s (CUDBGEvent.elfImageLoaded dev context module image
        size)).state.contexts d).thread_stacks = (s.contexts d).thread_stacks) ∧
    (dispatch_event s (CUDBGEvent.elfImageLoaded dev context module image size)).state.kernels =
      s.kernels := by
  have hfind : device_find_context_by_id s dev context =
      some { context_id := context, dev_id := dev } := by
    simp [device_find_context_by_id, contexts_find_context_by_id, hreg]
  have hrun : dispatch_event s (CUDBGEvent.elfImageLoaded dev context module image size) =
      { state := cuda_resolve_breakpoints
          (set_current_context
            (modules_add s dev { context_id := context, dev_id := dev } module image size)
            (some { context_id := context, dev_id := dev })) image,
        failure := none } := by
    simp only [dispatch_event, cuda_event_load_elf_image, hfind]
  rw [hrun]
  refine ⟨rfl, ?_, ?_, ?_, ?_, ?_, ?_⟩
  · simp [cuda_resolve_breakpoints, set_current_context, record, modules_add, hreg,
      put_registry]
  · simp [cuda_resolve_breakpoints, set_current_context, record]
  · simp [cuda_resolve_breakpoints, set_current_context, record, modules_add, hreg,
      put_registry]
  · intro d other hdo
    by_cases hd : d = dev
    · subst hd
      have hoc : other ≠ context := fun e => hdo ⟨rfl, e⟩
      simp [cuda_resolve_breakpoints, set_current_context, record, modules_add, hreg,
        put_registry, Function.update_noteq hoc]
    · simp [cuda_resolve_breakpoints, set_current_context, record, modules_add, hreg,
        put_registry, Function.update_noteq hd]
  · intro d
    by_cases hd : d = dev
    · subst hd
      simp [cuda_resolve_breakpoints, set_current_context, record, modules_add, hreg,
        put_registry]
    · simp [cuda_resolve_breakpoints, set_current_context, record, modules_add, hreg,
        put_registry, Function.update_noteq hd]
  · simp [cuda_resolve_breakpoints, set_current_context, record, modules_add, hreg,
      put_registry]

/-- C23 at a concrete input: module 3 with an image of 128 bytes at 4096 is loaded for
context 5 of device 0, which has no module yet. -/
theorem load_elf_image_effects_witness :
    (one_context_session.contexts 0).registry 5 = some { modules := [] } ∧
    ((dispatch_event one_context_session
        (CUDBGEvent.elfImageLoaded 0 5 3 4096 128)).state.contexts 0).registry 5 =
      some { modules := [{ module_id := 3, elf_image := 4096, elf_image_size := 128 }] } ∧
    (dispatch_event one_context_session
        (CUDBGEvent.elfImageLoaded 0 5 3 4096 128)).state.current_context =
      some { context_id := 5, dev_id := 0 } ∧
    (dispatch_event one_context_session (CUDBGEvent.elfImageLoaded 0 5 3 4096 128)).state.trace =
      one_context_session.trace ++
        [effect.set_current_context (some { context_id := 5, dev_id := 0 }),
         effect.cuda_resolve_breakpoints 4096] :=
  ⟨by decide,
    (load_elf_image_effects one_context_session 0 5 3 4096 128 { modules := [] }
      (by decide)).2.1,
    (load_elf_image_effects one_context_session 0 5 3 4096 128 { modules := [] }
      (by decide)).2.2.1,
    (load_elf_image_effects one_context_session 0 5 3 4096 128 { modules := [] }
      (by decide)).2.2.2.1⟩

/-- C27: when the handler of CTX_POP, given a valid thread id and a stack whose top is a
context with another id than the one the event names, fails its integrity check
(`gdb_assert`, line 130), the pop of line 128 has been applied: in the session at the
failure the stack of the thread is the previous stack without its top.  Nothing else
of the contexts has changed. -/
theorem pop_mismatch_keeps_pop (s : cuda_session) (dev context tid : Nat) (top : context_ref)
    (below : List context_t) (ht : tid ≠ INVALID_TID)
    (hst : (s.contexts dev).thread_stacks tid = some top :: below)
    (hne : top.context_id ≠ context) :
    (dispatch_event s (CUDBGEvent.contextPop dev context tid)).failure =
      some failure.assertion_failed ∧
    ((dispatch_event s (CUDBGEvent.contextPop dev context tid)).state.contexts
      dev).thread_stacks tid = below ∧
    (∀ d t, ¬ (d = dev ∧ t = tid) →
      ((dispatch_event s (CUDBGEvent.contextPop dev context tid)).state.contexts
        d).thread_stacks t = (s.contexts d).thread_stacks t) ∧
    ∀ d, ((dispatch_event s (CUDBGEvent.contextPop dev context tid)).state.contexts
      d).registry = (s.contexts d).registry := by
  have ht2 : (tid == INVALID_TID) = false := by simpa using ht
  have hb : (top.context_id == context) = false := by simpa using hne
  simp only [dispatch_event, cuda_event_pop_context, ht2, Bool.false_eq_true, if_false,
    contexts_unstack_context, hst, hb]
  refine ⟨trivial, by simp [put_thread_stacks], ?_, ?_⟩
  · intro d t hdt
    by_cases hd : d = dev
    · subst hd
      have htt : t ≠ tid := fun e => hdt ⟨rfl, e⟩
      simp [put_thread_stacks, Function.update_noteq htt]
    · simp [put_thread_stacks, Function.update_noteq hd]
  · intro d
    by_cases hd : d = dev
    · subst hd
      simp [put_thread_stacks]
    · simp [put_thread_stacks, Function.update_noteq hd]

/-- C27 at a concrete input: thread 1 has context 5 on top of its stack and the event
names context 6. -/
theorem pop_mismatch_keeps_pop_witness :
    ((1 : Nat) ≠ INVALID_TID ∧
     (one_context_session.contexts 0).thread_stacks 1 =
       some { context_id := 5, dev_id := 0 } :: [] ∧ (5 : Nat) ≠ 6) ∧
    (dispatch_event one_context_session (CUDBGEvent.contextPop 0 6 1)).failure =
      some failure.assertion_failed ∧
    ((dispatch_event one_context_session (CUDBGEvent.contextPop 0 6 1)).state.contexts
      0).thread_stacks 1 = [] :=
  ⟨⟨by decide, by decide, by decide⟩,
    (pop_mismatch_keeps_pop one_context_session 0 6 1 { context_id := 5, dev_id := 0 } []
      (by decide) (by decide) (by decide)).1,
    (pop_mismatch_keeps_pop one_context_session 0 6 1 { context_id := 5, dev_id := 0 } []
      (by decide) (by decide) (by decide)).2.1⟩

/-! ### Polling the driver -/

/-- C24: `cuda_api_get_next_event` leaves an event of kind INVALID when none is pending.
When the API is not initialized it returns the event INVALID and the session as it was,
without an answer of the driver being consumed.  When the API is initialized and the
driver answers `CUDBG_ERROR_NO_EVENT_AVAILABLE` and leaves the event untouched, the
event is INVALID and no error is raised.  For every answer of the driver, an error is
raised exactly when the result is neither `CUDBG_SUCCESS` nor
`CUDBG_ERROR_NO_EVENT_AVAILABLE`, and the driver has been called once. -/
theorem get_next_event_invalid_when_none_pending (s : cuda_session) (event : CUDBGEvent)
    (answer : driver_answer) (later : List driver_answer) :
    (s.api_initialized = false →
      cuda_api_get_next_event s event =
        ({ state := s, failure := none }, CUDBGEvent.invalid)) ∧
    (s.api_initialized = true → s.driver_events = answer :: later →
      (answer.res = CUDBG_ERROR_NO_EVENT_AVAILABLE → answer.event = none →
        cuda_api_get_next_event s event =
          ({ state := set_driver_events s later, failure := none }, CUDBGEvent.invalid)) ∧
      ((cuda_api_get_next_event s event).1.failure ≠ none ↔
        answer.res ≠ CUDBG_SUCCESS ∧ answer.res ≠ CUDBG_ERROR_NO_EVENT_AVAILABLE) ∧
      (cuda_api_get_next_event s event).1.state = set_driver_events s later) := by
  constructor
  · intro hi
    simp [cuda_api_get_next_event, hi]
  · intro hi hq
    refine ⟨?_, ?_, ?_⟩
    · intro hres hev
      rw [get_next_event_at s event answer later hi hq (Or.inr hres), hev]
    · by_cases h1 : answer.res = CUDBG_SUCCESS
      · rw [get_next_event_at s event answer later hi hq (Or.inl h1)]
        simp [h1]
      · by_cases h2 : answer.res = CUDBG_ERROR_NO_EVENT_AVAILABLE
        · rw [get_next_event_at s event answer later hi hq (Or.inr h2)]
          simp [h2]
        · simp [cuda_api_get_next_event, hi, hq, h1, h2]
    · simp only [cuda_api_get_next_event, hq]
      split_ifs with h1 h2
      · simp [hi] at h1
      · rfl
      · rfl

/-- C24 at concrete inputs: `queued_session` after its first answer has been consumed
polls the answer "no event available"; `empty_session` with the API not initialized
polls nothing. -/
theorem get_next_event_invalid_when_none_pending_witness :
    cuda_api_get_next_event { queued_session with api_initialized := false }
        (CUDBGEvent.contextCreate 0 5 1) =
      ({ state := { queued_session with api_initialized := false }, failure := none },
        CUDBGEvent.invalid) ∧
    cuda_api_get_next_event
        (set_driver_events queued_session
          [{ res := CUDBG_ERROR_NO_EVENT_AVAILABLE, event := none },
           delivered CUDBGEvent.timeout])
        (CUDBGEvent.contextCreate 0 5 1) =
      ({ state := set_driver_events
          (set_driver_events queued_session
            [{ res := CUDBG_ERROR_NO_EVENT_AVAILABLE, event := none },
             delivered CUDBGEvent.timeout])
          [delivered CUDBGEvent.timeout],
         failure := none }, CUDBGEvent.invalid) :=
  ⟨(get_next_event_invalid_when_none_pending { queued_session with api_initialized := false }
      (CUDBGEvent.contextCreate 0 5 1) (delivered CUDBGEvent.timeout) []).1 rfl,
    ((get_next_event_invalid_when_none_pending
      (set_driver_events queued_session
        [{ res := CUDBG_ERROR_NO_EVENT_AVAILABLE, event := none },
         delivered CUDBGEvent.timeout])
      (CUDBGEvent.contextCreate 0 5 1)
      { res := CUDBG_ERROR_NO_EVENT_AVAILABLE, event := none }
      [delivered CUDBGEvent.timeout]).2 rfl rfl).1 rfl rfl⟩

/-! ### The wrappers of the debugger API -/

theorem api_fatal_outcome (s : cuda_session) (msg : String) (res : Nat) :
    (cuda_api_fatal s msg res).failure = some (failure.fatal msg res) ∧
    (cuda_api_fatal s msg res).state.api_initialized = s.api_initialized ∧
    (cuda_api_fatal s msg res).state.trace =
      s.trace ++ [effect.driver_finalize,
        effect.kill (s.cuda_gdb_get_tid s.inferior_ptid) SIGKILL] := by
  simp [cuda_api_fatal, record]

/-- C29: `cuda_api_initialize`.  When the API is already marked initialized it returns 0
and leaves the session as it was, the driver not being called.  Otherwise it calls the
driver's `initialize` once; it returns 0 exactly when the result is `CUDBG_SUCCESS` or
`CUDBG_ERROR_SOME_DEVICES_WATCHDOGGED`, and exactly then the API is marked initialized
afterwards; it returns 1 exactly when the result is `CUDBG_ERROR_UNINITIALIZED`, and
then no error is raised and no further call is made; for every other result it calls
the driver's `finalize`, then `kill` with SIGKILL on the debugged process, and stops in
`fatal` without returning. -/
theorem initialize_outcomes (cudbgAPI : CUDBGAPI_st) (s : cuda_session) :
    (s.api_initialized = true →
      cuda_api_initialize cudbgAPI s = ({ state := s, failure := none }, some 0)) ∧
    (s.api_initialized = false →
      (( cuda_api_initialize cudbgAPI s).2 = some 0 ↔
        cudbgAPI.initialize_result = CUDBG_SUCCESS ∨
        cudbgAPI.initialize_result = CUDBG_ERROR_SOME_DEVICES_WATCHDOGGED) ∧
      (( cuda_api_initialize cudbgAPI s).1.state.api_initialized = true ↔
        cudbgAPI.initialize_result = CUDBG_SUCCESS ∨
        cudbgAPI.initialize_result = CUDBG_ERROR_SOME_DEVICES_WATCHDOGGED) ∧
      (( cuda_api_initialize cudbgAPI s).2 = some 1 ↔
        cudbgAPI.initialize_result = CUDBG_ERROR_UNINITIALIZED) ∧
      (cudbgAPI.initialize_result = CUDBG_ERROR_UNINITIALIZED →
        ( cuda_api_initialize cudbgAPI s).1.failure = none ∧
        ( cuda_api_initialize cudbgAPI s).1.state.trace = s.trace ++ [effect.driver_init]) ∧
      ((cudbgAPI.initialize_result = CUDBG_SUCCESS ∨
          cudbgAPI.initialize_result = CUDBG_ERROR_SOME_DEVICES_WATCHDOGGED) →
        ( cuda_api_initialize cudbgAPI s).1.failure = none) ∧
      (cudbgAPI.initialize_result ≠ CUDBG_SUCCESS →
        cudbgAPI.initialize_result ≠ CUDBG_ERROR_SOME_DEVICES_WATCHDOGGED →
        cudbgAPI.initialize_result ≠ CUDBG_ERROR_UNINITIALIZED →
        (∃ msg, ( cuda_api_initialize cudbgAPI s).1.failure =
          some (failure.fatal msg cudbgAPI.initialize_result)) ∧
        ( cuda_api_initialize cudbgAPI s).2 = none ∧
        ( cuda_api_initialize cudbgAPI s).1.state.api_initialized = false ∧
        ( cuda_api_initialize cudbgAPI s).1.state.trace =
          s.trace ++ [effect.driver_init, effect.driver_finalize,
            effect.kill (s.cuda_gdb_get_tid s.inferior_ptid) SIGKILL])) := by
  constructor
  · intro hi
    simp [ cuda_api_initialize, hi]
  · intro hi
    by_cases h1 : cudbgAPI.initialize_result = CUDBG_SUCCESS
    · simp [ cuda_api_initialize, hi, h1, record, CUDBG_SUCCESS, CUDBG_ERROR_UNINITIALIZED,
        CUDBG_ERROR_SOME_DEVICES_WATCHDOGGED]
    · by_cases h2 : cudbgAPI.initialize_result = CUDBG_ERROR_SOME_DEVICES_WATCHDOGGED
      · simp [ cuda_api_initialize, hi, h2, record, CUDBG_SUCCESS, CUDBG_ERROR_UNINITIALIZED,
          CUDBG_ERROR_SOME_DEVICES_WATCHDOGGED]
      · by_cases h3 : cudbgAPI.initialize_result = CUDBG_ERROR_UNINITIALIZED
        · simp [ cuda_api_initialize, hi, h3, record, CUDBG_SUCCESS, CUDBG_ERROR_UNINITIALIZED,
            CUDBG_ERROR_SOME_DEVICES_WATCHDOGGED]
        · have e1 : (cudbgAPI.initialize_result == CUDBG_SUCCESS) = false := by simpa using h1
          have e2 : (cudbgAPI.initialize_result == CUDBG_ERROR_SOME_DEVICES_WATCHDOGGED) =
              false := by simpa using h2
          have e3 : (cudbgAPI.initialize_result == CUDBG_ERROR_UNINITIALIZED) = false := by
            simpa using h3
          simp only [ cuda_api_initialize, hi, Bool.false_eq_true, if_false, e1, e2, e3, h1, h2,
            h3, false_or, or_false, false_iff, iff_false, false_imp_iff, true_and,
            not_false_eq_true, true_imp_iff, imp_self]
          split_ifs <;>
            simp [api_fatal_outcome, record, hi]

/-- C29 at concrete inputs: on a session whose API is not initialized, a driver whose
`initialize` succeeds, and one that reports all devices watchdogged. -/
theorem initialize_outcomes_witness :
    ({ empty_session with api_initialized := false } : cuda_session).api_initialized = false ∧
    (( cuda_api_initialize example_driver
        { empty_session with api_initialized := false }).2 = some 0 ∧
     ( cuda_api_initialize example_driver
        { empty_session with api_initialized := false }).1.state.api_initialized = true) ∧
    ((∃ msg, ( cuda_api_initialize
        { example_driver with initialize_result := CUDBG_ERROR_ALL_DEVICES_WATCHDOGGED }
        { empty_session with api_initialized := false }).1.failure =
          some (failure.fatal msg CUDBG_ERROR_ALL_DEVICES_WATCHDOGGED)) ∧
      ( cuda_api_initialize
        { example_driver with initialize_result := CUDBG_ERROR_ALL_DEVICES_WATCHDOGGED }
        { empty_session with api_initialized := false }).2 = none ∧
      ( cuda_api_initialize
        { example_driver with initialize_result := CUDBG_ERROR_ALL_DEVICES_WATCHDOGGED }
        { empty_session with api_initialized := false }).1.state.api_initialized = false ∧
      ( cuda_api_initialize
        { example_driver with initialize_result := CUDBG_ERROR_ALL_DEVICES_WATCHDOGGED }
        { empty_session with api_initialized := false }).1.state.trace =
          ({ empty_session with api_initialized := false } : cuda_session).trace ++
            [effect.driver_init, effect.driver_finalize, effect.kill 1 SIGKILL]) :=
  ⟨rfl,
    ⟨((initialize_outcomes example_driver
        { empty_session with api_initialized := false }).2 rfl).1.mpr (Or.inl rfl),
     ((initialize_outcomes example_driver
        { empty_session with api_initialized := false }).2 rfl).2.1.mpr (Or.inl rfl)⟩,
    ((initialize_outcomes
        { example_driver with initialize_result := CUDBG_ERROR_ALL_DEVICES_WATCHDOGGED }
        { empty_session with api_initialized := false }).2 rfl).2.2.2.2.2
      (by decide) (by decide) (by decide)⟩

theorem api_finalize_eq (s : cuda_session) :
    cuda_api_finalize s =
      if s.api_initialized = true then
        { s with
          api_initialized := false
          trace := s.trace ++ (effect.driver_finalize ::
            (if s.driver_finalize_result = CUDBG_SUCCESS then []
             else [effect.warning_finalize_failed s.driver_finalize_result])) }
      else s := by
  cases hi : s.api_initialized <;>
    by_cases hr : s.driver_finalize_result = CUDBG_SUCCESS <;>
    simp [cuda_api_finalize, record, hi, hr]

theorem api_finalize_uninitialized (s : cuda_session) :
    (cuda_api_finalize s).api_initialized = false := by
  rw [api_finalize_eq]
  by_cases h : s.api_initialized = true
  · rw [if_pos h]
  · rw [if_neg h]
    exact Bool.eq_false_iff.mpr h

/-- C30: `cuda_api_finalize` returns in every case (it raises no error) and leaves the
API marked uninitialized.  The calls it makes are the driver's `finalize`, once, when
the API was initialized, followed by a warning when the driver's `finalize` failed, and
none when the API was not initialized; a second call in a row makes no call and changes
nothing.  After it, the wrappers guarded by the flag return without calling the
driver: `cuda_api_get_num_devices` reports 0 devices, `cuda_api_get_next_event` leaves
the event INVALID without consuming an answer, and `cuda_api_read_global_memory` and
`cuda_api_write_global_memory` leave the buffer and the session as they were. -/
theorem finalize_marks_uninitialized (cudbgAPI : CUDBGAPI_st) (host : host_memory)
    (s : cuda_session) :
    (cuda_api_finalize s).api_initialized = false ∧
    (cuda_api_finalize s).trace =
      s.trace ++ (if s.api_initialized = true then
        effect.driver_finalize ::
          (if s.driver_finalize_result = CUDBG_SUCCESS then []
           else [effect.warning_finalize_failed s.driver_finalize_result])
        else []) ∧
    ((cuda_api_finalize s).trace.count effect.driver_finalize =
      s.trace.count effect.driver_finalize + if s.api_initialized = true then 1 else 0) ∧
    cuda_api_finalize (cuda_api_finalize s) = cuda_api_finalize s ∧
    cuda_api_get_num_devices cudbgAPI (cuda_api_finalize s) =
      ({ state := cuda_api_finalize s, failure := none }, 0) ∧
    (∀ event, cuda_api_get_next_event (cuda_api_finalize s) event =
      ({ state := cuda_api_finalize s, failure := none }, CUDBGEvent.invalid)) ∧
    (∀ dev sm wp ln addr buf sz,
      cuda_api_read_global_memory cudbgAPI host (cuda_api_finalize s) dev sm wp ln addr
        buf sz = ({ state := cuda_api_finalize s, failure := none }, buf) ∧
      cuda_api_write_global_memory cudbgAPI host (cuda_api_finalize s) dev sm wp ln addr buf
        sz = { state := cuda_api_finalize s, failure := none }) := by
  have hu := api_finalize_uninitialized s
  refine ⟨hu, ?_, ?_, ?_, ?_, ?_, ?_⟩
  · rw [api_finalize_eq]
    split_ifs <;> simp
  · rw [api_finalize_eq]
    split_ifs <;> simp [List.count_cons]
  · conv_lhs => rw [api_finalize_eq]
    simp [hu]
  · simp [cuda_api_get_num_devices, hu]
  · intro event
    simp [cuda_api_get_next_event, hu]
  · intro dev sm wp ln addr buf sz
    simp [cuda_api_read_global_memory, cuda_api_write_global_memory, hu]

/-- C30 at a concrete input: `empty_session`, whose API is initialized, with a driver
whose `finalize` fails with result 1. -/
theorem finalize_marks_uninitialized_witness :
    (cuda_api_finalize { empty_session with driver_finalize_result := 1 }).trace =
      [effect.driver_finalize, effect.warning_finalize_failed 1] ∧
    (cuda_api_finalize { empty_session with driver_finalize_result := 1 }).api_initialized =
      false ∧
    cuda_api_get_num_devices example_driver
        (cuda_api_finalize { empty_session with driver_finalize_result := 1 }) =
      ({ state := cuda_api_finalize { empty_session with driver_finalize_result := 1 },
         failure := none }, 0) ∧
    (cuda_api_get_num_devices example_driver
        { empty_session with driver_finalize_result := 1 }).2 = 2 :=
  ⟨by decide,
    (finalize_marks_uninitialized example_driver example_host
      { empty_session with driver_finalize_result := 1 }).1,
    (finalize_marks_uninitialized example_driver example_host
      { empty_session with driver_finalize_result := 1 }).2.2.2.2.1,
    by decide⟩

/-- C25, as stated, fails: for `example_driver` the address 8192 is not in device memory
and is translated, without failure, to the host address 73728, which cannot be read in
`protected_host`; the driver result is `CUDBG_ERROR_ADDRESS_NOT_IN_DEVICE_MEM` and the
translation succeeds, yet `cuda_api_read_global_memory` ends with the memory error that
`read_memory` raises, and `cuda_api_write_global_memory` with that of `write_memory`. -/
theorem host_access_error_propagates :
    empty_session.api_initialized = true ∧
    example_driver.readGlobalMemory 0 0 0 0 8192 [9, 9, 9, 9] 2 =
      (CUDBG_ERROR_ADDRESS_NOT_IN_DEVICE_MEM, [9, 9, 9, 9]) ∧
    example_driver.writeGlobalMemory 0 0 0 0 8192 [9, 9, 9, 9] 2 =
      CUDBG_ERROR_ADDRESS_NOT_IN_DEVICE_MEM ∧
    example_driver.getHostAddrFromDeviceAddr 0 8192 = (CUDBG_SUCCESS, 73728) ∧
    (cuda_api_read_global_memory example_driver protected_host empty_session 0 0 0 0 8192
      [9, 9, 9, 9] 2).1.failure = some (failure.memory_error 73728) ∧
    (cuda_api_write_global_memory example_driver protected_host empty_session 0 0 0 0 8192
      [9, 9, 9, 9] 2).failure = some (failure.memory_error 73728) ∧
    ¬ ((cuda_api_read_global_memory example_driver protected_host empty_session 0 0 0 0 8192
          [9, 9, 9, 9] 2).1.failure ≠ none ↔
        ((example_driver.readGlobalMemory 0 0 0 0 8192 [9, 9, 9, 9] 2).1 ≠ CUDBG_SUCCESS ∧
          (example_driver.readGlobalMemory 0 0 0 0 8192 [9, 9, 9, 9] 2).1 ≠
            CUDBG_ERROR_ADDRESS_NOT_IN_DEVICE_MEM) ∨
        ((example_driver.readGlobalMemory 0 0 0 0 8192 [9, 9, 9, 9] 2).1 =
            CUDBG_ERROR_ADDRESS_NOT_IN_DEVICE_MEM ∧
          (example_driver.getHostAddrFromDeviceAddr 0 8192).1 ≠ CUDBG_SUCCESS)) := by
  refine ⟨rfl, rfl, rfl, rfl, by decide, by decide, by decide⟩

/-- C25, amended: with the API initialized, `cuda_api_read_global_memory` calls the
driver's `readGlobalMemory` and raises an error exactly when its result is neither
`CUDBG_SUCCESS` nor `CUDBG_ERROR_ADDRESS_NOT_IN_DEVICE_MEM`, or is
`CUDBG_ERROR_ADDRESS_NOT_IN_DEVICE_MEM` and `getHostAddrFromDeviceAddr` fails, or the
translation succeeds and `read_memory` raises a memory error for the translated
address.  When the result is `CUDBG_ERROR_ADDRESS_NOT_IN_DEVICE_MEM`, the translation
succeeds and the host range can be read, the first `sz` bytes of the buffer are the `sz`
bytes of host memory at the translated address and the rest of the buffer is as the
driver left it; when the result is `CUDBG_SUCCESS` the driver's read is the only call
and the buffer is as the driver left it.  `cuda_api_write_global_memory` does the same
with `writeGlobalMemory` and `write_memory`. -/
theorem global_memory_fallback (cudbgAPI : CUDBGAPI_st) (host : host_memory)
    (s : cuda_session) (dev sm wp ln addr : Nat) (buf : List Nat) (sz : Nat)
    (res : Nat) (filled : List Nat) (wres tres hostaddr : Nat)
    (hi : s.api_initialized = true)
    (hread : cudbgAPI.readGlobalMemory dev sm wp ln addr buf sz = (res, filled))
    (hwrite : cudbgAPI.writeGlobalMemory dev sm wp ln addr buf sz = wres)
    (htr : cudbgAPI.getHostAddrFromDeviceAddr dev addr = (tres, hostaddr)) :
    (((cuda_api_read_global_memory cudbgAPI host s dev sm wp ln addr buf sz).1.failure ≠ none ↔
        (res ≠ CUDBG_SUCCESS ∧ res ≠ CUDBG_ERROR_ADDRESS_NOT_IN_DEVICE_MEM) ∨
        (res = CUDBG_ERROR_ADDRESS_NOT_IN_DEVICE_MEM ∧ tres ≠ CUDBG_SUCCESS) ∨
        (res = CUDBG_ERROR_ADDRESS_NOT_IN_DEVICE_MEM ∧ tres = CUDBG_SUCCESS ∧
          host.readable hostaddr sz = false)) ∧
     (res = CUDBG_ERROR_ADDRESS_NOT_IN_DEVICE_MEM → tres = CUDBG_SUCCESS →
        (cuda_api_read_global_memory cudbgAPI host s dev sm wp ln addr buf sz).1.state.trace =
          s.trace ++ [effect.driver_read_global_memory dev sm wp ln addr sz,
            effect.driver_get_host_addr_from_device_addr dev addr,
            effect.read_memory hostaddr sz] ∧
        (host.readable hostaddr sz = true →
          (cuda_api_read_global_memory cudbgAPI host s dev sm wp ln addr buf sz).2 =
            (List.range sz).map (fun i => host.byte (hostaddr + i)) ++ filled.drop sz)) ∧
     (res = CUDBG_SUCCESS →
        (cuda_api_read_global_memory cudbgAPI host s dev sm wp ln addr buf sz).2 = filled ∧
        (cuda_api_read_global_memory cudbgAPI host s dev sm wp ln addr buf sz).1.state.trace =
          s.trace ++ [effect.driver_read_global_memory dev sm wp ln addr sz])) ∧
    (((cuda_api_write_global_memory cudbgAPI host s dev sm wp ln addr buf sz).failure ≠ none ↔
        (wres ≠ CUDBG_SUCCESS ∧ wres ≠ CUDBG_ERROR_ADDRESS_NOT_IN_DEVICE_MEM) ∨
        (wres = CUDBG_ERROR_ADDRESS_NOT_IN_DEVICE_MEM ∧ tres ≠ CUDBG_SUCCESS) ∨
        (wres = CUDBG_ERROR_ADDRESS_NOT_IN_DEVICE_MEM ∧ tres = CUDBG_SUCCESS ∧
          host.writable hostaddr sz = false)) ∧
     (wres = CUDBG_ERROR_ADDRESS_NOT_IN_DEVICE_MEM → tres = CUDBG_SUCCESS →
        (cuda_api_write_global_memory cudbgAPI host s dev sm wp ln addr buf sz).state.trace =
          s.trace ++ [effect.driver_write_global_memory dev sm wp ln addr buf sz,
            effect.driver_get_host_addr_from_device_addr dev addr,
            effect.write_memory hostaddr buf sz]) ∧
     (wres = CUDBG_SUCCESS →
        (cuda_api_write_global_memory cudbgAPI host s dev sm wp ln addr buf sz).state.trace =
          s.trace ++ [effect.driver_write_global_memory dev sm wp ln addr buf sz])) := by
  constructor
  · by_cases h1 : res = CUDBG_SUCCESS
    · subst h1
      simp [cuda_api_read_global_memory, hi, hread, record, CUDBG_SUCCESS,
        CUDBG_ERROR_ADDRESS_NOT_IN_DEVICE_MEM]
    · by_cases h2 : res = CUDBG_ERROR_ADDRESS_NOT_IN_DEVICE_MEM
      · subst h2
        by_cases h3 : tres = CUDBG_SUCCESS
        · subst h3
          cases hr : host.readable hostaddr sz <;>
            simp [cuda_api_read_global_memory, read_memory, hi, hread, htr, record, hr,
              CUDBG_SUCCESS, CUDBG_ERROR_ADDRESS_NOT_IN_DEVICE_MEM]
        · have h4 : ¬ tres = 0 := h3
          cases hr : host.readable hostaddr sz <;>
            simp [cuda_api_read_global_memory, read_memory, hi, hread, htr, record, h4, hr,
              CUDBG_SUCCESS, CUDBG_ERROR_ADDRESS_NOT_IN_DEVICE_MEM]
      · simp [cuda_api_read_global_memory, hi, hread, record, h1, h2]
  · by_cases h1 : wres = CUDBG_SUCCESS
    · subst h1
      simp [cuda_api_write_global_memory, hi, hwrite, record, CUDBG_SUCCESS,
        CUDBG_ERROR_ADDRESS_NOT_IN_DEVICE_MEM]
    · by_cases h2 : wres = CUDBG_ERROR_ADDRESS_NOT_IN_DEVICE_MEM
      · subst h2
        by_cases h3 : tres = CUDBG_SUCCESS
        · subst h3
          cases hr : host.writable hostaddr sz <;>
            simp [cuda_api_write_global_memory, write_memory, hi, hwrite, htr, record, hr,
              CUDBG_SUCCESS, CUDBG_ERROR_ADDRESS_NOT_IN_DEVICE_MEM]
        · have h4 : ¬ tres = 0 := h3
          cases hr : host.writable hostaddr sz <;>
            simp [cuda_api_write_global_memory, write_memory, hi, hwrite, htr, record, h4, hr,
              CUDBG_SUCCESS, CUDBG_ERROR_ADDRESS_NOT_IN_DEVICE_MEM]
      · simp [cuda_api_write_global_memory, hi, hwrite, record, h1, h2]

/-- C25, amended, at a concrete input: address 8192 is not in device memory for
`example_driver`, which translates it to the host address 73728; two bytes are read
there into a buffer of four bytes, whose last two bytes stay as they were. -/
theorem global_memory_fallback_witness :
    (empty_session.api_initialized = true ∧
     example_driver.readGlobalMemory 0 0 0 0 8192 [9, 9, 9, 9] 2 =
       (CUDBG_ERROR_ADDRESS_NOT_IN_DEVICE_MEM, [9, 9, 9, 9]) ∧
     example_driver.writeGlobalMemory 0 0 0 0 8192 [9, 9, 9, 9] 2 =
       CUDBG_ERROR_ADDRESS_NOT_IN_DEVICE_MEM ∧
     example_driver.getHostAddrFromDeviceAddr 0 8192 = (CUDBG_SUCCESS, 73728) ∧
     example_host.readable 73728 2 = true) ∧
    (cuda_api_read_global_memory example_driver example_host empty_session 0 0 0 0 8192
      [9, 9, 9, 9] 2).2 = [0, 1, 9, 9] ∧
    ((cuda_api_read_global_memory example_driver example_host empty_session 0 0 0 0 8192
        [9, 9, 9, 9] 2).1.state.trace =
       empty_session.trace ++ [effect.driver_read_global_memory 0 0 0 0 8192 2,
         effect.driver_get_host_addr_from_device_addr 0 8192,
         effect.read_memory 73728 2] ∧
     (example_host.readable 73728 2 = true →
       (cuda_api_read_global_memory example_driver example_host empty_session 0 0 0 0 8192
         [9, 9, 9, 9] 2).2 =
         (List.range 2).map (fun i => example_host.byte (73728 + i)) ++
           [9, 9, 9, 9].drop 2)) ∧
    (cuda_api_write_global_memory example_driver example_host empty_session 0 0 0 0 8192
        [9, 9, 9, 9] 2).state.trace =
      empty_session.trace ++ [effect.driver_write_global_memory 0 0 0 0 8192 [9, 9, 9, 9] 2,
        effect.driver_get_host_addr_from_device_addr 0 8192,
        effect.write_memory 73728 [9, 9, 9, 9] 2] :=
  ⟨⟨rfl, rfl, rfl, rfl, rfl⟩, by decide,
    (global_memory_fallback example_driver example_host empty_session 0 0 0 0 8192
      [9, 9, 9, 9] 2 CUDBG_ERROR_ADDRESS_NOT_IN_DEVICE_MEM [9, 9, 9, 9]
      CUDBG_ERROR_ADDRESS_NOT_IN_DEVICE_MEM CUDBG_SUCCESS 73728 rfl rfl rfl rfl).1.2.1 rfl rfl,
    (global_memory_fallback example_driver example_host empty_session 0 0 0 0 8192
      [9, 9, 9, 9] 2 CUDBG_ERROR_ADDRESS_NOT_IN_DEVICE_MEM [9, 9, 9, 9]
      CUDBG_ERROR_ADDRESS_NOT_IN_DEVICE_MEM CUDBG_SUCCESS 73728 rfl rfl rfl rfl).2.2.1 rfl rfl⟩

end CudaGdb
